import Mathlib

/-!
# terraform-provider-mssql: statement synthesis

A shallow embedding of the SQL-building code of the provider
(`sql/user.go`, `sql/database_schema.go`, `mssql/resource_database_sqlscript.go`)
and of the resource functions that call it (`mssql/resource_user.go`,
`mssql/resource_database_role.go`, `mssql/resource_database_schema.go`,
`mssql/resource_database_masterkey.go`, `mssql/utils.go`).

Conventions of the embedding.

* Go `string` and T-SQL `nvarchar` values are Lean `String`s; a nullable T-SQL
  variable is an `Option String` (`none` is `NULL`) and `+` on it yields `NULL`
  as soon as one operand is `NULL`.
* A T-SQL `=` or `!=` between a parameter of the batch and a literal is `sqlEq`:
  the server pads the shorter operand with blanks, so trailing blanks do not
  count, and then compares under the collation, whose key function `collate`
  is a parameter (`id` is a binary collation, `asciiToUpper` a case-insensitive
  one on ASCII text). A comparison under `COLLATE SQL_Latin1_General_CP1_CI_AS`
  compares the keys of a `collate` parameter. A lookup of a catalog row by the
  name of a principal or schema that is given as it is stored is string
  equality.
* A T-SQL batch is embedded as the list of dynamic statements it hands to
  `EXEC`, in execution order. A cursor loop is a map over the rows its query
  returns on the catalog at the time the cursor is opened.
* Go library functions whose tables are not part of the repository
  (`strings.ToUpper`, `strings.ToLower`, `base64.StdEncoding.DecodeString`) are
  parameters; `asciiToUpper`, `asciiToLower` and `asciiDecodeString` are the
  instances used on concrete inputs.
* Helpers of package `mssql` whose source is not at hand (`serverFromId`, the
  id builders other than `getUserID`) are parameters of the functions that call
  them.
* The plugin SDK is not part of the repository. A `TypeSet` attribute is held
  as the list `Set.List()` gives for it, and the list that results when
  `data.Set` stores a slice in it (each value once, in the order of the SDK) is
  the parameter `SetList` of the functions of the user resource.
* The server built-in `QUOTENAME` is modelled from section 4.1 of the spec.
-/

namespace Mssql

set_option maxRecDepth 100000

deriving instance DecidableEq for Except

/-! ## Go and T-SQL string primitives -/

/-- The single-quote character. -/
def apostrophe : Char := Char.ofNat 39

/-- Worker of `Split`: cut a character list at every occurrence of `sep`. -/
def splitChars (sep : Char) : List Char → List (List Char)
  | [] => [[]]
  | c :: cs =>
    if c = sep then [] :: splitChars sep cs
    else
      match splitChars sep cs with
      | [] => [[c]]
      | h :: t => (c :: h) :: t

/-- Go `strings.Split(s, sep)` for a one-character separator: all substrings
between the separators; the empty string yields one empty field. -/
def Split (s : String) (sep : Char) : List String :=
  (splitChars sep s.data).map String.mk

/-- T-SQL `STRING_SPLIT(string, separator)` (and the `String_Split` shim):
one row per separated field. -/
def String_Split (s : String) (sep : Char) : List String :=
  Split s sep

/-- Go `strings.Join(elems, sep)`. -/
def Join : List String → String → String
  | [], _ => ""
  | [a], _ => a
  | a :: b :: rest, sep => a ++ sep ++ Join (b :: rest) sep

/-- Go `unicode.IsSpace`: the Latin-1 spaces and the code points with the
Unicode White_Space property. -/
def isSpace (c : Char) : Bool :=
  let n := c.toNat
  n = 0x09 || n = 0x0A || n = 0x0B || n = 0x0C || n = 0x0D || n = 0x20 ||
  n = 0x85 || n = 0xA0 || n = 0x1680 || (0x2000 ≤ n && n ≤ 0x200A) ||
  n = 0x2028 || n = 0x2029 || n = 0x202F || n = 0x205F || n = 0x3000

/-- Worker of `Fields`: `cur` is the token being read. -/
def fieldsGo : List Char → List Char → List (List Char)
  | cur, [] => if cur.isEmpty then [] else [cur]
  | cur, c :: cs =>
    if isSpace c then
      (if cur.isEmpty then fieldsGo [] cs else cur :: fieldsGo [] cs)
    else fieldsGo (cur ++ [c]) cs

/-- Go `strings.Fields(s)`: the maximal runs of non-space characters. -/
def Fields (s : String) : List String :=
  (fieldsGo [] s.data).map String.mk

/-- ASCII upper-casing, an instance of the `ToUpper` parameter that agrees
with Go `strings.ToUpper` on ASCII input. -/
def asciiToUpper (s : String) : String :=
  String.mk (s.data.map Char.toUpper)

/-- Double every occurrence of the character `q`. -/
def doubleChar (q : Char) : List Char → List Char
  | [] => []
  | c :: cs => if c = q then c :: c :: doubleChar q cs else c :: doubleChar q cs

/-- Modelled from the spec: the server built-in `QUOTENAME`, which is not part
of the repository. Section 4.1: `quote(identifier)` wraps in bracket-delimited
quoting and doubles any embedded closing bracket. -/
def QuoteName (identifier : String) : String :=
  "[" ++ String.mk (doubleChar ']' identifier.data) ++ "]"

/-- Modelled from the spec: `QUOTENAME(value, '''')`, which is not part of the
repository. Section 4.1: `quoteLiteral(value)` wraps in single quotes and
doubles embedded quotes. -/
def QuoteLiteral (value : String) : String :=
  "'" ++ String.mk (doubleChar apostrophe value.data) ++ "'"

/-- T-SQL `+` on nullable strings: `NULL` as soon as one operand is `NULL`. -/
def concatNull (a b : Option String) : Option String :=
  match a, b with
  | some x, some y => some (x ++ y)
  | _, _ => none

/-- T-SQL `COALESCE(a, b)` with a non-null fallback. -/
def Coalesce (a : Option String) (b : String) : String :=
  match a with
  | some x => x
  | none => b

/-- The text without its trailing blanks. -/
def rtrim (s : String) : String :=
  String.mk (s.data.reverse.dropWhile (fun c => c = ' ')).reverse

/-- T-SQL `a = b` on strings: the operands are compared without their trailing
blanks, under the collation with key function `collate`. -/
abbrev sqlEq (collate : String → String) (a b : String) : Prop :=
  collate (rtrim a) = collate (rtrim b)

/-! ## sql/database_schema.go -/

/-- The batch of `Connector.CreateDatabaseSchema`: the statements handed to
`EXEC`, for the parameters `@schemaName` and `@ownerName`. `collate` is the key
function of the collation under which the server compares `@ownerName` with
the literals. -/
def CreateDatabaseSchema (collate : String → String) (schemaName ownerName : String) :
    List String :=
  let sql :=
    if sqlEq collate ownerName "dbo" ∨ sqlEq collate ownerName "" then
      "CREATE SCHEMA " ++ schemaName
    else
      "CREATE SCHEMA " ++ schemaName ++ " AUTHORIZATION " ++ ownerName
  [sql]

/-- The batch of `Connector.DeleteDatabaseSchema`. `azure` is the outcome of
`@@VERSION LIKE 'Microsoft SQL Azure%'`, `user_name` the value of `USER_NAME()`,
`collate` the key function of the collation of the comparison with `'master'`. -/
def DeleteDatabaseSchema (collate : String → String) (azure : Bool)
    (user_name database schemaName : String) : List String :=
  if azure ∧ sqlEq collate database "master" then
    let stmt := "IF EXISTS (SELECT 1 FROM [sys].[schemas] WHERE [name] = " ++
      QuoteLiteral schemaName ++ ") " ++ "DROP SCHEMA " ++ schemaName
    [stmt]
  else
    let sql := "IF EXISTS (SELECT 1 FROM [sys].[schemas] dp1 INNER JOIN [sys].[database_principals] dp2 ON dp1.principal_id = dp2.principal_id AND dp1.name = " ++
      QuoteLiteral schemaName ++ ") " ++
      "ALTER AUTHORIZATION ON SCHEMA:: [" ++ schemaName ++ "] TO [" ++ user_name ++ "]"
    let stmt := "IF EXISTS (SELECT 1 FROM [sys].[schemas] WHERE [name] = " ++
      QuoteLiteral schemaName ++ ") " ++ "DROP SCHEMA " ++ schemaName
    [sql, stmt]

/-- The batch of `Connector.UpdateDatabaseSchema`. `user_name` is the value of
`USER_NAME()`, `collate` the key function of the collation under which the
server compares `@ownerName` with the literals. -/
def UpdateDatabaseSchema (collate : String → String) (user_name schemaName ownerName : String) :
    List String :=
  let ownerName :=
    if sqlEq collate ownerName "dbo" ∨ sqlEq collate ownerName "" then user_name else ownerName
  let sql := "ALTER AUTHORIZATION ON SCHEMA:: [" ++ schemaName ++ "] TO [" ++ ownerName ++ "]"
  [sql]

/-! ## The database catalog -/

/-- A row of `sys.database_principals`, with the columns the batches read. -/
structure DatabasePrincipal where
  principal_id : Int
  name : String
  type : String
  owning_principal_id : Option Int
  deriving DecidableEq

/-- A row of `sys.database_role_members`. -/
structure DatabaseRoleMember where
  role_principal_id : Int
  member_principal_id : Int
  deriving DecidableEq

/-- A row of `sys.schemas`. -/
structure SchemaRow where
  schema_id : Int
  name : String
  principal_id : Int
  deriving DecidableEq

/-- The catalog views of the target database that the batches query. -/
structure Catalog where
  database_principals : List DatabasePrincipal
  database_role_members : List DatabaseRoleMember
  schemas : List SchemaRow
  deriving DecidableEq

/-- T-SQL `DATABASE_PRINCIPAL_ID(name)`: the id of the principal of that name,
`NULL` when there is none. -/
def DATABASE_PRINCIPAL_ID (cat : Catalog) (name : String) : Option Int :=
  (cat.database_principals.find? (fun p => p.name = name)).map (fun p => p.principal_id)

/-! ## sql/user.go -/

/-- Go `model.User`, with the fields the connector reads and writes. -/
structure User where
  PrincipalID : Int
  Username : String
  ObjectId : String
  LoginName : String
  Password : String
  SIDStr : String
  AuthType : String
  TypeStr : String
  DefaultSchema : String
  DefaultLanguage : String
  Roles : List String
  deriving DecidableEq

/-- The tail of `Connector.GetUser` (user.go lines 91-96): the role list of the
entity, from the `roles` aggregate scanned out of the catalog row. -/
def GetUser_roles (roles : String) : List String :=
  if roles = "" then [] else Split roles ','

/-- The role-assignment batch that `Connector.CreateUser` appends to `@stmt`
(user.go lines 169-182), for `@database`, `@username` and `@roles`. -/
def CreateUser_roleBatch (database username roles : String) : String :=
  "; " ++
  "DECLARE role_cur CURSOR FOR SELECT name FROM " ++ QuoteName database ++
  ".[sys].[database_principals] WHERE type = 'R' AND name != 'public' AND name COLLATE SQL_Latin1_General_CP1_CI_AS IN (SELECT value FROM String_Split(" ++
  QuoteLiteral roles ++ ", ','));" ++
  "DECLARE @role nvarchar(max);" ++
  "OPEN role_cur;" ++
  "FETCH NEXT FROM role_cur INTO @role;" ++
  "WHILE @@FETCH_STATUS = 0" ++
  "  BEGIN" ++
  "    DECLARE @sql nvarchar(max);" ++
  "    SET @sql = 'ALTER ROLE ' + QuoteName(@role) + ' ADD MEMBER " ++ QuoteName username ++ "';" ++
  "    EXEC (@sql);" ++
  "    FETCH NEXT FROM role_cur INTO @role;" ++
  "  END;" ++
  "CLOSE role_cur;" ++
  "DEALLOCATE role_cur;"

/-- The value of `@stmt` that the batch of `Connector.CreateUser` hands to
`EXEC`: `none` is `NULL` (nothing is executed), an error is a conversion error
raised while the text is built. `azure` is the outcome of
`@@VERSION LIKE 'Microsoft SQL Azure%'`; `guidToSid` is
`CONVERT(varchar(64), CAST(CAST(@objectId AS UNIQUEIDENTIFIER) AS VARBINARY(16)), 1)`,
which fails on a text that is no GUID; the tests of the parameters against `''`
are `sqlEq` under the collation key `collate`. The creation of the
`String_Split` shim (lines 139-168) does not touch `@stmt` and is left out. -/
def CreateUser (collate : String → String) (azure : Bool)
    (guidToSid : String → Except String String)
    (database : String) (user : User) : Except String (Option String) := do
  let username := user.Username
  let objectId := user.ObjectId
  let loginName := user.LoginName
  let password := user.Password
  let defaultSchema := user.DefaultSchema
  let roles := Join user.Roles ","
  let language : Option String :=
    if sqlEq collate user.DefaultLanguage "" then none else some user.DefaultLanguage
  let typeStr := if sqlEq collate user.TypeStr "" then "E" else user.TypeStr
  let stmt0 : Option String := none
  let stmt1 : Option String :=
    if ¬ sqlEq collate loginName "" ∧ ¬ sqlEq collate username "" ∧
        sqlEq collate password "" then
      some ("CREATE USER " ++ QuoteName username ++ " FOR LOGIN " ++ QuoteName loginName ++ " " ++
        "WITH DEFAULT_SCHEMA = " ++ QuoteName defaultSchema)
    else stmt0
  let stmt2 : Option String :=
    if sqlEq collate loginName "" ∧ ¬ sqlEq collate username "" ∧
        ¬ sqlEq collate password "" then
      let s := "CREATE USER " ++ QuoteName username ++ " WITH PASSWORD = " ++
        QuoteLiteral password ++ ", " ++ "DEFAULT_SCHEMA = " ++ QuoteName defaultSchema
      if ¬ azure then
        some (s ++ ", DEFAULT_LANGUAGE = " ++ Coalesce (language.map QuoteName) "NONE")
      else some s
    else stmt1
  let stmt3 : Option String ←
    if sqlEq collate loginName "" ∧ ¬ sqlEq collate username "" ∧
        sqlEq collate password "" then
      if azure then
        if ¬ sqlEq collate objectId "" then do
          let sid ← guidToSid objectId
          pure (some ("CREATE USER " ++ QuoteName username ++ " WITH DEFAULT_SCHEMA = " ++
            QuoteName defaultSchema ++ ", SID = " ++ sid ++ ", TYPE = " ++ typeStr))
        else
          pure (some ("CREATE USER " ++ QuoteName username ++
            " FROM EXTERNAL PROVIDER WITH DEFAULT_SCHEMA = " ++ QuoteName defaultSchema))
      else
        pure (some ("CREATE USER " ++ QuoteName username ++ " FOR LOGIN " ++ QuoteName username ++
          " FROM EXTERNAL PROVIDER " ++ "WITH DEFAULT_SCHEMA = " ++ QuoteName defaultSchema ++
          ", " ++ "DEFAULT_LANGUAGE = " ++ Coalesce (language.map QuoteName) "NONE"))
    else pure stmt2
  pure (concatNull stmt3 (some (CreateUser_roleBatch database username roles)))

/-- The subquery of the two cursors of `Connector.UpdateUser`,
`SELECT name FROM [sys].[database_role_members] drm, [sys].[database_principals] db
WHERE drm.member_principal_id = DATABASE_PRINCIPAL_ID(@username)
AND drm.role_principal_id = db.principal_id`:
the names of the roles the user is a direct member of. -/
def memberRoleNames (cat : Catalog) (username : String) : List String :=
  cat.database_role_members.flatMap (fun drm =>
    (cat.database_principals.filter (fun db =>
      some drm.member_principal_id = DATABASE_PRINCIPAL_ID cat username ∧
      drm.role_principal_id = db.principal_id)).map (fun db => db.name))

/-- The rows of `del_role_cur` (user.go line 249): the non-public roles the user
is a member of whose name, under the collation, is not among the fields of
`@roles`. -/
def del_role_cur (collate : String → String) (cat : Catalog) (username roles : String) :
    List String :=
  (cat.database_principals.filter (fun p =>
    p.type = "R" ∧ p.name ≠ "public" ∧ p.name ∈ memberRoleNames cat username ∧
    ¬ ∃ v ∈ String_Split roles ',', collate p.name = collate v)).map (fun p => p.name)

/-- The rows of `add_role_cur` (user.go line 250): the non-public roles the user
is not a member of whose name, under the collation, is among the fields of
`@roles`. -/
def add_role_cur (collate : String → String) (cat : Catalog) (username roles : String) :
    List String :=
  (cat.database_principals.filter (fun p =>
    p.type = "R" ∧ p.name ≠ "public" ∧ p.name ∉ memberRoleNames cat username ∧
    ∃ v ∈ String_Split roles ',', collate p.name = collate v)).map (fun p => p.name)

/-- A membership statement built inside a cursor loop. -/
inductive RoleMemberStmt where
  | dropMember (role member : String)
  | addMember (role member : String)
  deriving DecidableEq

/-- The text of a membership statement (user.go lines 255 and 265):
`'ALTER ROLE ' + QuoteName(@role) + ' DROP MEMBER <quoted user>'` and the
same with `ADD MEMBER`. -/
def RoleMemberStmt.sql : RoleMemberStmt → String
  | .dropMember role member =>
    "ALTER ROLE " ++ QuoteName role ++ " DROP MEMBER " ++ QuoteName member
  | .addMember role member =>
    "ALTER ROLE " ++ QuoteName role ++ " ADD MEMBER " ++ QuoteName member

/-- Spec-following definition (section 8, diff correctness: the statements
"applied to" the current membership): what executing a membership statement
does to `sys.database_role_members`. Dropping removes the rows of that role
and member; adding puts one row in, unless it is there. A statement that names
a principal that does not exist changes nothing. -/
def RoleMemberStmt.exec (cat : Catalog) : RoleMemberStmt → Catalog
  | .dropMember role member =>
    match DATABASE_PRINCIPAL_ID cat role, DATABASE_PRINCIPAL_ID cat member with
    | some r, some m =>
      { cat with database_role_members :=
          cat.database_role_members.filter (fun x =>
            ¬ (x.role_principal_id = r ∧ x.member_principal_id = m)) }
    | _, _ => cat
  | .addMember role member =>
    match DATABASE_PRINCIPAL_ID cat role, DATABASE_PRINCIPAL_ID cat member with
    | some r, some m =>
      if (⟨r, m⟩ : DatabaseRoleMember) ∈ cat.database_role_members then cat
      else { cat with database_role_members := cat.database_role_members ++ [⟨r, m⟩] }
    | _, _ => cat

/-- The two cursor loops of the batch that `Connector.UpdateUser` executes
(user.go lines 251-270), when the dynamic batch is the one the source writes:
the membership statements in execution order, and the catalog they leave.
`del_role_cur` is opened on the catalog before the loops, `add_role_cur` after
the drop loop has run. The `ALTER USER` statement that precedes the loops
changes neither view and is left out. -/
def UpdateUser_cursorLoops (collate : String → String) (cat : Catalog)
    (username roles : String) : List RoleMemberStmt × Catalog :=
  let dels := (del_role_cur collate cat username roles).map
    (fun role => RoleMemberStmt.dropMember role username)
  let cat1 := dels.foldl RoleMemberStmt.exec cat
  let adds := (add_role_cur collate cat1 username roles).map
    (fun role => RoleMemberStmt.addMember role username)
  let cat2 := adds.foldl RoleMemberStmt.exec cat1
  (dels ++ adds, cat2)

/-- The membership statements that the batch of `Connector.UpdateUser` executes
and the catalog they leave. Lines 255 and 265 write `QuoteName(@username)` as it
is between the quotes of a literal of the dynamic batch, without doubling the
single quotes in it. A single quote in the user name ends that literal early,
so that `@stmt` is not the batch of the cursor loops any more: as a rule it
does not parse and nothing runs, and where it parses the statements name
another member. The result is `none` for all these names; the loops are
described for user names without a single quote only, where they run as in
`UpdateUser_cursorLoops`. -/
def UpdateUser_roleLoops (collate : String → String) (cat : Catalog)
    (username roles : String) : Option (List RoleMemberStmt × Catalog) :=
  if apostrophe ∈ (QuoteName username).data then none
  else some (UpdateUser_cursorLoops collate cat username roles)

/-- The cursor loops on the parameters that Go `Connector.UpdateUser` binds:
`@username` is `user.Username` and `@roles` is `strings.Join(user.Roles, ",")`. -/
def UpdateUser_cursors (collate : String → String) (cat : Catalog) (user : User) :
    List RoleMemberStmt × Catalog :=
  UpdateUser_cursorLoops collate cat user.Username (Join user.Roles ",")

/-- The membership part of Go `Connector.UpdateUser`: `@username` is
`user.Username` and `@roles` is `strings.Join(user.Roles, ",")`. -/
def UpdateUser_roles (collate : String → String) (cat : Catalog) (user : User) :
    Option (List RoleMemberStmt × Catalog) :=
  UpdateUser_roleLoops collate cat user.Username (Join user.Roles ",")

/-- The batch of `Connector.DeleteUser`: the statements handed to `EXEC`, in
order. `user_name` is the value of `USER_NAME()`. Each cursor is guarded by the
`IF EXISTS` test of its own query. -/
def DeleteUser (user_name : String) (cat : Catalog) (database username : String) :
    List String :=
  let role_cur : List String :=
    cat.database_principals.flatMap (fun dp1 =>
      (cat.database_principals.filter (fun dp2 =>
        some dp1.principal_id = dp2.owning_principal_id ∧ dp1.name = username)).map
        (fun dp2 => dp2.name))
  let roleStmts : List String :=
    if role_cur ≠ [] then
      role_cur.map (fun role =>
        "ALTER AUTHORIZATION ON ROLE:: [" ++ role ++ "] TO [" ++ user_name ++ "]")
    else []
  let schema_cur : List String :=
    cat.schemas.flatMap (fun dp1 =>
      (cat.database_principals.filter (fun dp2 =>
        dp1.principal_id = dp2.principal_id ∧ dp2.name = username)).map
        (fun _ => dp1.name))
  let schemaStmts : List String :=
    if schema_cur ≠ [] then
      schema_cur.map (fun schema =>
        "ALTER AUTHORIZATION ON SCHEMA:: [" ++ schema ++ "] TO [" ++ user_name ++ "]")
    else []
  let stmt := "IF EXISTS (SELECT 1 FROM " ++ QuoteName database ++
    ".[sys].[database_principals] WHERE [name] = " ++ QuoteLiteral username ++ ") " ++
    "DROP USER " ++ QuoteName username
  roleStmts ++ schemaStmts ++ [stmt]

/-- The principals whose owner is `u`: the roles `u` owns. -/
def ownedRoles (cat : Catalog) (u : DatabasePrincipal) : List DatabasePrincipal :=
  cat.database_principals.filter (fun r => r.owning_principal_id = some u.principal_id)

/-- The schemas whose owner is `u`. -/
def ownedSchemas (cat : Catalog) (u : DatabasePrincipal) : List SchemaRow :=
  cat.schemas.filter (fun s => s.principal_id = u.principal_id)

/-- The invariants of the catalog views that the role loops rely on: principal
names and ids are unique, no principal has the empty name, and every row of
`sys.database_role_members` refers to a database role other than `public`. -/
def Catalog.WellFormed (cat : Catalog) : Prop :=
  (cat.database_principals.map (fun p => p.name)).Nodup ∧
  (cat.database_principals.map (fun p => p.principal_id)).Nodup ∧
  (∀ p ∈ cat.database_principals, p.name ≠ "") ∧
  (∀ m ∈ cat.database_role_members, ∃ r ∈ cat.database_principals,
    r.principal_id = m.role_principal_id ∧ r.type = "R" ∧ r.name ≠ "public")

/-- Well-formedness of a catalog is decidable. -/
instance (cat : Catalog) : Decidable cat.WellFormed := by
  unfold Catalog.WellFormed
  infer_instance

/-! ### sql/user.go: the text of the dynamic statements -/

/-- The value of `@stmt` that the batch of `Connector.GetUser` builds and hands to
`EXEC` (user.go lines 13-43). `azure` is the outcome of
`@@VERSION LIKE 'Microsoft SQL Azure%'`. -/
def GetUser_stmt (azure : Bool) (database username : String) : String :=
  if azure then
    "WITH CTE_Roles (principal_id, role_principal_id) AS " ++ "(" ++
      "  SELECT member_principal_id, role_principal_id FROM [sys].[database_role_members] WHERE member_principal_id = DATABASE_PRINCIPAL_ID(" ++
      QuoteLiteral username ++ ")" ++ "  UNION ALL " ++
      "  SELECT member_principal_id, drm.role_principal_id FROM [sys].[database_role_members] drm" ++
      "    INNER JOIN CTE_Roles cr ON drm.member_principal_id = cr.role_principal_id" ++ ") " ++
      "SELECT p.principal_id, p.name, p.type, p.authentication_type_desc, COALESCE(p.default_schema_name, ''), COALESCE(p.default_language_name, ''), p.sid, CONVERT(VARCHAR(85), p.sid, 1) AS sidStr, '', COALESCE(STRING_AGG(USER_NAME(r.role_principal_id), ','), '') " ++
      "FROM [sys].[database_principals] p" ++
      "  LEFT JOIN CTE_Roles r ON p.principal_id = r.principal_id " ++ "WHERE p.name = " ++
      QuoteLiteral username ++ " " ++
      "GROUP BY p.principal_id, p.name, p.type, p.authentication_type_desc, p.default_schema_name, p.default_language_name, p.sid"
  else
    "WITH CTE_Roles (principal_id, role_principal_id) AS " ++ "(" ++
      "  SELECT member_principal_id, role_principal_id FROM " ++ QuoteName database ++
      ".[sys].[database_role_members] WHERE member_principal_id = DATABASE_PRINCIPAL_ID(" ++
      QuoteLiteral username ++ ")" ++ "  UNION ALL " ++
      "  SELECT member_principal_id, drm.role_principal_id FROM " ++ QuoteName database ++
      ".[sys].[database_role_members] drm" ++
      "    INNER JOIN CTE_Roles cr ON drm.member_principal_id = cr.role_principal_id" ++ ") " ++
      "SELECT p.principal_id, p.name, p.type, p.authentication_type_desc, COALESCE(p.default_schema_name, ''), COALESCE(p.default_language_name, ''), p.sid, CONVERT(VARCHAR(85), p.sid, 1) AS sidStr, COALESCE(sl.name, ''), COALESCE(STRING_AGG(USER_NAME(r.role_principal_id), ','), '') " ++
      "FROM " ++ QuoteName database ++ ".[sys].[database_principals] p" ++
      "  LEFT JOIN CTE_Roles r ON p.principal_id = r.principal_id " ++
      "  LEFT JOIN [master].[sys].[sql_logins] sl ON p.sid = sl.sid " ++ "WHERE p.name = " ++
      QuoteLiteral username ++ " " ++
      "GROUP BY p.principal_id, p.name, p.type, p.authentication_type_desc, p.default_schema_name, p.default_language_name, p.sid, sl.name"

/-- The cursor part that `Connector.UpdateUser` appends to `@stmt`
(user.go lines 246-270), for `@database`, `@username` and `@roles`. -/
def UpdateUser_roleBatch (database username roles : String) : String :=
  "; " ++ "DECLARE @sql nvarchar(max);" ++ "DECLARE @role nvarchar(max);" ++
    "DECLARE del_role_cur CURSOR FOR SELECT name FROM " ++ QuoteName database ++
    ".[sys].[database_principals] WHERE type = 'R' AND name != 'public' AND name IN (SELECT name FROM " ++
    QuoteName database ++ ".[sys].[database_role_members] drm, " ++ QuoteName database ++
    ".[sys].[database_principals] db WHERE drm.member_principal_id = DATABASE_PRINCIPAL_ID(" ++
    QuoteLiteral username ++
    ") AND drm.role_principal_id = db.principal_id) AND name COLLATE SQL_Latin1_General_CP1_CI_AS NOT IN(SELECT value FROM String_Split(" ++
    QuoteLiteral roles ++ ", ','));" ++ "DECLARE add_role_cur CURSOR FOR SELECT name FROM " ++
    QuoteName database ++
    ".[sys].[database_principals] WHERE type = 'R' AND name != 'public' AND name NOT IN (SELECT name FROM " ++
    QuoteName database ++ ".[sys].[database_role_members] drm, " ++ QuoteName database ++
    ".[sys].[database_principals] db WHERE drm.member_principal_id = DATABASE_PRINCIPAL_ID(" ++
    QuoteLiteral username ++
    ") AND drm.role_principal_id = db.principal_id) AND name COLLATE SQL_Latin1_General_CP1_CI_AS IN(SELECT value FROM String_Split(" ++
    QuoteLiteral roles ++ ", ','));" ++ "OPEN del_role_cur;" ++
    "FETCH NEXT FROM del_role_cur INTO @role;" ++ "WHILE @@FETCH_STATUS = 0" ++ "  BEGIN" ++
    "    SET @sql = 'ALTER ROLE ' + QuoteName(@role) + ' DROP MEMBER " ++ QuoteName username ++
    "';" ++ "    EXEC (@sql);" ++ "    FETCH NEXT FROM del_role_cur INTO @role;" ++ "  END;" ++
    "CLOSE del_role_cur;" ++ "DEALLOCATE del_role_cur;" ++ "OPEN add_role_cur;" ++
    "FETCH NEXT FROM add_role_cur INTO @role;" ++ "WHILE @@FETCH_STATUS = 0" ++ "  BEGIN" ++
    "    SET @sql = 'ALTER ROLE ' + QuoteName(@role) + ' ADD MEMBER " ++ QuoteName username ++
    "';" ++ "    EXEC (@sql);" ++ "    FETCH NEXT FROM add_role_cur INTO @role;" ++ "  END;" ++
    "CLOSE add_role_cur;" ++ "DEALLOCATE add_role_cur;"

/-- The value of `@stmt` that the batch of `Connector.UpdateUser` hands to
`EXEC` (user.go lines 201-271). `azure` is the outcome of
`@@VERSION LIKE 'Microsoft SQL Azure%'`; `auth_type` is the value of
`@auth_type`, the authentication type of the user in
`sys.database_principals`, `NULL` when the user has no row; a comparison with
`NULL` does not hold. The tests of the parameters against literals are `sqlEq`
under the collation key `collate`. -/
def UpdateUser_stmt (collate : String → String) (azure : Bool) (auth_type : Option String)
    (database : String) (user : User) : String :=
  let username := user.Username
  let password := user.Password
  let defaultSchema := user.DefaultSchema
  let roles := Join user.Roles ","
  let stmt := "ALTER USER " ++ QuoteName username ++ " "
  let language : Option String :=
    if sqlEq collate user.DefaultLanguage "" then none else some user.DefaultLanguage
  let stmt := stmt ++ "WITH DEFAULT_SCHEMA = " ++ QuoteName defaultSchema
  let stmt :=
    if ¬ sqlEq collate password "" then stmt ++ ", PASSWORD = " ++ QuoteLiteral password
    else stmt
  let notInstance : Bool :=
    match auth_type with
    | some a => decide (¬ sqlEq collate a "INSTANCE")
    | none => false
  let stmt :=
    if ¬ azure ∧ notInstance then
      stmt ++ ", DEFAULT_LANGUAGE = " ++ Coalesce (language.map QuoteName) "NONE"
    else stmt
  stmt ++ UpdateUser_roleBatch database username roles

/-! ## sql: catalog reads (user.go, database_schema.go) -/

/-- Go `error` values as the code tells them apart: the sentinel
`sql.ErrNoRows`, and every other error with its message. -/
inductive GoError where
  | ErrNoRows
  | other (msg : String)
  deriving DecidableEq

/-- Go `err.Error()`. -/
def GoError.Error : GoError → String
  | .ErrNoRows => "sql: no rows in result set"
  | .other msg => msg

/-- A value bound to a named parameter with `sql.Named`. -/
inductive SqlValue where
  | text (s : String)
  | binary (b : List UInt8)
  deriving DecidableEq

/-- A call of the connector's `QueryRowContext`: the database the connector is
pointed at, the command text and the named parameters. -/
structure Query where
  database : String
  cmd : String
  args : List (String × SqlValue)
  deriving DecidableEq

/-- The columns that the scan callback of `GetUser` reads from the row of the
primary query, in order. -/
structure UserRow where
  PrincipalID : Int
  Username : String
  TypeStr : String
  AuthType : String
  DefaultSchema : String
  DefaultLanguage : String
  sid : List UInt8
  SIDStr : String
  LoginName : String
  roles : String
  deriving DecidableEq

/-- Go `model.DatabaseSchema`, with the fields the connector scans. -/
structure DatabaseSchema where
  SchemaID : Int
  SchemaName : String
  OwnerId : Int
  OwnerName : String
  deriving DecidableEq

/-- The server behind the connector's `QueryRowContext`, one function per scan
callback: what the scan of the row yields, or the error of the query (among
them `sql.ErrNoRows`). -/
structure RowQueries where
  scanUser : Query → Except GoError UserRow
  scanName : Query → Except GoError String
  scanSchema : Query → Except GoError DatabaseSchema

/-- Go `strings.HasSuffix(s, suffix)`. -/
def HasSuffix (s suffix : String) : Bool :=
  suffix.data.isSuffixOf s.data

/-- The command text of the primary query of `Connector.GetUser`
(user.go lines 12-44). -/
def GetUser_cmd : String :=
  "DECLARE @stmt nvarchar(max)\n\t\t\tIF @@VERSION LIKE 'Microsoft SQL Azure%'\n\t\t\t\tBEGIN\n\t\t\t\t\tSET @stmt = 'WITH CTE_Roles (principal_id, role_principal_id) AS ' +\n\t\t\t\t\t\t\t\t'(' +\n\t\t\t\t\t\t\t\t'  SELECT member_principal_id, role_principal_id FROM [sys].[database_role_members] WHERE member_principal_id = DATABASE_PRINCIPAL_ID(' + QuoteName(@username, '''') + ')' +\n\t\t\t\t\t\t\t\t'  UNION ALL ' +\n\t\t\t\t\t\t\t\t'  SELECT member_principal_id, drm.role_principal_id FROM [sys].[database_role_members] drm' +\n\t\t\t\t\t\t\t\t'    INNER JOIN CTE_Roles cr ON drm.member_principal_id = cr.role_principal_id' +\n\t\t\t\t\t\t\t\t') ' +\n\t\t\t\t\t\t\t\t'SELECT p.principal_id, p.name, p.type, p.authentication_type_desc, COALESCE(p.default_schema_name, ''''), COALESCE(p.default_language_name, ''''), p.sid, CONVERT(VARCHAR(85), p.sid, 1) AS sidStr, '''', COALESCE(STRING_AGG(USER_NAME(r.role_principal_id), '',''), '''') ' +\n\t\t\t\t\t\t\t\t'FROM [sys].[database_principals] p' +\n\t\t\t\t\t\t\t\t'  LEFT JOIN CTE_Roles r ON p.principal_id = r.principal_id ' +\n\t\t\t\t\t\t\t\t'WHERE p.name = ' + QuoteName(@username, '''') + ' ' +\n\t\t\t\t\t\t\t\t'GROUP BY p.principal_id, p.name, p.type, p.authentication_type_desc, p.default_schema_name, p.default_language_name, p.sid'\n\t\t\t\tEND\n\t\t\tELSE\n\t\t\t\tBEGIN\n\t\t\t\t\tSET @stmt = 'WITH CTE_Roles (principal_id, role_principal_id) AS ' +\n\t\t\t\t\t\t\t\t'(' +\n\t\t\t\t\t\t\t\t'  SELECT member_principal_id, role_principal_id FROM ' + QuoteName(@database) + '.[sys].[database_role_members] WHERE member_principal_id = DATABASE_PRINCIPAL_ID(' + QuoteName(@username, '''') + ')' +\n\t\t\t\t\t\t\t\t'  UNION ALL ' +\n\t\t\t\t\t\t\t\t'  SELECT member_principal_id, drm.role_principal_id FROM ' + QuoteName(@database) + '.[sys].[database_role_members] drm' +\n\t\t\t\t\t\t\t\t'    INNER JOIN CTE_Roles cr ON drm.member_principal_id = cr.role_principal_id' +\n\t\t\t\t\t\t\t\t') ' +\n\t\t\t\t\t\t\t\t'SELECT p.principal_id, p.name, p.type, p.authentication_type_desc, COALESCE(p.default_schema_name, ''''), COALESCE(p.default_language_name, ''''), p.sid, CONVERT(VARCHAR(85), p.sid, 1) AS sidStr, COALESCE(sl.name, ''''), COALESCE(STRING_AGG(USER_NAME(r.role_principal_id), '',''), '''') ' +\n\t\t\t\t\t\t\t\t'FROM ' + QuoteName(@database) + '.[sys].[database_principals] p' +\n\t\t\t\t\t\t\t\t'  LEFT JOIN CTE_Roles r ON p.principal_id = r.principal_id ' +\n\t\t\t\t\t\t\t\t'  LEFT JOIN [master].[sys].[sql_logins] sl ON p.sid = sl.sid ' +\n\t\t\t\t\t\t\t\t'WHERE p.name = ' + QuoteName(@username, '''') + ' ' +\n\t\t\t\t\t\t\t\t'GROUP BY p.principal_id, p.name, p.type, p.authentication_type_desc, p.default_schema_name, p.default_language_name, p.sid, sl.name'\n\t\t\t\tEND\n\t\t\tEXEC (@stmt)"

/-- The primary query of `Connector.GetUser`. `database` is the name after
`setDatabase`. -/
def GetUser_primary (database username : String) : Query :=
  ⟨database, GetUser_cmd, [("database", .text database), ("username", .text username)]⟩

/-- The lookup of `Connector.GetUser` in `sys.sql_logins` by the full SID
(user.go lines 66-73), issued with the connector pointed at `master`. -/
def GetUser_sqlLoginQuery (sid : List UInt8) : Query :=
  ⟨"master", "SELECT name FROM [sys].[sql_logins] WHERE sid = @sid", [("sid", .binary sid)]⟩

/-- The lookup of `Connector.GetUser` in `sys.server_principals` by the first
34 characters of the converted SID (user.go lines 79-86), issued with the
connector pointed at `master`. -/
def GetUser_serverPrincipalQuery (sid : List UInt8) : Query :=
  ⟨"master", "SELECT name FROM [sys].[server_principals] WHERE type NOT IN ('G', 'R') AND CONVERT(varchar(64), sid, 1) = LEFT(CONVERT(varchar(64), @sid, 1), 34)", [("sid", .binary sid)]⟩

/-- First fallback of `Connector.GetUser` (user.go lines 65-77): the user after
the step, or the error that ends the call, and the queries issued so far. -/
def GetUser_sqlLogin (q : RowQueries) (sid : List UInt8) (user : User)
    (issued : List Query) : Except GoError User × List Query :=
  if user.AuthType = "INSTANCE" ∧ user.LoginName = "" then
    match q.scanName (GetUser_sqlLoginQuery sid) with
    | .error err => (.error err, issued ++ [GetUser_sqlLoginQuery sid])
    | .ok name => (.ok { user with LoginName := name }, issued ++ [GetUser_sqlLoginQuery sid])
  else (.ok user, issued)

/-- Second fallback of `Connector.GetUser` (user.go lines 78-90). -/
def GetUser_serverPrincipal (q : RowQueries) (sid : List UInt8) (user : User)
    (issued : List Query) : Except GoError User × List Query :=
  if user.AuthType = "EXTERNAL" ∧ HasSuffix user.SIDStr "AADE" then
    match q.scanName (GetUser_serverPrincipalQuery sid) with
    | .error err => (.error err, issued ++ [GetUser_serverPrincipalQuery sid])
    | .ok name =>
      (.ok { user with LoginName := name }, issued ++ [GetUser_serverPrincipalQuery sid])
  else (.ok user, issued)

/-- The variable `user` of `Connector.GetUser` after the scan of the primary
row: the zero value of `model.User` with the scanned columns filled in. -/
def GetUser_scan (row : UserRow) : User :=
  { PrincipalID := row.PrincipalID, Username := row.Username, ObjectId := "",
    LoginName := row.LoginName, Password := "", SIDStr := row.SIDStr,
    AuthType := row.AuthType, TypeStr := row.TypeStr,
    DefaultSchema := row.DefaultSchema, DefaultLanguage := row.DefaultLanguage,
    Roles := [] }

/-- Go `Connector.GetUser`: the returned pair `(*model.User, error)`, where
`.ok none` is `(nil, nil)`, and the queries issued, in order. `setDatabase` is
the connector's `setDatabase`, which is not under src/: the database the
connector is pointed at, which also replaces the variable `database`. -/
def GetUser (setDatabase : String → String) (q : RowQueries) (database username : String) :
    Except GoError (Option User) × List Query :=
  let database := setDatabase database
  match q.scanUser (GetUser_primary database username) with
  | .error err =>
    if err = GoError.ErrNoRows then (.ok none, [GetUser_primary database username])
    else (.error err, [GetUser_primary database username])
  | .ok row =>
    match GetUser_sqlLogin q row.sid (GetUser_scan row) [GetUser_primary database username] with
    | (.error err, issued) => (.error err, issued)
    | (.ok user1, issued1) =>
      match GetUser_serverPrincipal q row.sid user1 issued1 with
      | (.error err, issued) => (.error err, issued)
      | (.ok user2, issued2) =>
        (.ok (some { user2 with Roles := GetUser_roles row.roles }), issued2)

/-- The entity `GetUser` returns for a primary row and a resolved login name:
the scanned columns, that login name, and the roles split from the aggregate. -/
def GetUser_entity (row : UserRow) (loginName : String) : User :=
  { GetUser_scan row with LoginName := loginName, Roles := GetUser_roles row.roles }

/-- The command text of `Connector.GetDatabaseSchema`
(database_schema.go lines 11-24). -/
def GetDatabaseSchema_cmd : String :=
  "SELECT\n\t\t\t\tdp1.schema_id,\n\t\t\t\tdp1.name,\n\t\t\t\tdp1.principal_id,\n\t\t\t\tCASE\n\t\t\t\t\tWHEN @@VERSION LIKE 'Microsoft SQL Azure%'\n\t\t\t\t\t\tAND @database = 'master'\n\t\t\t\t\t\tAND (@ownerName = 'dbo' OR @ownerName = '') THEN ''\n\t\t\t\t\tELSE dp2.name\n\t\t\t\tEND AS name\n\t\t\tFROM [sys].[schemas] dp1\n\t\t\tINNER JOIN [sys].[database_principals] dp2\n\t\t\t\tON dp1.principal_id = dp2.principal_id\n\t\t\tWHERE dp1.name = @schemaName"

/-- The query of `Connector.GetDatabaseSchema`; `@ownerName` is bound to the
`OwnerName` field of the entity not yet scanned, the empty string. -/
def GetDatabaseSchema_query (database schemaName : String) : Query :=
  ⟨database, GetDatabaseSchema_cmd,
    [("database", .text database), ("schemaName", .text schemaName), ("ownerName", .text "")]⟩

/-- Go `Connector.GetDatabaseSchema`: the returned pair
`(*model.DatabaseSchema, error)` and the queries issued. -/
def GetDatabaseSchema (setDatabase : String → String) (q : RowQueries)
    (database schemaName : String) : Except GoError (Option DatabaseSchema) × List Query :=
  let database := setDatabase database
  match q.scanSchema (GetDatabaseSchema_query database schemaName) with
  | .error err =>
    if err = GoError.ErrNoRows then (.ok none, [GetDatabaseSchema_query database schemaName])
    else (.error err, [GetDatabaseSchema_query database schemaName])
  | .ok sqlschema => (.ok (some sqlschema), [GetDatabaseSchema_query database schemaName])

/-! ### sql/user.go: the named parameters of the batches -/

/-- The named parameters that `Connector.CreateUser` binds (user.go lines
187-196); `database` is the name after `setDatabase`. -/
def CreateUser_args (database : String) (user : User) : List (String × SqlValue) :=
  [("database", .text database), ("username", .text user.Username),
   ("objectId", .text user.ObjectId), ("loginName", .text user.LoginName),
   ("password", .text user.Password), ("authType", .text user.AuthType),
   ("typeStr", .text user.TypeStr), ("defaultSchema", .text user.DefaultSchema),
   ("defaultLanguage", .text user.DefaultLanguage), ("roles", .text (Join user.Roles ","))]

/-- The named parameters that `Connector.UpdateUser` binds (user.go lines
275-280). -/
def UpdateUser_args (database : String) (user : User) : List (String × SqlValue) :=
  [("database", .text database), ("username", .text user.Username),
   ("password", .text user.Password), ("defaultSchema", .text user.DefaultSchema),
   ("defaultLanguage", .text user.DefaultLanguage), ("roles", .text (Join user.Roles ","))]

/-- The value bound to the named parameter `name`, if there is one. -/
def namedArg (args : List (String × SqlValue)) (name : String) : Option SqlValue :=
  (args.find? (fun a => a.1 = name)).map (fun a => a.2)

/-! ### sql/database_schema.go: the catalog query of `GetDatabaseSchema` -/

/-- The text bound to the named parameter `name` of a query; empty when there
is none. -/
def Query.text (q : Query) (name : String) : String :=
  match namedArg q.args name with
  | some (.text s) => s
  | _ => ""

/-- The rows that the command of `Connector.GetDatabaseSchema` selects on a
catalog (database_schema.go lines 11-24): the inner join of `sys.schemas` and
`sys.database_principals` on the owning principal, restricted to the schema
name, with the fourth column computed by the `CASE`. `azure` is the outcome of
`@@VERSION LIKE 'Microsoft SQL Azure%'`; the comparisons of strings are `sqlEq`
under the collation key `collate`. -/
def GetDatabaseSchema_rows (collate : String → String) (azure : Bool) (cat : Catalog)
    (database schemaName ownerName : String) : List DatabaseSchema :=
  cat.schemas.flatMap (fun dp1 =>
    (cat.database_principals.filter (fun dp2 =>
      dp1.principal_id = dp2.principal_id ∧ sqlEq collate dp1.name schemaName)).map (fun dp2 =>
        { SchemaID := dp1.schema_id, SchemaName := dp1.name, OwnerId := dp1.principal_id,
          OwnerName :=
            if azure ∧ sqlEq collate database "master" ∧
                (sqlEq collate ownerName "dbo" ∨ sqlEq collate ownerName "") then ""
            else dp2.name }))

/-- What `QueryRowContext` and the scan callback of `GetDatabaseSchema` yield
when the command runs on a catalog with the parameters of the query: the first
row, or `sql.ErrNoRows` when there is none. -/
def GetDatabaseSchema_scan (collate : String → String) (azure : Bool) (cat : Catalog)
    (q : Query) : Except GoError DatabaseSchema :=
  match GetDatabaseSchema_rows collate azure cat (q.text "database") (q.text "schemaName")
      (q.text "ownerName") with
  | [] => .error GoError.ErrNoRows
  | row :: _ => .ok row

/-! ## mssql/resource_database_sqlscript.go -/

/-- Go `getObjectExistsQuery(objectSpec)`: the query text, or the error message.
`ToUpper` is Go `strings.ToUpper`; `fmt.Sprintf` with `%s` verbs is string
concatenation. -/
def getObjectExistsQuery (ToUpper : String → String) (objectSpec : String) :
    Except String String :=
  if objectSpec = "" then .ok "SELECT 1"
  else
    match Fields objectSpec with
    | [part0, part1] =>
      let objectType := ToUpper part0
      let objectName := part1
      let names : String × String :=
        match Split objectName '.' with
        | [n0, n1] => (n0, n1)
        | _ => ("", objectName)
      let schema_Name := names.1
      let object_Name := names.2
      if objectType = "TABLE" then
        if schema_Name ≠ "" then
          .ok ("\n\t\t\tSELECT 1\n\t\t\tFROM sys.tables t\n\t\t\tINNER JOIN sys.schemas s ON t.schema_id = s.schema_id\n\t\t\tWHERE t.name = N'" ++ object_Name ++ "' AND s.name = N'" ++ schema_Name ++ "'\n\t\t")
        else
          .ok ("\n\t\t\tSELECT 1\n\t\t\tFROM sys.tables t\n\t\t\tWHERE t.name = N'" ++ object_Name ++ "'\n\t\t")
      else if objectType = "VIEW" then
        if schema_Name ≠ "" then
          .ok ("\n\t\t\tSELECT 1\n\t\t\tFROM sys.views v\n\t\t\tINNER JOIN sys.schemas s ON v.schema_id = s.schema_id\n\t\t\tWHERE v.name = N'" ++ object_Name ++ "' AND s.name = N'" ++ schema_Name ++ "'\n\t\t")
        else
          .ok ("\n\t\t\tSELECT 1\n\t\t\tFROM sys.views v\n\t\t\tWHERE v.name = N'" ++ object_Name ++ "'\n\t\t")
      else if objectType = "PROCEDURE" ∨ objectType = "PROC" then
        if schema_Name ≠ "" then
          .ok ("\n\t\t\tSELECT 1\n\t\t\tFROM sys.procedures p\n\t\t\tINNER JOIN sys.schemas s ON p.schema_id = s.schema_id\n\t\t\tWHERE p.name = N'" ++ object_Name ++ "' AND s.name = N'" ++ schema_Name ++ "'\n\t\t")
        else
          .ok ("\n\t\t\tSELECT 1\n\t\t\tFROM sys.procedures p\n\t\t\tWHERE p.name = N'" ++ object_Name ++ "'\n\t\t")
      else if objectType = "FUNCTION" ∨ objectType = "FUNC" then
        if schema_Name ≠ "" then
          .ok ("\n\t\t\tSELECT 1\n\t\t\tFROM sys.objects o\n\t\t\tINNER JOIN sys.schemas s ON o.schema_id = s.schema_id\n\t\t\tWHERE o.type IN ('FN', 'IF', 'TF')\n\t\t\tAND o.name = N'" ++ object_Name ++ "' AND s.name = N'" ++ schema_Name ++ "'\n\t\t")
        else
          .ok ("\n\t\t\tSELECT 1\n\t\t\tFROM sys.objects o\n\t\t\tWHERE o.type IN ('FN', 'IF', 'TF')\n\t\t\tAND o.name = N'" ++ object_Name ++ "'\n\t\t")
      else if objectType = "SCHEMA" then
        .ok ("\n\t\t\tSELECT 1\n\t\t\tFROM sys.schemas s\n\t\t\tWHERE s.name = N'" ++ object_Name ++ "'\n\t\t")
      else if objectType = "TRIGGER" ∨ objectType = "TRG" then
        if schema_Name ≠ "" then
          .ok ("\n\t\t\tSELECT 1\n\t\t\tFROM sys.triggers t\n\t\t\tINNER JOIN sys.schemas s ON t.schema_id = s.schema_id\n\t\t\tWHERE t.name = N'" ++ object_Name ++ "' AND s.name = N'" ++ schema_Name ++ "'\n\t\t")
        else
          .ok ("\n\t\t\tSELECT 1\n\t\t\tFROM sys.triggers t\n\t\t\tWHERE t.name = N'" ++ object_Name ++ "'\n\t\t")
      else
        .error ("unsupported object type: " ++ objectType)
    | _ => .error ("invalid object specification: " ++ objectSpec)

/-- The kind keywords `getObjectExistsQuery` has a case for. -/
def supportedKinds : List String :=
  ["TABLE", "VIEW", "PROCEDURE", "PROC", "FUNCTION", "FUNC", "SCHEMA", "TRIGGER", "TRG"]

/-- A system-catalog lookup: the view, the alias the query gives it, and the
extra restriction put before the name filter. -/
structure CatalogView where
  view : String
  corr : String
  restriction : String
  deriving DecidableEq

/-- Spec-following definition (section 4.4, script verification): the catalog
view matching each object kind; functions are `sys.objects` restricted to the
types FN, IF and TF. -/
def catalogViewOf (kind : String) : Option CatalogView :=
  if kind = "TABLE" then some ⟨"sys.tables", "t", ""⟩
  else if kind = "VIEW" then some ⟨"sys.views", "v", ""⟩
  else if kind = "PROCEDURE" ∨ kind = "PROC" then some ⟨"sys.procedures", "p", ""⟩
  else if kind = "FUNCTION" ∨ kind = "FUNC" then
    some ⟨"sys.objects", "o", "o.type IN ('FN', 'IF', 'TF')\n\t\t\tAND "⟩
  else if kind = "SCHEMA" then some ⟨"sys.schemas", "s", ""⟩
  else if kind = "TRIGGER" ∨ kind = "TRG" then some ⟨"sys.triggers", "t", ""⟩
  else none

/-- Spec-following definition: the lookup that filters on the object name only. -/
def nameOnlyQuery (v : CatalogView) (N : String) : String :=
  "\n\t\t\tSELECT 1\n\t\t\tFROM " ++ v.view ++ " " ++ v.corr ++ "\n\t\t\tWHERE " ++
    v.restriction ++ v.corr ++ ".name = N'" ++ N ++ "'\n\t\t"

/-- Spec-following definition: the schema-qualified lookup, which joins
`sys.schemas` and filters on the object name `N` and the schema name `S`. -/
def schemaQualifiedQuery (v : CatalogView) (N S : String) : String :=
  "\n\t\t\tSELECT 1\n\t\t\tFROM " ++ v.view ++ " " ++ v.corr ++
    "\n\t\t\tINNER JOIN sys.schemas s ON " ++ v.corr ++ ".schema_id = s.schema_id\n\t\t\tWHERE " ++
    v.restriction ++ v.corr ++ ".name = N'" ++ N ++ "' AND s.name = N'" ++ S ++ "'\n\t\t"

/-- Whether the character list `p` occurs in `s` as a contiguous block. -/
def occursIn (p : List Char) : List Char → Bool
  | [] => p.isEmpty
  | c :: cs => p.isPrefixOf (c :: cs) || occursIn p cs

/-! ## mssql: the resource layer -/

/-- Go `diag.Diagnostics` as the resource functions build it: `none` is `nil`,
`some summary` is the one error diagnostic of `diag.FromErr`. -/
abbrev Diagnostics := Option String

/-- The message of `errors.Wrapf(err, format, args...)`: the formatted text,
a colon, and the message of the cause. -/
def Wrapf (err : GoError) (message : String) : String :=
  message ++ ": " ++ err.Error

/-- Go `*schema.ResourceData` over the attributes `α` of one resource: the id,
the prior state and the planned values (the two sides of `GetChange`), and the
values `Get` reads, which are the planned values overwritten by `Set`. A
`TypeSet` attribute is the list that `Set.List()` gives for it. -/
structure ResourceData (α : Type) where
  Id : String
  prior : α
  planned : α
  cur : α
  deriving DecidableEq

/-- Go `data.SetId(v)`. -/
def ResourceData.SetId {α : Type} (data : ResourceData α) (v : String) : ResourceData α :=
  { data with Id := v }

/-- Go `model.DatabaseRole`, with the fields the resource reads. -/
structure DatabaseRole where
  RoleID : Int
  RoleName : String
  OwnerName : String
  OwnerId : Int
  deriving DecidableEq

/-- Go `model.DatabaseMasterkey`, with the fields the resource reads. -/
structure DatabaseMasterkey where
  KeyName : String
  PrincipalID : Int
  SymmetricKeyID : Int
  KeyLength : Int
  KeyAlgorithm : String
  AlgorithmDesc : String
  KeyGuid : String
  deriving DecidableEq

/-- A call of a connector method, with its arguments. -/
inductive Call where
  | DatabaseExists (database : String)
  | CreateUser (database : String) (user : User)
  | GetUser (database username : String)
  | UpdateUser (database : String) (user : User)
  | DeleteUser (database username : String)
  | CreateDatabaseRole (database roleName ownerName : String)
  | GetDatabaseRole (database roleName : String)
  | UpdateDatabaseRole (database : String) (roleId : Int) (roleName ownerName : String)
  | DeleteDatabaseRole (database roleName : String)
  | CreateDatabaseSchema (database schemaName ownerName : String)
  | GetDatabaseSchema (database schemaName : String)
  | UpdateDatabaseSchema (database schemaName ownerName : String)
  | DeleteDatabaseSchema (database schemaName : String)
  | CreateDatabaseMasterkey (database password : String)
  | GetDatabaseMasterkey (database : String)
  | UpdateDatabaseMasterkey (database password : String)
  | DeleteDatabaseMasterkey (database : String)
  | DataBaseExecuteScript (database sqlscript : String)
  deriving DecidableEq

/-- What a resource function leaves: the diagnostics it returns, the resource
data, the state of the server behind the connector, and the connector calls it
made, in order. -/
structure Outcome (σ α : Type) where
  diags : Diagnostics
  data : ResourceData α
  server : σ
  calls : List Call
  deriving DecidableEq

/-! ### mssql/resource_user.go -/

/-- The attributes of `mssql_user` (`resourceUser`); `host` and `port` are the
two fields of the `server` block that the id is built from. -/
structure UserAttrs where
  host : String
  port : String
  ignoreDeletion : Bool
  database : String
  username : String
  objectId : String
  typeStr : String
  loginName : String
  password : String
  sidStr : String
  authenticationType : String
  principalId : Int
  defaultSchema : String
  defaultLanguage : String
  roles : List String
  deriving DecidableEq

/-- Go interface `UserConnector`, over a server with states `σ`: each method
returns its result and the state it leaves. -/
structure UserConnector (σ : Type) where
  CreateUser : String → User → σ → Option GoError × σ
  GetUser : String → String → σ → Except GoError (Option User) × σ
  UpdateUser : String → User → σ → Option GoError × σ
  DeleteUser : String → String → σ → Option GoError × σ
  DatabaseExists : String → σ → Except GoError Bool × σ

/-- Go `getUserID(data)` (utils.go). -/
def getUserID (data : ResourceData UserAttrs) : String :=
  "sqlserver://" ++ data.cur.host ++ ":" ++ data.cur.port ++ "/" ++ data.cur.database ++
    "/" ++ data.cur.username

/-- Go `resourceUserRead`. `conn` is the result of `getUserConnector`.
`SetList` is the `schema.Set` of the plugin SDK, which is not part of the
repository: `data.Set` on the `TypeSet` attribute `roles` builds a set from the
given list, and `SetList l` is the list of the elements of that set, each value
once, in the order of the SDK. -/
def resourceUserRead {σ : Type} (SetList : List String → List String)
    (conn : Except GoError (UserConnector σ))
    (data : ResourceData UserAttrs) (s : σ) : Outcome σ UserAttrs :=
  let database := data.cur.database
  let username := data.cur.username
  match conn with
  | .error err => ⟨some err.Error, data, s, []⟩
  | .ok connector =>
    match connector.DatabaseExists database s with
    | (.error err, s1) =>
      ⟨some (Wrapf err ("unable to check if database [" ++ database ++ "] exists")), data, s1,
        [Call.DatabaseExists database]⟩
    | (.ok false, s1) => ⟨none, data.SetId "", s1, [Call.DatabaseExists database]⟩
    | (.ok true, s1) =>
      match connector.GetUser database username s1 with
      | (.error err, s2) =>
        ⟨some (Wrapf err ("unable to read user [" ++ database ++ "].[" ++ username ++ "]")),
          data, s2, [Call.DatabaseExists database, Call.GetUser database username]⟩
      | (.ok none, s2) =>
        ⟨none, data.SetId "", s2, [Call.DatabaseExists database, Call.GetUser database username]⟩
      | (.ok (some user), s2) =>
        ⟨none,
          { data with cur :=
              { data.cur with
                loginName := user.LoginName, sidStr := user.SIDStr, typeStr := user.TypeStr,
                authenticationType := user.AuthType, principalId := user.PrincipalID,
                defaultSchema := user.DefaultSchema, defaultLanguage := user.DefaultLanguage,
                roles := SetList user.Roles } },
          s2, [Call.DatabaseExists database, Call.GetUser database username]⟩

/-- The `model.User` that `resourceUserCreate` hands to the connector: the
configured attributes, the other fields at their zero value. -/
def resourceUserCreate_user (data : ResourceData UserAttrs) : User :=
  { PrincipalID := 0, Username := data.cur.username, ObjectId := data.cur.objectId,
    LoginName := data.cur.loginName, Password := data.cur.password, SIDStr := "",
    AuthType := "", TypeStr := data.cur.typeStr, DefaultSchema := data.cur.defaultSchema,
    DefaultLanguage := data.cur.defaultLanguage, Roles := data.cur.roles }

/-- Go `resourceUserCreate`. -/
def resourceUserCreate {σ : Type} (SetList : List String → List String)
    (conn : Except GoError (UserConnector σ))
    (data : ResourceData UserAttrs) (s : σ) : Outcome σ UserAttrs :=
  let database := data.cur.database
  let username := data.cur.username
  match conn with
  | .error err => ⟨some err.Error, data, s, []⟩
  | .ok connector =>
    let user := resourceUserCreate_user data
    match connector.CreateUser database user s with
    | (some err, s1) =>
      ⟨some (Wrapf err ("unable to create user [" ++ database ++ "].[" ++ username ++ "]")),
        data, s1, [Call.CreateUser database user]⟩
    | (none, s1) =>
      let r := resourceUserRead SetList conn (data.SetId (getUserID data)) s1
      { r with calls := Call.CreateUser database user :: r.calls }

/-- The `model.User` that `resourceUserUpdate` hands to the connector; the
password is included only when it has a change. -/
def resourceUserUpdate_user (data : ResourceData UserAttrs) : User :=
  { PrincipalID := 0, Username := data.cur.username, ObjectId := "", LoginName := "",
    Password := if data.prior.password ≠ data.planned.password then data.cur.password else "",
    SIDStr := "", AuthType := "", TypeStr := "", DefaultSchema := data.cur.defaultSchema,
    DefaultLanguage := data.cur.defaultLanguage, Roles := data.cur.roles }

/-- Go `resourceUserUpdate`. `HasChange` compares the prior and the planned
value, the roles as sets; on a failed update every tracked attribute with a
change is set back to its prior value. -/
def resourceUserUpdate {σ : Type} (SetList : List String → List String)
    (conn : Except GoError (UserConnector σ))
    (data : ResourceData UserAttrs) (s : σ) : Outcome σ UserAttrs :=
  let database := data.cur.database
  let username := data.cur.username
  match conn with
  | .error err => ⟨some err.Error, data, s, []⟩
  | .ok connector =>
    let user := resourceUserUpdate_user data
    match connector.UpdateUser database user s with
    | (some err, s1) =>
      ⟨some (Wrapf err ("unable to update user [" ++ database ++ "].[" ++ username ++ "]")),
        { data with cur :=
            { data.cur with
              password :=
                if data.prior.password ≠ data.planned.password then data.prior.password
                else data.cur.password,
              defaultSchema :=
                if data.prior.defaultSchema ≠ data.planned.defaultSchema then
                  data.prior.defaultSchema
                else data.cur.defaultSchema,
              defaultLanguage :=
                if data.prior.defaultLanguage ≠ data.planned.defaultLanguage then
                  data.prior.defaultLanguage
                else data.cur.defaultLanguage,
              roles :=
                if data.prior.roles.toFinset ≠ data.planned.roles.toFinset then data.prior.roles
                else data.cur.roles } },
        s1, [Call.UpdateUser database user]⟩
    | (none, s1) =>
      let r := resourceUserRead SetList conn (data.SetId (getUserID data)) s1
      { r with calls := Call.UpdateUser database user :: r.calls }

/-- Go `resourceUserDelete`. -/
def resourceUserDelete {σ : Type} (conn : Except GoError (UserConnector σ))
    (data : ResourceData UserAttrs) (s : σ) : Outcome σ UserAttrs :=
  if data.cur.ignoreDeletion then ⟨none, data, s, []⟩
  else
    let database := data.cur.database
    let username := data.cur.username
    match conn with
    | .error err => ⟨some err.Error, data, s, []⟩
    | .ok connector =>
      match connector.DeleteUser database username s with
      | (some err, s1) =>
        ⟨some (Wrapf err ("unable to delete user [" ++ database ++ "].[" ++ username ++ "]")),
          data, s1, [Call.DeleteUser database username]⟩
      | (none, s1) => ⟨none, data.SetId "", s1, [Call.DeleteUser database username]⟩

/-! ### mssql/resource_database_role.go -/

/-- The attributes of `mssql_database_role` (`resourceDatabaseRole`). -/
structure RoleAttrs where
  host : String
  port : String
  database : String
  roleName : String
  ownerName : String
  ownerId : Int
  principalId : Int
  deriving DecidableEq

/-- Go interface `DatabaseRoleConnector`. -/
structure DatabaseRoleConnector (σ : Type) where
  CreateDatabaseRole : String → String → String → σ → Option GoError × σ
  GetDatabaseRole : String → String → σ → Except GoError (Option DatabaseRole) × σ
  UpdateDatabaseRole : String → Int → String → String → σ → Option GoError × σ
  DeleteDatabaseRole : String → String → σ → Option GoError × σ
  DatabaseExists : String → σ → Except GoError Bool × σ

/-- Go `resourceDatabaseRoleRead`. -/
def resourceDatabaseRoleRead {σ : Type} (conn : Except GoError (DatabaseRoleConnector σ))
    (data : ResourceData RoleAttrs) (s : σ) : Outcome σ RoleAttrs :=
  let database := data.cur.database
  let roleName := data.cur.roleName
  match conn with
  | .error err => ⟨some err.Error, data, s, []⟩
  | .ok connector =>
    match connector.DatabaseExists database s with
    | (.error err, s1) =>
      ⟨some (Wrapf err ("unable to check if database [" ++ database ++ "] exists")), data, s1,
        [Call.DatabaseExists database]⟩
    | (.ok false, s1) => ⟨none, data.SetId "", s1, [Call.DatabaseExists database]⟩
    | (.ok true, s1) =>
      match connector.GetDatabaseRole database roleName s1 with
      | (.error err, s2) =>
        ⟨some (Wrapf err ("unable to get role [" ++ database ++ "].[" ++ roleName ++ "]")),
          data, s2, [Call.DatabaseExists database, Call.GetDatabaseRole database roleName]⟩
      | (.ok none, s2) =>
        ⟨none, data.SetId "", s2,
          [Call.DatabaseExists database, Call.GetDatabaseRole database roleName]⟩
      | (.ok (some role), s2) =>
        ⟨none,
          { data with cur :=
              { data.cur with
                principalId := role.RoleID, roleName := role.RoleName,
                ownerName := role.OwnerName, ownerId := role.OwnerId } },
          s2, [Call.DatabaseExists database, Call.GetDatabaseRole database roleName]⟩

/-- Go `resourceDatabaseRoleCreate`. `getDatabaseRoleID` is not under src/ and
is a parameter. -/
def resourceDatabaseRoleCreate {σ : Type} (getDatabaseRoleID : ResourceData RoleAttrs → String)
    (conn : Except GoError (DatabaseRoleConnector σ))
    (data : ResourceData RoleAttrs) (s : σ) : Outcome σ RoleAttrs :=
  let database := data.cur.database
  let roleName := data.cur.roleName
  let ownerName := data.cur.ownerName
  match conn with
  | .error err => ⟨some err.Error, data, s, []⟩
  | .ok connector =>
    match connector.CreateDatabaseRole database roleName ownerName s with
    | (some err, s1) =>
      ⟨some (Wrapf err ("unable to create role [" ++ database ++ "].[" ++ roleName ++ "]")),
        data, s1, [Call.CreateDatabaseRole database roleName ownerName]⟩
    | (none, s1) =>
      let r := resourceDatabaseRoleRead conn (data.SetId (getDatabaseRoleID data)) s1
      { r with calls := Call.CreateDatabaseRole database roleName ownerName :: r.calls }

/-- Go `resourceDatabaseRoleDelete`. -/
def resourceDatabaseRoleDelete {σ : Type} (conn : Except GoError (DatabaseRoleConnector σ))
    (data : ResourceData RoleAttrs) (s : σ) : Outcome σ RoleAttrs :=
  let database := data.cur.database
  let roleName := data.cur.roleName
  match conn with
  | .error err => ⟨some err.Error, data, s, []⟩
  | .ok connector =>
    match connector.DeleteDatabaseRole database roleName s with
    | (some err, s1) =>
      ⟨some (Wrapf err ("unable to delete role [" ++ database ++ "].[" ++ roleName ++ "]")),
        data, s1, [Call.DeleteDatabaseRole database roleName]⟩
    | (none, s1) => ⟨none, data.SetId "", s1, [Call.DeleteDatabaseRole database roleName]⟩

/-- Go `resourceDatabaseRoleUpdate`. -/
def resourceDatabaseRoleUpdate {σ : Type} (getDatabaseRoleID : ResourceData RoleAttrs → String)
    (conn : Except GoError (DatabaseRoleConnector σ))
    (data : ResourceData RoleAttrs) (s : σ) : Outcome σ RoleAttrs :=
  let database := data.cur.database
  let roleId := data.cur.principalId
  let roleName := data.cur.roleName
  let ownerName := data.cur.ownerName
  match conn with
  | .error err => ⟨some err.Error, data, s, []⟩
  | .ok connector =>
    match connector.UpdateDatabaseRole database roleId roleName ownerName s with
    | (some err, s1) =>
      ⟨some (Wrapf err ("unable to update role [" ++ database ++ "].[" ++ roleName ++ "]")),
        { data with cur :=
            { data.cur with
              roleName :=
                if data.prior.roleName ≠ data.planned.roleName then data.prior.roleName
                else data.cur.roleName,
              ownerName :=
                if data.prior.ownerName ≠ data.planned.ownerName then data.prior.ownerName
                else data.cur.ownerName } },
        s1, [Call.UpdateDatabaseRole database roleId roleName ownerName]⟩
    | (none, s1) =>
      let r := resourceDatabaseRoleRead conn (data.SetId (getDatabaseRoleID data)) s1
      { r with calls := Call.UpdateDatabaseRole database roleId roleName ownerName :: r.calls }

/-! ### mssql/resource_database_schema.go -/

/-- The attributes of `mssql_database_schema` (`resourceDatabaseSchema`). -/
structure SchemaAttrs where
  host : String
  port : String
  ignoreDeletion : Bool
  database : String
  schemaName : String
  ownerName : String
  schemaId : Int
  ownerId : Int
  deriving DecidableEq

/-- Go interface `DatabaseSchemaConnector`. -/
structure DatabaseSchemaConnector (σ : Type) where
  CreateDatabaseSchema : String → String → String → σ → Option GoError × σ
  GetDatabaseSchema : String → String → σ → Except GoError (Option DatabaseSchema) × σ
  UpdateDatabaseSchema : String → String → String → σ → Option GoError × σ
  DeleteDatabaseSchema : String → String → σ → Option GoError × σ
  DatabaseExists : String → σ → Except GoError Bool × σ

/-- Go `resourceDatabaseSchemaRead`. -/
def resourceDatabaseSchemaRead {σ : Type} (conn : Except GoError (DatabaseSchemaConnector σ))
    (data : ResourceData SchemaAttrs) (s : σ) : Outcome σ SchemaAttrs :=
  let database := data.cur.database
  let schemaName := data.cur.schemaName
  match conn with
  | .error err => ⟨some err.Error, data, s, []⟩
  | .ok connector =>
    match connector.DatabaseExists database s with
    | (.error err, s1) =>
      ⟨some (Wrapf err ("unable to check if database [" ++ database ++ "] exists")), data, s1,
        [Call.DatabaseExists database]⟩
    | (.ok false, s1) => ⟨none, data.SetId "", s1, [Call.DatabaseExists database]⟩
    | (.ok true, s1) =>
      match connector.GetDatabaseSchema database schemaName s1 with
      | (.error err, s2) =>
        ⟨some (Wrapf err ("unable to get schema [" ++ database ++ "].[" ++ schemaName ++ "]")),
          data, s2, [Call.DatabaseExists database, Call.GetDatabaseSchema database schemaName]⟩
      | (.ok none, s2) =>
        ⟨none, data.SetId "", s2,
          [Call.DatabaseExists database, Call.GetDatabaseSchema database schemaName]⟩
      | (.ok (some sqlschema), s2) =>
        ⟨none,
          { data with cur :=
              { data.cur with
                schemaId := sqlschema.SchemaID, schemaName := sqlschema.SchemaName,
                ownerName := sqlschema.OwnerName, ownerId := sqlschema.OwnerId } },
          s2, [Call.DatabaseExists database, Call.GetDatabaseSchema database schemaName]⟩

/-- Go `resourceDatabaseSchemaCreate`. `getDatabaseSchemaID` is not under src/
and is a parameter. -/
def resourceDatabaseSchemaCreate {σ : Type}
    (getDatabaseSchemaID : ResourceData SchemaAttrs → String)
    (conn : Except GoError (DatabaseSchemaConnector σ))
    (data : ResourceData SchemaAttrs) (s : σ) : Outcome σ SchemaAttrs :=
  let database := data.cur.database
  let schemaName := data.cur.schemaName
  let ownerName := data.cur.ownerName
  match conn with
  | .error err => ⟨some err.Error, data, s, []⟩
  | .ok connector =>
    match connector.CreateDatabaseSchema database schemaName ownerName s with
    | (some err, s1) =>
      ⟨some (Wrapf err ("unable to create schema [" ++ database ++ "].[" ++ schemaName ++ "]")),
        data, s1, [Call.CreateDatabaseSchema database schemaName ownerName]⟩
    | (none, s1) =>
      let r := resourceDatabaseSchemaRead conn (data.SetId (getDatabaseSchemaID data)) s1
      { r with calls := Call.CreateDatabaseSchema database schemaName ownerName :: r.calls }

/-- Go `resourceDatabaseSchemaDelete`. -/
def resourceDatabaseSchemaDelete {σ : Type} (conn : Except GoError (DatabaseSchemaConnector σ))
    (data : ResourceData SchemaAttrs) (s : σ) : Outcome σ SchemaAttrs :=
  if data.cur.ignoreDeletion then ⟨none, data, s, []⟩
  else
    let database := data.cur.database
    let schemaName := data.cur.schemaName
    match conn with
    | .error err => ⟨some err.Error, data, s, []⟩
    | .ok connector =>
      match connector.DeleteDatabaseSchema database schemaName s with
      | (some err, s1) =>
        ⟨some (Wrapf err
            ("unable to delete schema [" ++ database ++ "].[" ++ schemaName ++ "]")),
          data, s1, [Call.DeleteDatabaseSchema database schemaName]⟩
      | (none, s1) =>
        ⟨none, data.SetId "", s1, [Call.DeleteDatabaseSchema database schemaName]⟩

/-- Go `resourceDatabaseSchemaUpdate`. -/
def resourceDatabaseSchemaUpdate {σ : Type}
    (getDatabaseSchemaID : ResourceData SchemaAttrs → String)
    (conn : Except GoError (DatabaseSchemaConnector σ))
    (data : ResourceData SchemaAttrs) (s : σ) : Outcome σ SchemaAttrs :=
  let database := data.cur.database
  let schemaName := data.cur.schemaName
  let ownerName := data.cur.ownerName
  match conn with
  | .error err => ⟨some err.Error, data, s, []⟩
  | .ok connector =>
    match connector.UpdateDatabaseSchema database schemaName ownerName s with
    | (some err, s1) =>
      ⟨some (Wrapf err ("unable to update schema [" ++ database ++ "].[" ++ schemaName ++ "]")),
        { data with cur :=
            { data.cur with
              ownerName :=
                if data.prior.ownerName ≠ data.planned.ownerName then data.prior.ownerName
                else data.cur.ownerName } },
        s1, [Call.UpdateDatabaseSchema database schemaName ownerName]⟩
    | (none, s1) =>
      let r := resourceDatabaseSchemaRead conn (data.SetId (getDatabaseSchemaID data)) s1
      { r with calls := Call.UpdateDatabaseSchema database schemaName ownerName :: r.calls }

/-! ### mssql/resource_database_masterkey.go -/

/-- The attributes of `mssql_database_masterkey` (`resourceDatabaseMasterkey`). -/
structure MasterkeyAttrs where
  host : String
  port : String
  database : String
  password : String
  keyname : String
  keyguid : String
  principalId : Int
  symmetrickeyid : Int
  keylength : Int
  keyalgorithm : String
  algorithmdesc : String
  deriving DecidableEq

/-- Go interface `DatabaseMasterkeyConnector`. -/
structure DatabaseMasterkeyConnector (σ : Type) where
  CreateDatabaseMasterkey : String → String → σ → Option GoError × σ
  GetDatabaseMasterkey : String → σ → Except GoError (Option DatabaseMasterkey) × σ
  UpdateDatabaseMasterkey : String → String → σ → Option GoError × σ
  DeleteDatabaseMasterkey : String → σ → Option GoError × σ
  DatabaseExists : String → σ → Except GoError Bool × σ

/-- Go `resourceDatabaseMasterkeyRead`. -/
def resourceDatabaseMasterkeyRead {σ : Type}
    (conn : Except GoError (DatabaseMasterkeyConnector σ))
    (data : ResourceData MasterkeyAttrs) (s : σ) : Outcome σ MasterkeyAttrs :=
  let database := data.cur.database
  match conn with
  | .error err => ⟨some err.Error, data, s, []⟩
  | .ok connector =>
    match connector.DatabaseExists database s with
    | (.error err, s1) =>
      ⟨some (Wrapf err ("unable to check if database [" ++ database ++ "] exists")), data, s1,
        [Call.DatabaseExists database]⟩
    | (.ok false, s1) => ⟨none, data.SetId "", s1, [Call.DatabaseExists database]⟩
    | (.ok true, s1) =>
      match connector.GetDatabaseMasterkey database s1 with
      | (.error err, s2) =>
        ⟨some (Wrapf err
            ("unable to read database master key on database [" ++ database ++ "]")),
          data, s2, [Call.DatabaseExists database, Call.GetDatabaseMasterkey database]⟩
      | (.ok none, s2) =>
        ⟨none, data.SetId "", s2,
          [Call.DatabaseExists database, Call.GetDatabaseMasterkey database]⟩
      | (.ok (some masterkey), s2) =>
        ⟨none,
          { data with cur :=
              { data.cur with
                keyname := masterkey.KeyName, principalId := masterkey.PrincipalID,
                symmetrickeyid := masterkey.SymmetricKeyID, keylength := masterkey.KeyLength,
                keyalgorithm := masterkey.KeyAlgorithm,
                algorithmdesc := masterkey.AlgorithmDesc, keyguid := masterkey.KeyGuid } },
          s2, [Call.DatabaseExists database, Call.GetDatabaseMasterkey database]⟩

/-- Go `resourceDatabaseMasterkeyCreate`. `getDatabaseMasterkeyID` is not under
src/ and is a parameter. -/
def resourceDatabaseMasterkeyCreate {σ : Type}
    (getDatabaseMasterkeyID : ResourceData MasterkeyAttrs → String)
    (conn : Except GoError (DatabaseMasterkeyConnector σ))
    (data : ResourceData MasterkeyAttrs) (s : σ) : Outcome σ MasterkeyAttrs :=
  let database := data.cur.database
  let password := data.cur.password
  match conn with
  | .error err => ⟨some err.Error, data, s, []⟩
  | .ok connector =>
    match connector.CreateDatabaseMasterkey database password s with
    | (some err, s1) =>
      ⟨some (Wrapf err
          ("unable to create database master key on database [" ++ database ++ "]")),
        data, s1, [Call.CreateDatabaseMasterkey database password]⟩
    | (none, s1) =>
      let r := resourceDatabaseMasterkeyRead conn (data.SetId (getDatabaseMasterkeyID data)) s1
      { r with calls := Call.CreateDatabaseMasterkey database password :: r.calls }

/-- Go `resourceDatabaseMasterkeyUpdate`. -/
def resourceDatabaseMasterkeyUpdate {σ : Type}
    (getDatabaseMasterkeyID : ResourceData MasterkeyAttrs → String)
    (conn : Except GoError (DatabaseMasterkeyConnector σ))
    (data : ResourceData MasterkeyAttrs) (s : σ) : Outcome σ MasterkeyAttrs :=
  let database := data.cur.database
  let password := data.cur.password
  match conn with
  | .error err => ⟨some err.Error, data, s, []⟩
  | .ok connector =>
    match connector.UpdateDatabaseMasterkey database password s with
    | (some err, s1) =>
      ⟨some (Wrapf err ("unable to update database key on database [" ++ database ++ "]")),
        data, s1, [Call.UpdateDatabaseMasterkey database password]⟩
    | (none, s1) =>
      let r := resourceDatabaseMasterkeyRead conn (data.SetId (getDatabaseMasterkeyID data)) s1
      { r with calls := Call.UpdateDatabaseMasterkey database password :: r.calls }

/-- Go `resourceDatabaseMasterkeyDelete`. -/
def resourceDatabaseMasterkeyDelete {σ : Type}
    (conn : Except GoError (DatabaseMasterkeyConnector σ))
    (data : ResourceData MasterkeyAttrs) (s : σ) : Outcome σ MasterkeyAttrs :=
  let database := data.cur.database
  match conn with
  | .error err => ⟨some err.Error, data, s, []⟩
  | .ok connector =>
    match connector.DeleteDatabaseMasterkey database s with
    | (some err, s1) =>
      ⟨some (Wrapf err
          ("unable to delete database master key on database [" ++ database ++ "]")),
        data, s1, [Call.DeleteDatabaseMasterkey database]⟩
    | (none, s1) => ⟨none, data.SetId "", s1, [Call.DeleteDatabaseMasterkey database]⟩

/-! ### mssql/resource_database_sqlscript.go: Read -/

/-- The attributes of `mssql_database_sqlscript` (`resourceDatabaseSQLScript`). -/
structure SQLScriptAttrs where
  host : String
  port : String
  database : String
  sqlscript : String
  verifyObject : String
  deriving DecidableEq

/-- Go interface `DatabaseSQLScriptConnector`. -/
structure DatabaseSQLScriptConnector (σ : Type) where
  DataBaseExecuteScript : String → String → σ → Option GoError × σ
  DatabaseExists : String → σ → Except GoError Bool × σ

/-- Go `strings.Contains(s, substr)`. -/
def Contains (s substr : String) : Bool :=
  occursIn substr.data s.data

/-- Go `resourceDatabaseSQLScriptRead`. `ToUpper` is Go `strings.ToUpper`. -/
def resourceDatabaseSQLScriptRead {σ : Type} (ToUpper : String → String)
    (conn : Except GoError (DatabaseSQLScriptConnector σ))
    (data : ResourceData SQLScriptAttrs) (s : σ) : Outcome σ SQLScriptAttrs :=
  let database := data.cur.database
  let verifyObject := data.cur.verifyObject
  match conn with
  | .error err => ⟨some err.Error, data, s, []⟩
  | .ok connector =>
    match connector.DatabaseExists database s with
    | (.error err, s1) =>
      ⟨some (Wrapf err ("unable to check if database [" ++ database ++ "] exists")), data, s1,
        [Call.DatabaseExists database]⟩
    | (.ok false, s1) => ⟨none, data.SetId "", s1, [Call.DatabaseExists database]⟩
    | (.ok true, s1) =>
      match getObjectExistsQuery ToUpper verifyObject with
      | .error msg => ⟨some msg, data, s1, [Call.DatabaseExists database]⟩
      | .ok query =>
        match connector.DataBaseExecuteScript database query s1 with
        | (some err, s2) =>
          if verifyObject ≠ "" ∧ (Contains err.Error "Invalid object name" ∨
              Contains err.Error "does not exist" ∨ ¬ Contains err.Error "affected") then
            ⟨none, data.SetId "", s2,
              [Call.DatabaseExists database, Call.DataBaseExecuteScript database query]⟩
          else
            ⟨some (Wrapf err ("unable to verify object in database [" ++ database ++ "]")),
              data, s2,
              [Call.DatabaseExists database, Call.DataBaseExecuteScript database query]⟩
        | (none, s2) =>
          ⟨none, data, s2,
            [Call.DatabaseExists database, Call.DataBaseExecuteScript database query]⟩

/-! ### mssql/resource_database_sqlscript.go: validation and plan-time check -/

/-- The types `validateVerifyObject` lists in `validTypes`. -/
def validTypes : List String :=
  ["TABLE", "VIEW", "PROCEDURE", "PROC", "FUNCTION", "FUNC", "SCHEMA", "TRIGGER", "TRG"]

/-- Go `validateVerifyObject(verifyObject)`: `none` is `nil`, `some msg` the
error. `ToUpper` is Go `strings.ToUpper`; the map `validTypes` holds `true` for
each of its keys, so the lookup is membership. -/
def validateVerifyObject (ToUpper : String → String) (verifyObject : String) : Option String :=
  if verifyObject = "" then some "verify_object cannot be empty"
  else
    match Fields verifyObject with
    | [part0, _] =>
      let objectType := ToUpper part0
      if objectType ∉ validTypes then
        some ("unsupported object type: " ++ objectType ++
          ". Supported types are: TABLE, VIEW, PROCEDURE/PROC, FUNCTION/FUNC, SCHEMA, TRIGGER/TRG")
      else none
    | _ => some ("verify_object must be in format 'TYPE NAME', got: " ++ verifyObject)

/-- The double-quote character, as a string. -/
def quotationMark : String := String.singleton (Char.ofNat 34)

/-- The patterns that the `CustomizeDiff` of `resourceDatabaseSQLScript` looks
for in the lower-cased script (lines 96-120), in order. -/
def CustomizeDiff_patterns (objectTypeLower objectNameLower quotedNameLower bracketNameLower
    doubleNameLower : String) : List String :=
  ["create " ++ objectTypeLower ++ " " ++ objectNameLower,
   "create " ++ objectTypeLower ++ " " ++ quotedNameLower,
   "create " ++ objectTypeLower ++ " " ++ bracketNameLower,
   "create " ++ objectTypeLower ++ " " ++ doubleNameLower,
   "alter " ++ objectTypeLower ++ " " ++ objectNameLower,
   "alter " ++ objectTypeLower ++ " " ++ quotedNameLower,
   "alter " ++ objectTypeLower ++ " " ++ bracketNameLower,
   "alter " ++ objectTypeLower ++ " " ++ doubleNameLower,
   "create or alter " ++ objectTypeLower ++ " " ++ objectNameLower,
   "create or alter " ++ objectTypeLower ++ " " ++ quotedNameLower,
   "create or alter " ++ objectTypeLower ++ " " ++ bracketNameLower,
   "create or alter " ++ objectTypeLower ++ " " ++ doubleNameLower,
   "drop " ++ objectTypeLower ++ " " ++ objectNameLower ++ ".*create " ++ objectTypeLower ++
     " " ++ objectNameLower,
   "drop " ++ objectTypeLower ++ " " ++ quotedNameLower ++ ".*create " ++ objectTypeLower ++
     " " ++ quotedNameLower,
   "drop " ++ objectTypeLower ++ " " ++ bracketNameLower ++ ".*create " ++ objectTypeLower ++
     " " ++ bracketNameLower,
   "drop " ++ objectTypeLower ++ " " ++ doubleNameLower ++ ".*create " ++ objectTypeLower ++
     " " ++ doubleNameLower]

/-- The `CustomizeDiff` function of `resourceDatabaseSQLScript` (lines 59-135),
on the values of `verify_object` and `sqlscript`: `none` is `nil`, `some msg`
the error. `ToUpper` and `ToLower` are Go `strings.ToUpper` and
`strings.ToLower`, `DecodeString` is `base64.StdEncoding.DecodeString`. -/
def CustomizeDiff (ToUpper ToLower : String → String)
    (DecodeString : String → Except GoError String) (verifyObject scriptBase64 : String) :
    Option String :=
  if verifyObject = "" then none
  else
    match DecodeString scriptBase64 with
    | .error err => some (Wrapf err "failed to decode base64 sqlscript")
    | .ok scriptContent =>
      match Fields verifyObject with
      | [part0, part1] =>
        let objectType := ToUpper part0
        let objectName := part1
        let quotedName := "'" ++ objectName ++ "'"
        let bracketName := "[" ++ objectName ++ "]"
        let doubleName := quotationMark ++ objectName ++ quotationMark
        let scriptLower := ToLower scriptContent
        let objectTypeLower := ToLower objectType
        let objectNameLower := ToLower objectName
        let quotedNameLower := ToLower quotedName
        let bracketNameLower := ToLower bracketName
        let doubleNameLower := ToLower doubleName
        let patterns := CustomizeDiff_patterns objectTypeLower objectNameLower quotedNameLower
          bracketNameLower doubleNameLower
        let found := patterns.any (fun pattern => Contains scriptLower pattern)
        if ¬ found then
          some ("verify_object '" ++ objectType ++ " " ++ objectName ++
            "' is specified but no matching 'CREATE', 'ALTER', or 'CREATE OR ALTER' statement for this object was found in the script")
        else none
      | _ => some ("verify_object must be in format 'TYPE NAME', got: " ++ verifyObject)

/-! ### mssql: the attribute schemas of the resources -/

/-- The property-name constants of package `mssql` that key the attribute
schemas of the user, role and schema resources. -/
inductive PropName where
  | serverProp | ignoreDeletionProp | databaseProp | usernameProp | objectIdProp | typeStrProp
  | loginNameProp | passwordProp | sidStrProp | authenticationTypeProp | principalIdProp
  | defaultSchemaProp | defaultLanguageProp | rolesProp | roleNameProp | ownerNameProp
  | ownerIdProp | schemaNameProp | schemaIdProp
  deriving DecidableEq

/-- Go `schema.Schema`, with the boolean fields the resources set; a field that
a literal does not mention has the zero value `false`. -/
structure Schema where
  Required : Bool := false
  Optional : Bool := false
  ForceNew : Bool := false
  Computed : Bool := false
  Sensitive : Bool := false
  deriving DecidableEq

/-- The `Schema` map of Go `resourceUser()` (resource_user.go lines 24-112). -/
def resourceUser_Schema : List (PropName × Schema) :=
  [(.serverProp, { Required := true }),
   (.ignoreDeletionProp, { Optional := true }),
   (.databaseProp, { Optional := true, ForceNew := true }),
   (.usernameProp, { Required := true, ForceNew := true }),
   (.objectIdProp, { Optional := true, ForceNew := true }),
   (.typeStrProp, { Computed := true, Optional := true, ForceNew := true }),
   (.loginNameProp, { Optional := true, ForceNew := true }),
   (.passwordProp, { Optional := true, Sensitive := true }),
   (.sidStrProp, { Computed := true }),
   (.authenticationTypeProp, { Computed := true }),
   (.principalIdProp, { Computed := true }),
   (.defaultSchemaProp, { Optional := true }),
   (.defaultLanguageProp, { Optional := true }),
   (.rolesProp, { Optional := true })]

/-- The `Schema` map of Go `resourceDatabaseRole()`
(resource_database_role.go lines 23-59). -/
def resourceDatabaseRole_Schema : List (PropName × Schema) :=
  [(.serverProp, { Required := true }),
   (.databaseProp, { Optional := true, ForceNew := true }),
   (.roleNameProp, { Required := true }),
   (.ownerNameProp, { Optional := true }),
   (.ownerIdProp, { Computed := true }),
   (.principalIdProp, { Computed := true })]

/-- The `Schema` map of Go `resourceDatabaseSchema()`
(resource_database_schema.go lines 23-65). -/
def resourceDatabaseSchema_Schema : List (PropName × Schema) :=
  [(.serverProp, { Required := true }),
   (.ignoreDeletionProp, { Optional := true }),
   (.databaseProp, { Optional := true, ForceNew := true }),
   (.schemaNameProp, { Required := true, ForceNew := true }),
   (.ownerNameProp, { Optional := true }),
   (.schemaIdProp, { Computed := true }),
   (.ownerIdProp, { Computed := true })]

/-- Whether the attribute `prop` of a resource is marked `ForceNew`. -/
def ForceNew (schema : List (PropName × Schema)) (prop : PropName) : Bool :=
  match schema.lookup prop with
  | some s => s.ForceNew
  | none => false

/-! ### mssql: import (resource_user.go, resource_database_sqlscript.go) -/

/-- The `server` value that `serverFromId` returns and `data.Set(serverProp, ...)`
stores, with the two entries the resource ids are built from. -/
structure Server where
  host : String
  port : String
  deriving DecidableEq

/-- Go `*url.URL`, with the field the import functions read. -/
structure URL where
  Path : String
  deriving DecidableEq

/-- The result of an import function: the resource data, or the message of the
error, with the server state it leaves and the connector calls made. -/
structure ImportOutcome (σ α : Type) where
  result : Except String (ResourceData α)
  server : σ
  calls : List Call
  deriving DecidableEq

/-- Go `strconv.FormatBool`. -/
def FormatBool (b : Bool) : String :=
  if b then "true" else "false"

/-- The closure that Go `testAccImportStateId(resource, azure)` returns
(provider_test.go lines 234-245), on the id `rs.Primary.ID` of the resource in
the state. -/
def testAccImportStateId (ID : String) (azure : Bool) : Except String String :=
  if ID = "" then .error "no record ID is set"
  else .ok (ID ++ "?azure=" ++ FormatBool azure)

/-- Go `resourceUserImport`. `serverFromId` is the helper of package `mssql`
that parses the id into the server entry and the URL; `conn` is the result of
`getUserConnector`. -/
def resourceUserImport {σ : Type} (SetList : List String → List String)
    (serverFromId : String → Except GoError (Server × URL))
    (conn : Except GoError (UserConnector σ)) (data : ResourceData UserAttrs) (s : σ) :
    ImportOutcome σ UserAttrs :=
  match serverFromId data.Id with
  | .error err => ⟨.error err.Error, s, []⟩
  | .ok (server, u) =>
    let data := { data with cur := { data.cur with host := server.host, port := server.port } }
    match Split u.Path '/' with
    | [_, part1, _, part3] =>
      let data := { data with cur := { data.cur with database := part1 } }
      let data := { data with cur := { data.cur with username := part3 } }
      let data := data.SetId (getUserID data)
      let database := data.cur.database
      let username := data.cur.username
      let data := { data with cur := { data.cur with ignoreDeletion := false } }
      match conn with
      | .error err => ⟨.error err.Error, s, []⟩
      | .ok connector =>
        match connector.GetUser database username s with
        | (.error err, s1) =>
          ⟨.error (Wrapf err ("unable to read user [" ++ database ++ "].[" ++ username ++
            "] for import")), s1, [Call.GetUser database username]⟩
        | (.ok none, s1) =>
          ⟨.error ("no user [" ++ database ++ "].[" ++ username ++ "] found for import"), s1,
            [Call.GetUser database username]⟩
        | (.ok (some login), s1) =>
          ⟨.ok { data with cur :=
              { data.cur with
                authenticationType := login.AuthType, typeStr := login.TypeStr,
                principalId := login.PrincipalID, defaultSchema := login.DefaultSchema,
                defaultLanguage := login.DefaultLanguage, roles := SetList login.Roles } },
            s1, [Call.GetUser database username]⟩
    | _ => ⟨.error "invalid ID", s, []⟩

/-- Go `resourceDatabaseSQLScriptImport`. `serverFromId` and
`getDatabaseSQLScriptID` are the helpers of package `mssql`, `DecodeString` is
`base64.StdEncoding.DecodeString`, `ToUpper` is `strings.ToUpper`; `conn` is the
result of `getDatabaseSQLScriptConnector`. -/
def resourceDatabaseSQLScriptImport {σ : Type} (ToUpper : String → String)
    (DecodeString : String → Except GoError String)
    (serverFromId : String → Except GoError (Server × URL))
    (getDatabaseSQLScriptID : ResourceData SQLScriptAttrs → String)
    (conn : Except GoError (DatabaseSQLScriptConnector σ))
    (data : ResourceData SQLScriptAttrs) (s : σ) : ImportOutcome σ SQLScriptAttrs :=
  match serverFromId data.Id with
  | .error err => ⟨.error err.Error, s, []⟩
  | .ok (server, u) =>
    let data1 := { data with cur := { data.cur with host := server.host, port := server.port } }
    match Split u.Path '/' with
    | [_, part1, _, part3] =>
      let database := part1
      let data2 := { data1 with cur := { data1.cur with database := database } }
      match DecodeString part3 with
      | .error err => ⟨.error ("failed to decode base64 string: " ++ err.Error), s, []⟩
      | .ok decoded =>
        match Split decoded ':' with
        | [dbPart0, dbPart1] =>
          if dbPart0 ≠ database then
            ⟨.error ("database name mismatch. Path has '" ++ database ++ "' but decoded has '" ++
              dbPart0 ++ "'"), s, []⟩
          else
            let verifyObject := dbPart1
            match validateVerifyObject ToUpper verifyObject with
            | some msg => ⟨.error msg, s, []⟩
            | none =>
              let data3 := { data2 with cur := { data2.cur with verifyObject := verifyObject } }
              let data4 := data3.SetId (getDatabaseSQLScriptID data3)
              match conn with
              | .error err => ⟨.error ("failed to get connector: " ++ err.Error), s, []⟩
              | .ok connector =>
                match connector.DatabaseExists database s with
                | (.error err, s1) =>
                  ⟨.error ("failed to check if database exists: " ++ err.Error), s1,
                    [Call.DatabaseExists database]⟩
                | (.ok false, s1) =>
                  ⟨.error ("database '" ++ database ++ "' does not exist"), s1,
                    [Call.DatabaseExists database]⟩
                | (.ok true, s1) =>
                  match getObjectExistsQuery ToUpper verifyObject with
                  | .error msg =>
                    ⟨.error ("failed to generate verification query: " ++ msg), s1,
                      [Call.DatabaseExists database]⟩
                  | .ok query =>
                    match connector.DataBaseExecuteScript database query s1 with
                    | (some err, s2) =>
                      ⟨.error ("object '" ++ verifyObject ++ "' does not exist in database '" ++
                        database ++ "': " ++ err.Error), s2,
                        [Call.DatabaseExists database,
                          Call.DataBaseExecuteScript database query]⟩
                    | (none, s2) =>
                      ⟨.ok data4, s2,
                        [Call.DatabaseExists database,
                          Call.DataBaseExecuteScript database query]⟩
        | _ =>
          ⟨.error ("invalid decoded format. Expected 'dbname:verify_object', got: " ++ decoded),
            s, []⟩
    | _ =>
      ⟨.error ("invalid ID format. Expected 'mssql://server:port/databasename/sqlscript/base64(databasename:verify_object)', got: " ++
        data.Id), s, []⟩

/-! ### Instances of the base64 parameters -/

/-- The alphabet of `base64.StdEncoding`. -/
def encodeStd : List Char :=
  "ABCDEFGHIJKLMNOPQRSTUVWXYZabcdefghijklmnopqrstuvwxyz0123456789+/".data

/-- The character of the alphabet that stands for a six-bit value. -/
def base64Char (n : Nat) : Char :=
  encodeStd.getD n 'A'

/-- The six-bit value of a character of the alphabet. -/
def base64Value (c : Char) : Option Nat :=
  if c ∈ encodeStd then some (encodeStd.indexOf c) else none

/-- Standard base64 with padding, on bytes. -/
def base64EncodeBytes : List Nat → List Char
  | [] => []
  | [a] => [base64Char (a / 4), base64Char (a % 4 * 16), '=', '=']
  | [a, b] =>
    [base64Char (a / 4), base64Char (a % 4 * 16 + b / 16), base64Char (b % 16 * 4), '=']
  | a :: b :: c :: rest =>
    base64Char (a / 4) :: base64Char (a % 4 * 16 + b / 16) ::
      base64Char (b % 16 * 4 + c / 64) :: base64Char (c % 64) :: base64EncodeBytes rest

/-- The decoding of standard base64 with padding and without line breaks, to
bytes; `none` on a text that is not such an encoding. -/
def base64DecodeChars : List Char → Option (List Nat)
  | [] => some []
  | a :: b :: c :: d :: rest =>
    match base64Value a, base64Value b with
    | some x, some y =>
      if c = '=' ∧ d = '=' ∧ rest = [] then some [x * 4 + y / 16]
      else
        match base64Value c with
        | some z =>
          if d = '=' ∧ rest = [] then some [x * 4 + y / 16, y % 16 * 16 + z / 4]
          else
            match base64Value d, base64DecodeChars rest with
            | some w, some bytes =>
              some ((x * 4 + y / 16) :: (y % 16 * 16 + z / 4) :: (z % 4 * 64 + w) :: bytes)
            | _, _ => none
        | none => none
    | _, _ => none
  | _ => none

/-- An instance of `base64.StdEncoding.EncodeToString` that agrees with Go on
ASCII text, whose bytes are its character codes. -/
def asciiEncodeToString (s : String) : String :=
  String.mk (base64EncodeBytes (s.data.map Char.toNat))

/-- An instance of the `DecodeString` parameter that agrees with Go
`base64.StdEncoding.DecodeString` on the padded encodings, without line breaks,
of ASCII text. -/
def asciiDecodeString (s : String) : Except GoError String :=
  match base64DecodeChars s.data with
  | some bytes =>
    if bytes.all (fun b => b < 128) then .ok (String.mk (bytes.map Char.ofNat))
    else .error (GoError.other "illegal base64 data: not ASCII")
  | none => .error (GoError.other "illegal base64 data")

/-- An instance of `strings.ToLower` that agrees with Go on ASCII text. -/
def asciiToLower (s : String) : String :=
  String.mk (s.data.map Char.toLower)

/-! ## Sample inputs -/

/-- A sample catalog: the user `alice` is a member of `readers` and `admins`,
and owns the roles `admins` and `writers` and the schemas `sales` and `hr`. -/
def sampleCatalog : Catalog :=
  { database_principals :=
      [⟨1, "dbo", "S", none⟩, ⟨5, "alice", "S", none⟩, ⟨6, "readers", "R", some 1⟩,
       ⟨7, "admins", "R", some 5⟩, ⟨8, "writers", "R", some 5⟩, ⟨0, "public", "R", some 1⟩],
    database_role_members := [⟨6, 5⟩, ⟨7, 5⟩],
    schemas := [⟨1, "dbo", 1⟩, ⟨5, "sales", 5⟩, ⟨6, "hr", 5⟩, ⟨7, "ops", 1⟩] }

/-- A sample desired user: `alice` with the roles `readers` and `writers`. -/
def sampleUser : User :=
  { PrincipalID := 0, Username := "alice", ObjectId := "", LoginName := "", Password := "",
    SIDStr := "", AuthType := "", TypeStr := "", DefaultSchema := "dbo", DefaultLanguage := "",
    Roles := ["readers", "writers"] }

/-- A desired user that supplies both a password and a directory object id. -/
def sampleUserWithPasswordAndObjectId : User :=
  { sampleUser with Password := "p@ss", ObjectId := "6f9619ff-8b86-d011-b42d-00c04fc964ff" }

/-- A desired user that supplies both a login name and a directory object id. -/
def sampleUserWithLoginAndObjectId : User :=
  { sampleUser with LoginName := "alice_login",
                    ObjectId := "6f9619ff-8b86-d011-b42d-00c04fc964ff" }

/-- A desired user one of whose roles, `auditors`, does not exist in the
sample catalog. -/
def sampleUserWithMissingRole : User :=
  { sampleUser with Roles := ["readers", "writers", "auditors"] }

/-- A sample row of the primary query of `GetUser`: an instance-authenticated
user whose login name the join did not return. -/
def sampleUserRow : UserRow :=
  { PrincipalID := 5, Username := "alice", TypeStr := "S", AuthType := "INSTANCE",
    DefaultSchema := "dbo", DefaultLanguage := "", sid := [1, 5, 0, 0], SIDStr := "0x01050000",
    LoginName := "", roles := "readers,admins" }

/-- The entity of the user `alice` with the login `alice_login` and the roles
`readers` and `admins`, field by field. -/
def sampleEntity : User :=
  { PrincipalID := 5, Username := "alice", ObjectId := "", LoginName := "alice_login",
    Password := "", SIDStr := "0x01050000", AuthType := "INSTANCE", TypeStr := "S",
    DefaultSchema := "dbo", DefaultLanguage := "", Roles := ["readers", "admins"] }

/-- A stand-in for the set listing of the SDK: each value once, in the order
of the last occurrences. -/
def sampleSetList (l : List String) : List String :=
  l.dedup

/-- A server that answers every user query with `row`, every one-column lookup
with `login`, and finds no schema. -/
def sampleRowQueries (row : Except GoError UserRow) (login : Except GoError String) :
    RowQueries :=
  { scanUser := fun _ => row,
    scanName := fun _ => login,
    scanSchema := fun _ => .error GoError.ErrNoRows }

/-- Sample resource data of `mssql_user` for the user `alice` of the database
`db`, with prior state, plan and current values alike. -/
def sampleUserData (ignoreDeletion : Bool) : ResourceData UserAttrs :=
  let attrs : UserAttrs :=
    { host := "localhost", port := "1433", ignoreDeletion := ignoreDeletion, database := "db",
      username := "alice", objectId := "", typeStr := "", loginName := "alice_login",
      password := "", sidStr := "", authenticationType := "", principalId := 0,
      defaultSchema := "dbo", defaultLanguage := "", roles := ["readers"] }
  { Id := "sqlserver://localhost:1433/db/alice", prior := attrs, planned := attrs, cur := attrs }

/-- Sample resource data of `mssql_database_schema` for the schema `sales`. -/
def sampleSchemaData (ignoreDeletion : Bool) : ResourceData SchemaAttrs :=
  let attrs : SchemaAttrs :=
    { host := "localhost", port := "1433", ignoreDeletion := ignoreDeletion, database := "db",
      schemaName := "sales", ownerName := "dbo", schemaId := 0, ownerId := 0 }
  { Id := "sqlserver://localhost:1433/db/sales", prior := attrs, planned := attrs, cur := attrs }

/-- Sample resource data of `mssql_database_role` for the role `readers`. -/
def sampleRoleData : ResourceData RoleAttrs :=
  let attrs : RoleAttrs :=
    { host := "localhost", port := "1433", database := "db", roleName := "readers",
      ownerName := "dbo", ownerId := 0, principalId := 0 }
  { Id := "sqlserver://localhost:1433/db/readers", prior := attrs, planned := attrs,
    cur := attrs }

/-- Sample resource data of `mssql_database_masterkey`. -/
def sampleMasterkeyData : ResourceData MasterkeyAttrs :=
  let attrs : MasterkeyAttrs :=
    { host := "localhost", port := "1433", database := "db", password := "S3cret!",
      keyname := "", keyguid := "", principalId := 0, symmetrickeyid := 0, keylength := 0,
      keyalgorithm := "", algorithmdesc := "" }
  { Id := "sqlserver://localhost:1433/db/masterkey", prior := attrs, planned := attrs,
    cur := attrs }

/-- Sample resource data of `mssql_database_sqlscript` that verifies the table
`Users`. -/
def sampleSQLScriptData : ResourceData SQLScriptAttrs :=
  let attrs : SQLScriptAttrs :=
    { host := "localhost", port := "1433", database := "db", sqlscript := "",
      verifyObject := "TABLE Users" }
  { Id := "sqlserver://localhost:1433/db/sqlscript", prior := attrs, planned := attrs,
    cur := attrs }

/-- A user server whose state is the list of the names of the users that exist:
creating an existing user fails as the server makes it fail, reading reports
the user when it exists, the database always exists. -/
def sampleUserServer : UserConnector (List String) :=
  { CreateUser := fun _ user s =>
      if user.Username ∈ s then
        (some (GoError.other "User, group, or role already exists in the current database."), s)
      else (none, user.Username :: s),
    GetUser := fun _ username s =>
      if username ∈ s then
        (.ok (some { sampleUser with Username := username, Roles := ["readers"] }), s)
      else (.ok none, s),
    UpdateUser := fun _ _ s => (none, s),
    DeleteUser := fun _ username s => (none, s.erase username),
    DatabaseExists := fun _ s => (.ok true, s) }

/-- A user connector with fixed answers: `dbExists` to `DatabaseExists`, `get` to
`GetUser`, and `err` to every statement execution. -/
def fixedUserConnector (dbExists : Except GoError Bool) (get : Except GoError (Option User))
    (err : Option GoError) : UserConnector Unit :=
  { CreateUser := fun _ _ s => (err, s),
    GetUser := fun _ _ s => (get, s),
    UpdateUser := fun _ _ s => (err, s),
    DeleteUser := fun _ _ s => (err, s),
    DatabaseExists := fun _ s => (dbExists, s) }

/-- A role connector with fixed answers. -/
def fixedRoleConnector (dbExists : Except GoError Bool)
    (get : Except GoError (Option DatabaseRole)) (err : Option GoError) :
    DatabaseRoleConnector Unit :=
  { CreateDatabaseRole := fun _ _ _ s => (err, s),
    GetDatabaseRole := fun _ _ s => (get, s),
    UpdateDatabaseRole := fun _ _ _ _ s => (err, s),
    DeleteDatabaseRole := fun _ _ s => (err, s),
    DatabaseExists := fun _ s => (dbExists, s) }

/-- A schema connector with fixed answers. -/
def fixedSchemaConnector (dbExists : Except GoError Bool)
    (get : Except GoError (Option DatabaseSchema)) (err : Option GoError) :
    DatabaseSchemaConnector Unit :=
  { CreateDatabaseSchema := fun _ _ _ s => (err, s),
    GetDatabaseSchema := fun _ _ s => (get, s),
    UpdateDatabaseSchema := fun _ _ _ s => (err, s),
    DeleteDatabaseSchema := fun _ _ s => (err, s),
    DatabaseExists := fun _ s => (dbExists, s) }

/-- A master-key connector with fixed answers. -/
def fixedMasterkeyConnector (dbExists : Except GoError Bool)
    (get : Except GoError (Option DatabaseMasterkey)) (err : Option GoError) :
    DatabaseMasterkeyConnector Unit :=
  { CreateDatabaseMasterkey := fun _ _ s => (err, s),
    GetDatabaseMasterkey := fun _ s => (get, s),
    UpdateDatabaseMasterkey := fun _ _ s => (err, s),
    DeleteDatabaseMasterkey := fun _ s => (err, s),
    DatabaseExists := fun _ s => (dbExists, s) }

/-- A script connector with fixed answers. -/
def fixedSQLScriptConnector (dbExists : Except GoError Bool) (err : Option GoError) :
    DatabaseSQLScriptConnector Unit :=
  { DataBaseExecuteScript := fun _ _ s => (err, s),
    DatabaseExists := fun _ s => (dbExists, s) }

/-- Resource data of `mssql_user` with a pending change of the default schema
and of the roles; the password and the default language have none. -/
def sampleUserChange : ResourceData UserAttrs :=
  { sampleUserData false with
    planned := { (sampleUserData false).planned with
      defaultSchema := "sales", roles := ["readers", "writers"] },
    cur := { (sampleUserData false).cur with
      defaultSchema := "sales", roles := ["readers", "writers"] } }

/-- Resource data of `mssql_database_role` with a pending change of the role
name, from `readers` to `auditors`. -/
def sampleRoleRename : ResourceData RoleAttrs :=
  { sampleRoleData with
    planned := { sampleRoleData.planned with roleName := "auditors" },
    cur := { sampleRoleData.cur with roleName := "auditors" } }

/-- Resource data of `mssql_database_schema` with a pending change of the
owner, from `dbo` to `alice`. -/
def sampleSchemaChange : ResourceData SchemaAttrs :=
  { sampleSchemaData false with
    planned := { (sampleSchemaData false).planned with ownerName := "alice" },
    cur := { (sampleSchemaData false).cur with ownerName := "alice" } }

/-- A server that answers the schema query from a catalog, and has no user. -/
def catalogRowQueries (collate : String → String) (azure : Bool) (cat : Catalog) :
    RowQueries :=
  { scanUser := fun _ => .error GoError.ErrNoRows,
    scanName := fun _ => .error GoError.ErrNoRows,
    scanSchema := GetDatabaseSchema_scan collate azure cat }

/-- A stand-in for `serverFromId` on ids of the form
`sqlserver://host:port/path?query`: the host, the port, and the path, which
runs from the first slash after the host to the question mark. -/
def sampleServerFromId (id : String) : Except GoError (Server × URL) :=
  if "sqlserver://".data.isPrefixOf id.data then
    let rest := id.data.drop "sqlserver://".length
    let beforeQuery := rest.takeWhile (fun c => c ≠ '?')
    let authority := beforeQuery.takeWhile (fun c => c ≠ '/')
    let path := beforeQuery.dropWhile (fun c => c ≠ '/')
    .ok (⟨String.mk (authority.takeWhile (fun c => c ≠ ':')),
        String.mk ((authority.dropWhile (fun c => c ≠ ':')).drop 1)⟩, ⟨String.mk path⟩)
  else .error (GoError.other "invalid schema in ID")

/-! ## Theorems -/

/-! ### Facts about the string primitives -/

/-- A split always yields at least one field. -/
theorem splitChars_ne_nil (sep : Char) (l : List Char) : splitChars sep l ≠ [] := by
  induction l with
  | nil => simp [splitChars]
  | cons c cs ih =>
    unfold splitChars
    split_ifs
    · simp
    · split <;> simp

/-- No field of a split holds the separator. -/
theorem splitChars_no_sep (sep : Char) (l : List Char) :
    ∀ f ∈ splitChars sep l, sep ∉ f := by
  induction l with
  | nil => simp [splitChars]
  | cons c cs ih =>
    intro f hf
    unfold splitChars at hf
    split_ifs at hf with hc
    · rcases List.mem_cons.1 hf with h | h
      · simp [h]
      · exact ih f h
    · split at hf
      · next h0 => exact absurd h0 (splitChars_ne_nil sep cs)
      · next h t h0 =>
        rw [h0] at ih
        rcases List.mem_cons.1 hf with h1 | h1
        · subst h1
          intro hmem
          rcases List.mem_cons.1 hmem with h2 | h2
          · exact hc h2.symm
          · exact ih h (List.mem_cons_self _ _) h2
        · exact ih f (List.mem_cons_of_mem _ h1)

/-- Joining the fields of a split with the separator gives the text back. -/
theorem join_splitChars (sep : Char) (l : List Char) :
    Join ((splitChars sep l).map String.mk) (String.singleton sep) = String.mk l := by
  induction l with
  | nil => simp [splitChars, Join]
  | cons c cs ih =>
    unfold splitChars
    split_ifs with hc
    · subst hc
      rcases hs : splitChars c cs with _ | ⟨h, t⟩
      · exact absurd hs (splitChars_ne_nil c cs)
      · rw [hs] at ih
        simp only [List.map_cons, Join] at ih ⊢
        rw [ih]
        apply String.ext
        simp [String.singleton]
    · rcases hs : splitChars sep cs with _ | ⟨h, t⟩
      · exact absurd hs (splitChars_ne_nil sep cs)
      · rw [hs] at ih
        rcases t with _ | ⟨b, t⟩
        · simp only [List.map_cons, List.map_nil, Join] at ih ⊢
          have hh : h = cs := by simpa using congrArg String.data ih
          rw [hh]
        · simp only [List.map_cons, Join] at ih ⊢
          apply String.ext
          have hd := congrArg String.data ih
          simp only [String.data_append] at hd ⊢
          simp [← hd]

/-- Reading a run of non-space characters extends the current token. -/
theorem fieldsGo_append (xs : List Char) (hxs : ∀ c ∈ xs, isSpace c = false) :
    ∀ cur rest, fieldsGo cur (xs ++ rest) = fieldsGo (cur ++ xs) rest := by
  induction xs with
  | nil => intro cur rest; simp
  | cons x xs ih =>
    intro cur rest
    have hx : isSpace x = false := hxs x (List.mem_cons_self _ _)
    have := ih (fun c hc => hxs c (List.mem_cons_of_mem _ hc)) (cur ++ [x]) rest
    show fieldsGo cur (x :: (xs ++ rest)) = _
    rw [fieldsGo]
    simp only [hx, Bool.false_eq_true, if_false]
    rw [this]
    simp

/-- Two tokens separated by one blank are the two fields of the text. -/
theorem Fields_two (k n : String) (hk : k ≠ "") (hks : ∀ c ∈ k.data, isSpace c = false)
    (hn : n ≠ "") (hns : ∀ c ∈ n.data, isSpace c = false) :
    Fields (k ++ " " ++ n) = [k, n] := by
  have hk1 : k.data ≠ [] := fun h => hk (String.ext (by simpa using h))
  have hn1 : n.data ≠ [] := fun h => hn (String.ext (by simpa using h))
  have hdata : (k ++ " " ++ n).data = k.data ++ (' ' :: n.data) := by
    simp [String.data_append]
  unfold Fields
  rw [hdata, fieldsGo_append k.data hks [] (' ' :: n.data)]
  have hsp : isSpace ' ' = true := by decide
  have h2 := fieldsGo_append n.data hns [] []
  simp only [List.append_nil, List.nil_append] at h2
  simp only [List.nil_append, fieldsGo, hsp, if_true, h2]
  simp [hk1, hn1]

/-- A text without the separator is its own single field. -/
theorem splitChars_of_not_mem (sep : Char) (x : List Char) (h : sep ∉ x) :
    splitChars sep x = [x] := by
  induction x with
  | nil => rfl
  | cons c cs ih =>
    have hc : c ≠ sep := fun e => h (e ▸ List.mem_cons_self _ _)
    have hcs : sep ∉ cs := fun e => h (List.mem_cons_of_mem _ e)
    simp [splitChars, hc, ih hcs]

/-- A split cuts at the first separator. -/
theorem splitChars_append_sep (sep : Char) (x y : List Char) (h : sep ∉ x) :
    splitChars sep (x ++ sep :: y) = x :: splitChars sep y := by
  induction x with
  | nil => simp [splitChars]
  | cons c cs ih =>
    have hc : c ≠ sep := fun e => h (e ▸ List.mem_cons_self _ _)
    have hcs : sep ∉ cs := fun e => h (List.mem_cons_of_mem _ e)
    simp [splitChars, hc, ih hcs]

/-- Splitting the join of a non-empty list of separator-free texts gives the
list back. -/
theorem Split_Join (sep : Char) (l : List String) (hl : l ≠ [])
    (hsep : ∀ s ∈ l, sep ∉ s.data) :
    Split (Join l (String.singleton sep)) sep = l := by
  induction l with
  | nil => exact absurd rfl hl
  | cons a l ih =>
    cases l with
    | nil =>
      simp [Join, Split, splitChars_of_not_mem sep a.data (hsep a (List.mem_cons_self _ _))]
    | cons b rest =>
      have ih' := ih (by simp) (fun s hs => hsep s (List.mem_cons_of_mem _ hs))
      unfold Split at ih' ⊢
      have hd : (Join (a :: b :: rest) (String.singleton sep)).data =
          a.data ++ sep :: (Join (b :: rest) (String.singleton sep)).data := by
        simp [Join, String.data_append, String.singleton]
      rw [hd, splitChars_append_sep sep _ _ (hsep a (List.mem_cons_self _ _))]
      simp [ih']

/-! ### Facts about lists with unique keys -/

/-- A join of empty row sets is empty. -/
theorem flatMap_eq_nil_of_forall {α β : Type} (l : List α) (f : α → List β)
    (hf : ∀ p ∈ l, f p = []) : l.flatMap f = [] := by
  induction l with
  | nil => rfl
  | cons a l ih =>
    rw [List.flatMap_cons, hf a (List.mem_cons_self _ _),
      ih (fun p hp => hf p (List.mem_cons_of_mem _ hp))]
    rfl

/-- When only the row `u` of a duplicate-free table has matches, the join is
the set of matches of `u`. -/
theorem flatMap_eq_of_unique {α β : Type} (l : List α) (f : α → List β) (u : α)
    (hu : u ∈ l) (hnd : l.Nodup) (hf : ∀ p ∈ l, p ≠ u → f p = []) :
    l.flatMap f = f u := by
  induction l with
  | nil => cases hu
  | cons a l ih =>
    rw [List.nodup_cons] at hnd
    rw [List.flatMap_cons]
    by_cases hau : a = u
    · subst hau
      rw [flatMap_eq_nil_of_forall l f (fun p hp =>
        hf p (List.mem_cons_of_mem _ hp) (fun h => hnd.1 (h ▸ hp)))]
      simp
    · have hu1 : u ∈ l := by
        rcases List.mem_cons.1 hu with h | h
        · exact absurd h.symm hau
        · exact h
      rw [hf a (List.mem_cons_self _ _) hau,
        ih hu1 hnd.2 (fun p hp => hf p (List.mem_cons_of_mem _ hp))]
      rfl

/-- A filter that only the row `u` can pass keeps `u` or nothing. -/
theorem filter_eq_of_unique {α : Type} (l : List α) (q : α → Bool) (u : α)
    (hu : u ∈ l) (hnd : l.Nodup) (hq : ∀ p ∈ l, q p = true → p = u) :
    l.filter q = if q u = true then [u] else [] := by
  induction l with
  | nil => cases hu
  | cons a l ih =>
    rw [List.nodup_cons] at hnd
    by_cases hau : a = u
    · subst hau
      have hrest : l.filter q = [] := by
        rw [List.filter_eq_nil_iff]
        intro p hp hqp
        exact hnd.1 (hq p (List.mem_cons_of_mem _ hp) hqp ▸ hp)
      by_cases hqa : q a = true
      · rw [List.filter_cons_of_pos hqa, hrest, if_pos hqa]
      · rw [List.filter_cons_of_neg hqa, hrest, if_neg hqa]
    · have hu1 : u ∈ l := by
        rcases List.mem_cons.1 hu with h | h
        · exact absurd h.symm hau
        · exact h
      have hqa : ¬ q a = true := fun h => hau (hq a (List.mem_cons_self _ _) h)
      rw [List.filter_cons_of_neg hqa]
      exact ih hu1 hnd.2 (fun p hp => hq p (List.mem_cons_of_mem _ hp))

/-- Principals of a catalog with unique names are equal when their names are. -/
theorem principal_eq_of_name (cat : Catalog)
    (hnames : (cat.database_principals.map (fun p => p.name)).Nodup)
    (p u : DatabasePrincipal) (hp : p ∈ cat.database_principals)
    (hu : u ∈ cat.database_principals) (h : p.name = u.name) : p = u :=
  List.inj_on_of_nodup_map hnames hp hu h

/-! ### Facts about the catalog -/

/-- Looking a principal up by its name finds it, when names are unique. -/
theorem find?_name_eq (P : List DatabasePrincipal)
    (hn : (P.map (fun p => p.name)).Nodup) (p : DatabasePrincipal) (hp : p ∈ P) :
    P.find? (fun q => q.name = p.name) = some p := by
  induction P with
  | nil => cases hp
  | cons a P ih =>
    by_cases ha : a.name = p.name
    · have : a = p := List.inj_on_of_nodup_map hn (List.mem_cons_self _ _) hp ha
      subst this
      simp
    · have hp' : p ∈ P := by
        rcases List.mem_cons.1 hp with h | h
        · exact absurd (h ▸ rfl) ha
        · exact h
      rw [List.map_cons, List.nodup_cons] at hn
      simp [List.find?_cons, ha, ih hn.2 hp']

/-- `DATABASE_PRINCIPAL_ID` of the name of a principal is its id, when names are
unique. -/
theorem DATABASE_PRINCIPAL_ID_of_mem (cat : Catalog)
    (hn : (cat.database_principals.map (fun p => p.name)).Nodup)
    (p : DatabasePrincipal) (hp : p ∈ cat.database_principals) :
    DATABASE_PRINCIPAL_ID cat p.name = some p.principal_id := by
  simp [DATABASE_PRINCIPAL_ID, find?_name_eq _ hn p hp]

/-- A non-null `DATABASE_PRINCIPAL_ID` is the id of a principal of that name. -/
theorem DATABASE_PRINCIPAL_ID_some (cat : Catalog) (n : String) (i : Int)
    (h : DATABASE_PRINCIPAL_ID cat n = some i) :
    ∃ p ∈ cat.database_principals, p.name = n ∧ p.principal_id = i := by
  unfold DATABASE_PRINCIPAL_ID at h
  rcases hf : cat.database_principals.find? (fun p => p.name = n) with _ | p
  · simp [hf] at h
  · rw [hf] at h
    refine ⟨p, List.mem_of_find?_eq_some hf, ?_, by simpa using h⟩
    simpa using List.find?_some hf

/-- The rows of the membership subquery. -/
theorem mem_memberRoleNames (cat : Catalog) (username r : String) :
    r ∈ memberRoleNames cat username ↔
      ∃ m ∈ cat.database_role_members,
        some m.member_principal_id = DATABASE_PRINCIPAL_ID cat username ∧
        ∃ p ∈ cat.database_principals, m.role_principal_id = p.principal_id ∧ p.name = r := by
  simp only [memberRoleNames, List.mem_flatMap, List.mem_map, List.mem_filter,
    decide_eq_true_eq]
  constructor
  · rintro ⟨m, hm, p, ⟨hp, h1, h2⟩, rfl⟩
    exact ⟨m, hm, h1, p, hp, h2, rfl⟩
  · rintro ⟨m, hm, h1, p, hp, h2, rfl⟩
    exact ⟨m, hm, p, ⟨hp, h1, h2⟩, rfl⟩

/-- A membership statement leaves `sys.database_principals` as it is. -/
theorem exec_principals (cat : Catalog) (s : RoleMemberStmt) :
    (s.exec cat).database_principals = cat.database_principals := by
  cases s <;> simp only [RoleMemberStmt.exec] <;> split <;> (try split) <;> rfl

/-- A membership statement does not change `DATABASE_PRINCIPAL_ID`. -/
theorem exec_DATABASE_PRINCIPAL_ID (cat : Catalog) (s : RoleMemberStmt) (n : String) :
    DATABASE_PRINCIPAL_ID (s.exec cat) n = DATABASE_PRINCIPAL_ID cat n := by
  simp [DATABASE_PRINCIPAL_ID, exec_principals]

/-- A run of membership statements leaves `sys.database_principals` as it is. -/
theorem foldl_exec_principals (l : List RoleMemberStmt) (cat : Catalog) :
    (l.foldl RoleMemberStmt.exec cat).database_principals = cat.database_principals := by
  induction l generalizing cat with
  | nil => rfl
  | cons s l ih => rw [List.foldl_cons, ih, exec_principals]

/-- A run of membership statements does not change `DATABASE_PRINCIPAL_ID`. -/
theorem foldl_exec_DATABASE_PRINCIPAL_ID (l : List RoleMemberStmt) (cat : Catalog) (n : String) :
    DATABASE_PRINCIPAL_ID (l.foldl RoleMemberStmt.exec cat) n = DATABASE_PRINCIPAL_ID cat n := by
  simp [DATABASE_PRINCIPAL_ID, foldl_exec_principals]

/-- The membership rows left by a run of DROP MEMBER statements for one user:
the rows that are not a membership of that user in one of the named roles. -/
theorem mem_members_after_drops (username : String) (uid : Int) (rs : List String) :
    ∀ cat : Catalog, DATABASE_PRINCIPAL_ID cat username = some uid →
    ∀ x, x ∈ ((rs.map (fun r => RoleMemberStmt.dropMember r username)).foldl
        RoleMemberStmt.exec cat).database_role_members ↔
      x ∈ cat.database_role_members ∧
        ¬ (x.member_principal_id = uid ∧
          ∃ r ∈ rs, DATABASE_PRINCIPAL_ID cat r = some x.role_principal_id) := by
  induction rs with
  | nil => intro cat _ x; simp
  | cons r rs ih =>
    intro cat hu x
    rw [List.map_cons, List.foldl_cons]
    have hu' : DATABASE_PRINCIPAL_ID ((RoleMemberStmt.dropMember r username).exec cat) username =
        some uid := by rw [exec_DATABASE_PRINCIPAL_ID]; exact hu
    rw [ih _ hu' x]
    simp only [exec_DATABASE_PRINCIPAL_ID]
    rcases hr : DATABASE_PRINCIPAL_ID cat r with _ | rid
    · simp [RoleMemberStmt.exec, hr]
    · simp only [RoleMemberStmt.exec, hr, hu, List.mem_filter, decide_eq_true_eq,
        List.mem_cons, exists_eq_or_imp, Option.some.injEq]
      constructor
      · rintro ⟨⟨hx, h1⟩, h2⟩
        refine ⟨hx, ?_⟩
        rintro ⟨hm, h3 | h3⟩
        · exact h1 ⟨h3.symm, hm⟩
        · exact h2 ⟨hm, h3⟩
      · rintro ⟨hx, h1⟩
        refine ⟨⟨hx, ?_⟩, ?_⟩
        · rintro ⟨h2, hm⟩
          exact h1 ⟨hm, Or.inl h2.symm⟩
        · rintro ⟨hm, h3⟩
          exact h1 ⟨hm, Or.inr h3⟩

/-- The membership rows left by a run of ADD MEMBER statements for one user:
the former rows and the memberships of that user in the named roles. -/
theorem mem_members_after_adds (username : String) (uid : Int) (rs : List String) :
    ∀ cat : Catalog, DATABASE_PRINCIPAL_ID cat username = some uid →
    ∀ x, x ∈ ((rs.map (fun r => RoleMemberStmt.addMember r username)).foldl
        RoleMemberStmt.exec cat).database_role_members ↔
      x ∈ cat.database_role_members ∨
        (x.member_principal_id = uid ∧
          ∃ r ∈ rs, DATABASE_PRINCIPAL_ID cat r = some x.role_principal_id) := by
  induction rs with
  | nil => intro cat _ x; simp
  | cons r rs ih =>
    intro cat hu x
    rw [List.map_cons, List.foldl_cons]
    have hu' : DATABASE_PRINCIPAL_ID ((RoleMemberStmt.addMember r username).exec cat) username =
        some uid := by rw [exec_DATABASE_PRINCIPAL_ID]; exact hu
    rw [ih _ hu' x]
    simp only [exec_DATABASE_PRINCIPAL_ID]
    rcases hr : DATABASE_PRINCIPAL_ID cat r with _ | rid
    · simp [RoleMemberStmt.exec, hr]
    · simp only [RoleMemberStmt.exec, hr, hu, List.mem_cons, exists_eq_or_imp,
        Option.some.injEq]
      by_cases hin : (⟨rid, uid⟩ : DatabaseRoleMember) ∈ cat.database_role_members
      · rw [if_pos hin]
        constructor
        · rintro (h | ⟨hm, h⟩)
          · exact Or.inl h
          · exact Or.inr ⟨hm, Or.inr h⟩
        · rintro (h | ⟨hm, h | h⟩)
          · exact Or.inl h
          · left
            have : x = ⟨rid, uid⟩ := by
              cases x; simp_all
            rw [this]; exact hin
          · exact Or.inr ⟨hm, h⟩
      · rw [if_neg hin]
        simp only [List.mem_append, List.mem_singleton]
        constructor
        · rintro ((h | h) | ⟨hm, h⟩)
          · exact Or.inl h
          · subst h; exact Or.inr ⟨rfl, Or.inl rfl⟩
          · exact Or.inr ⟨hm, Or.inr h⟩
        · rintro (h | ⟨hm, h | h⟩)
          · exact Or.inl (Or.inl h)
          · left; right
            cases x; simp_all
          · exact Or.inr ⟨hm, h⟩

/-- Principals of a catalog with unique ids are equal when their ids are. -/
theorem principal_eq_of_id (cat : Catalog)
    (hids : (cat.database_principals.map (fun p => p.principal_id)).Nodup)
    (p q : DatabasePrincipal) (hp : p ∈ cat.database_principals)
    (hq : q ∈ cat.database_principals) (h : p.principal_id = q.principal_id) : p = q :=
  List.inj_on_of_nodup_map hids hp hq h

/-- The names of a selection of principals are distinct, when names are unique. -/
theorem nodup_filter_map_name (P : List DatabasePrincipal)
    (hn : (P.map (fun p => p.name)).Nodup) (q : DatabasePrincipal → Bool) :
    ((P.filter q).map (fun p => p.name)).Nodup :=
  List.Nodup.sublist (List.Sublist.map _ (List.filter_sublist P)) hn

/-! ### sql/database_schema.go -/

/-- C6, evaluated at owner name `a]b` and schema name `s]x`, under a binary
collation: the statements of `CreateDatabaseSchema`, `UpdateDatabaseSchema` and
`DeleteDatabaseSchema` carry the names as they were supplied; the
bracket-quoted forms `[a]]b]` and `[s]]x]` that `QuoteName` produces occur in
none of them. -/
theorem schema_statements_unquoted_names :
    CreateDatabaseSchema id "sales" "a]b" = ["CREATE SCHEMA sales AUTHORIZATION a]b"] ∧
    UpdateDatabaseSchema id "dbo" "sales" "a]b" =
      ["ALTER AUTHORIZATION ON SCHEMA:: [sales] TO [a]b]"] ∧
    DeleteDatabaseSchema id false "dbo" "db" "s]x" =
      ["IF EXISTS (SELECT 1 FROM [sys].[schemas] dp1 INNER JOIN [sys].[database_principals] dp2 ON dp1.principal_id = dp2.principal_id AND dp1.name = 's]x') ALTER AUTHORIZATION ON SCHEMA:: [s]x] TO [dbo]",
       "IF EXISTS (SELECT 1 FROM [sys].[schemas] WHERE [name] = 's]x') DROP SCHEMA s]x"] ∧
    QuoteName "a]b" = "[a]]b]" ∧ QuoteName "s]x" = "[s]]x]" ∧
    (∀ q ∈ CreateDatabaseSchema id "sales" "a]b" ++ UpdateDatabaseSchema id "dbo" "sales" "a]b",
      occursIn (QuoteName "a]b").data q.data = false) ∧
    (∀ q ∈ CreateDatabaseSchema id "s]x" "dbo" ++ DeleteDatabaseSchema id false "dbo" "db" "s]x" ++
        DeleteDatabaseSchema id true "dbo" "master" "s]x",
      occursIn (QuoteName "s]x").data q.data = false) := by
  decide

/-- C7, counterexample: the owner names `dbo ` (with a trailing blank) and ` `
(one blank) are neither `dbo` nor empty, yet under every collation the
comparison of the batch takes them for the default owner and the statement has
no AUTHORIZATION clause; under a case-insensitive collation the same holds for
`DBO`. -/
theorem CreateDatabaseSchema_blank_padded_owner :
    ("dbo " ≠ "dbo" ∧ "dbo " ≠ "" ∧ " " ≠ "dbo" ∧ " " ≠ "" ∧ "DBO" ≠ "dbo" ∧ "DBO" ≠ "") ∧
    (∀ collate : String → String,
      CreateDatabaseSchema collate "sales" "dbo " = ["CREATE SCHEMA sales"] ∧
      CreateDatabaseSchema collate "sales" " " = ["CREATE SCHEMA sales"]) ∧
    CreateDatabaseSchema asciiToUpper "sales" "DBO" = ["CREATE SCHEMA sales"] := by
  refine ⟨by decide, ?_, by decide⟩
  intro collate
  have h1 : rtrim "dbo " = rtrim "dbo" := by decide
  have h2 : rtrim " " = rtrim "" := by decide
  constructor
  · simp [CreateDatabaseSchema, sqlEq, h1]
  · simp [CreateDatabaseSchema, sqlEq, h2]

/-- C7, amended: `CreateDatabaseSchema` hands exactly one statement to `EXEC`;
it is `CREATE SCHEMA <name>` with no AUTHORIZATION clause exactly when the
owner name equals `dbo` or the empty string under the comparison of the server
(trailing blanks ignored, then the collation), and
`CREATE SCHEMA <name> AUTHORIZATION <owner>` otherwise; for name `sales` and
owner `dbo` it is `CREATE SCHEMA sales` under every collation. -/
theorem CreateDatabaseSchema_authorization_clause (collate : String → String)
    (schemaName ownerName : String) :
    (CreateDatabaseSchema collate schemaName ownerName).length = 1 ∧
    (CreateDatabaseSchema collate schemaName ownerName = ["CREATE SCHEMA " ++ schemaName] ↔
      (collate (rtrim ownerName) = collate (rtrim "dbo") ∨
        collate (rtrim ownerName) = collate (rtrim ""))) ∧
    (¬ (collate (rtrim ownerName) = collate (rtrim "dbo") ∨
        collate (rtrim ownerName) = collate (rtrim "")) →
      CreateDatabaseSchema collate schemaName ownerName =
        ["CREATE SCHEMA " ++ schemaName ++ " AUTHORIZATION " ++ ownerName]) ∧
    CreateDatabaseSchema collate "sales" "dbo" = ["CREATE SCHEMA sales"] := by
  refine ⟨by simp [CreateDatabaseSchema], ?_, ?_, by simp [CreateDatabaseSchema]⟩
  · constructor
    · intro h
      by_contra hno
      simp only [CreateDatabaseSchema, sqlEq, if_neg hno, List.cons.injEq, and_true] at h
      have hlen := congrArg String.length h
      simp only [String.length_append] at hlen
      have h15 : " AUTHORIZATION ".length = 15 := by decide
      omega
    · intro h
      simp only [CreateDatabaseSchema, sqlEq, if_pos h]
  · intro h
    simp only [CreateDatabaseSchema, sqlEq, if_neg h]

/-- A character occurs in a text with a doubled character exactly when it
occurs in the text. -/
theorem mem_doubleChar (q c : Char) (l : List Char) : c ∈ doubleChar q l ↔ c ∈ l := by
  induction l with
  | nil => simp [doubleChar]
  | cons x xs ih =>
    by_cases hx : x = q
    · simp [doubleChar, hx, ih]
    · simp [doubleChar, hx, ih]

/-- The quoted name holds a single quote exactly when the name does. -/
theorem apostrophe_mem_QuoteName (u : String) :
    apostrophe ∈ (QuoteName u).data ↔ apostrophe ∈ u.data := by
  have h1 : apostrophe ≠ '[' := by decide
  have h2 : apostrophe ≠ ']' := by decide
  have hb1 : ("[" : String).data = ['['] := rfl
  have hb2 : ("]" : String).data = [']'] := rfl
  simp only [QuoteName, String.data_append, hb1, hb2, List.mem_append, List.mem_singleton,
    mem_doubleChar, h1, h2, false_or, or_false]

/-- In a well-formed catalog where the user exists, when every desired role is
an existing database role other than `public`, no desired name holds a comma
and the collation tells the names involved apart, the cursor loops execute one
DROP MEMBER per role of C \ D followed by one ADD MEMBER per role of D \ C and
leave the user a member of exactly the roles D. -/
theorem UpdateUser_cursors_diff (collate : String → String) (cat : Catalog) (user : User)
    (hwf : cat.WellFormed)
    (huser : ∃ u ∈ cat.database_principals, u.name = user.Username)
    (hexists : ∀ d ∈ user.Roles, ∃ r ∈ cat.database_principals,
      r.name = d ∧ r.type = "R" ∧ d ≠ "public")
    (hcomma : ∀ d ∈ user.Roles, ',' ∉ d.data)
    (hcoll : ∀ p ∈ cat.database_principals, ∀ v, (v ∈ user.Roles ∨ v = "") →
      collate p.name = collate v → p.name = v) :
    (memberRoleNames (UpdateUser_cursors collate cat user).2 user.Username).toFinset =
      user.Roles.toFinset ∧
    (UpdateUser_cursors collate cat user).1.length =
      ((memberRoleNames cat user.Username).toFinset \ user.Roles.toFinset).card +
      (user.Roles.toFinset \ (memberRoleNames cat user.Username).toFinset).card ∧
    ∃ dels adds : List String,
      (UpdateUser_cursors collate cat user).1 =
        dels.map (fun r => RoleMemberStmt.dropMember r user.Username) ++
        adds.map (fun r => RoleMemberStmt.addMember r user.Username) ∧
      dels.Nodup ∧ adds.Nodup ∧
      dels.toFinset = (memberRoleNames cat user.Username).toFinset \ user.Roles.toFinset ∧
      adds.toFinset = user.Roles.toFinset \ (memberRoleNames cat user.Username).toFinset := by
  obtain ⟨hnames, hids, hnonempty, hrolesWF⟩ := hwf
  obtain ⟨u, hu, hun⟩ := huser
  have hDP : DATABASE_PRINCIPAL_ID cat user.Username = some u.principal_id := by
    rw [← hun]; exact DATABASE_PRINCIPAL_ID_of_mem cat hnames u hu
  -- the fields of `@roles` name, under the collation, exactly the desired roles
  have hdes : ∀ p ∈ cat.database_principals,
      (∃ v ∈ String_Split (Join user.Roles ",") ',', collate p.name = collate v) ↔
        p.name ∈ user.Roles := by
    intro p hp
    by_cases hD : user.Roles = []
    · have hS : String_Split (Join user.Roles ",") ',' = [""] := by
        rw [hD]; rfl
      rw [hS, hD]
      simp only [List.mem_singleton, exists_eq_left, List.not_mem_nil, iff_false]
      intro h
      exact hnonempty p hp (hcoll p hp "" (Or.inr rfl) h)
    · have hS : String_Split (Join user.Roles ",") ',' = user.Roles :=
        Split_Join ',' user.Roles hD hcomma
      rw [hS]
      constructor
      · rintro ⟨v, hv, h⟩
        rw [hcoll p hp v (Or.inl hv) h]; exact hv
      · intro h
        exact ⟨p.name, h, rfl⟩
  -- the current membership
  have hC : ∀ r, r ∈ memberRoleNames cat user.Username ↔
      ∃ m ∈ cat.database_role_members, m.member_principal_id = u.principal_id ∧
        ∃ p ∈ cat.database_principals, m.role_principal_id = p.principal_id ∧ p.name = r := by
    intro r
    rw [mem_memberRoleNames, hDP]
    simp only [Option.some.injEq]
  have hCrole : ∀ r, r ∈ memberRoleNames cat user.Username →
      ∃ p ∈ cat.database_principals, p.name = r ∧ p.type = "R" ∧ p.name ≠ "public" := by
    intro r hr
    obtain ⟨m, hm, _, p, hp, hmp, hpr⟩ := (hC r).1 hr
    obtain ⟨q, hq, hqid, hqt, hqn⟩ := hrolesWF m hm
    have : q = p := principal_eq_of_id cat hids q p hq hp (hqid.trans hmp)
    subst this
    exact ⟨q, hq, hpr, hqt, hqn⟩
  -- the rows of the drop cursor
  have hdels : ∀ r, r ∈ del_role_cur collate cat user.Username (Join user.Roles ",") ↔
      r ∈ memberRoleNames cat user.Username ∧ r ∉ user.Roles := by
    intro r
    simp only [del_role_cur, List.mem_map, List.mem_filter, decide_eq_true_eq]
    constructor
    · rintro ⟨p, ⟨hp, _, _, hmem, hnd⟩, rfl⟩
      exact ⟨hmem, fun h => hnd ((hdes p hp).2 h)⟩
    · rintro ⟨hmem, hnd⟩
      obtain ⟨p, hp, hpr, hpt, hpn⟩ := hCrole r hmem
      subst hpr
      exact ⟨p, ⟨hp, hpt, hpn, hmem, fun h => hnd ((hdes p hp).1 h)⟩, rfl⟩
  have hdels_nd : (del_role_cur collate cat user.Username (Join user.Roles ",")).Nodup :=
    nodup_filter_map_name _ hnames _
  -- the catalog after the drop loop
  have hC1 : ∀ r, r ∈ memberRoleNames
      (((del_role_cur collate cat user.Username (Join user.Roles ",")).map
        (fun role => RoleMemberStmt.dropMember role user.Username)).foldl
        RoleMemberStmt.exec cat) user.Username ↔
      r ∈ memberRoleNames cat user.Username ∧ r ∈ user.Roles := by
    intro r
    rw [mem_memberRoleNames, foldl_exec_DATABASE_PRINCIPAL_ID, foldl_exec_principals, hDP]
    simp only [Option.some.injEq, mem_members_after_drops user.Username u.principal_id _ cat hDP]
    constructor
    · rintro ⟨m, ⟨hm, hnot⟩, hmu, p, hp, hmp, hpr⟩
      have hrC : r ∈ memberRoleNames cat user.Username :=
        (hC r).2 ⟨m, hm, hmu, p, hp, hmp, hpr⟩
      refine ⟨hrC, ?_⟩
      by_contra hrD
      apply hnot
      refine ⟨hmu, r, (hdels r).2 ⟨hrC, hrD⟩, ?_⟩
      rw [← hpr, DATABASE_PRINCIPAL_ID_of_mem cat hnames p hp, hmp]
    · rintro ⟨hrC, hrD⟩
      obtain ⟨m, hm, hmu, p, hp, hmp, hpr⟩ := (hC r).1 hrC
      refine ⟨m, ⟨hm, ?_⟩, hmu, p, hp, hmp, hpr⟩
      rintro ⟨_, r', hr', hid⟩
      obtain ⟨p', hp', hp'n, hp'id⟩ := DATABASE_PRINCIPAL_ID_some cat r' _ hid
      have : p' = p := principal_eq_of_id cat hids p' p hp' hp (hp'id.trans hmp)
      subst this
      rw [← hp'n, hpr] at hr'
      exact ((hdels r).1 hr').2 hrD
  -- the rows of the add cursor, opened after the drop loop
  have hadds : ∀ r, r ∈ add_role_cur collate
      (((del_role_cur collate cat user.Username (Join user.Roles ",")).map
        (fun role => RoleMemberStmt.dropMember role user.Username)).foldl
        RoleMemberStmt.exec cat) user.Username (Join user.Roles ",") ↔
      r ∈ user.Roles ∧ r ∉ memberRoleNames cat user.Username := by
    intro r
    simp only [add_role_cur, List.mem_map, List.mem_filter, decide_eq_true_eq,
      foldl_exec_principals, hC1]
    constructor
    · rintro ⟨p, ⟨hp, _, _, hmem, hd⟩, rfl⟩
      have hD := (hdes p hp).1 hd
      exact ⟨hD, fun h => hmem ⟨h, hD⟩⟩
    · rintro ⟨hD, hmem⟩
      obtain ⟨p, hp, hpr, hpt, hpn⟩ := hexists r hD
      subst hpr
      exact ⟨p, ⟨hp, hpt, hpn, fun h => hmem h.1, (hdes p hp).2 hD⟩, rfl⟩
  have hadds_nd : (add_role_cur collate
      (((del_role_cur collate cat user.Username (Join user.Roles ",")).map
        (fun role => RoleMemberStmt.dropMember role user.Username)).foldl
        RoleMemberStmt.exec cat) user.Username (Join user.Roles ",")).Nodup := by
    unfold add_role_cur
    rw [foldl_exec_principals]
    exact nodup_filter_map_name _ hnames _
  have hfd : (del_role_cur collate cat user.Username (Join user.Roles ",")).toFinset =
      (memberRoleNames cat user.Username).toFinset \ user.Roles.toFinset := by
    ext r
    simp [hdels]
  have hfa : (add_role_cur collate
      (((del_role_cur collate cat user.Username (Join user.Roles ",")).map
        (fun role => RoleMemberStmt.dropMember role user.Username)).foldl
        RoleMemberStmt.exec cat) user.Username (Join user.Roles ",")).toFinset =
      user.Roles.toFinset \ (memberRoleNames cat user.Username).toFinset := by
    ext r
    simp [hadds]
  refine ⟨?_, ?_, _, _, rfl, hdels_nd, hadds_nd, hfd, hfa⟩
  · -- the membership after both loops
    ext r
    simp only [List.mem_toFinset]
    show r ∈ memberRoleNames (UpdateUser_cursorLoops collate cat user.Username
      (Join user.Roles ",")).2 user.Username ↔ _
    simp only [UpdateUser_cursorLoops]
    have hDP1 : DATABASE_PRINCIPAL_ID
        (((del_role_cur collate cat user.Username (Join user.Roles ",")).map
          (fun role => RoleMemberStmt.dropMember role user.Username)).foldl
          RoleMemberStmt.exec cat) user.Username = some u.principal_id := by
      rw [foldl_exec_DATABASE_PRINCIPAL_ID]; exact hDP
    rw [mem_memberRoleNames, foldl_exec_DATABASE_PRINCIPAL_ID, hDP1, foldl_exec_principals,
      foldl_exec_principals]
    simp only [Option.some.injEq,
      mem_members_after_adds user.Username u.principal_id _ _ hDP1,
      foldl_exec_DATABASE_PRINCIPAL_ID]
    constructor
    · rintro ⟨m, hm | ⟨_, r', hr', hid⟩, hmu, p, hp, hmp, hpr⟩
      · have : r ∈ memberRoleNames
            (((del_role_cur collate cat user.Username (Join user.Roles ",")).map
              (fun role => RoleMemberStmt.dropMember role user.Username)).foldl
              RoleMemberStmt.exec cat) user.Username := by
          rw [mem_memberRoleNames, hDP1, foldl_exec_principals]
          exact ⟨m, hm, by simpa using hmu, p, hp, hmp, hpr⟩
        exact ((hC1 r).1 this).2
      · obtain ⟨p', hp', hp'n, hp'id⟩ := DATABASE_PRINCIPAL_ID_some cat r' _ hid
        have : p' = p := principal_eq_of_id cat hids p' p hp' hp (hp'id.trans hmp)
        subst this
        rw [← hp'n, hpr] at hr'
        exact ((hadds r).1 hr').1
    · intro hD
      by_cases hrC : r ∈ memberRoleNames cat user.Username
      · have h1 := (hC1 r).2 ⟨hrC, hD⟩
        rw [mem_memberRoleNames, hDP1, foldl_exec_principals] at h1
        obtain ⟨m, hm, hmu, p, hp, hmp, hpr⟩ := h1
        exact ⟨m, Or.inl hm, by simpa using hmu, p, hp, hmp, hpr⟩
      · obtain ⟨p, hp, hpr, _, _⟩ := hexists r hD
        refine ⟨⟨p.principal_id, u.principal_id⟩, Or.inr ⟨rfl, r, (hadds r).2 ⟨hD, hrC⟩, ?_⟩,
          rfl, p, hp, rfl, hpr⟩
        rw [← hpr]
        exact DATABASE_PRINCIPAL_ID_of_mem cat hnames p hp
  · -- the number of statements
    show (UpdateUser_cursorLoops collate cat user.Username (Join user.Roles ",")).1.length = _
    simp only [UpdateUser_cursorLoops, List.length_append, List.length_map]
    rw [← hfd, ← hfa, List.toFinset_card_of_nodup hdels_nd, List.toFinset_card_of_nodup hadds_nd]

/-- C3, counterexample: a desired user with both a password and an object id,
under a binary collation. `CreateUser` raises no error (the GUID conversion,
which would fail here, is not reached): it builds the `WITH PASSWORD`
statement, the same one it builds when the object id is empty. -/
theorem CreateUser_password_and_objectId :
    (sampleUserWithPasswordAndObjectId.Password ≠ "" ∧
      sampleUserWithPasswordAndObjectId.ObjectId ≠ "") ∧
    CreateUser id true (fun _ => .error "conversion failed") "db"
        sampleUserWithPasswordAndObjectId =
      .ok (some ("CREATE USER [alice] WITH PASSWORD = 'p@ss', DEFAULT_SCHEMA = [dbo]" ++
        CreateUser_roleBatch "db" "alice" "readers,writers")) ∧
    CreateUser id true (fun _ => .error "conversion failed") "db"
        sampleUserWithPasswordAndObjectId =
      CreateUser id true (fun _ => .error "conversion failed") "db"
        { sampleUserWithPasswordAndObjectId with ObjectId := "" } := by
  decide

/-- C3, amended: `CreateUser` selects the statement by `loginName` and
`password` alone and has no mutual-exclusion check. A parameter counts as empty
when the comparison of the server equals it to `''` (trailing blanks ignored,
then the collation). For a user name that is not empty, when `loginName` is not
empty and `password` is, it builds the `FOR LOGIN` statement, and when
`loginName` is empty and `password` is not, the `WITH PASSWORD` statement, with
`DEFAULT_LANGUAGE = NONE` for an empty default language; in both cases it
raises no error and the result is the same whatever `objectId` holds. -/
theorem CreateUser_binding_by_login_and_password (collate : String → String) (azure : Bool)
    (guidToSid : String → Except String String) (database : String) (user : User)
    (hu : collate (rtrim user.Username) ≠ collate (rtrim ""))
    (hone : (collate (rtrim user.LoginName) ≠ collate (rtrim "") ∧
        collate (rtrim user.Password) = collate (rtrim "")) ∨
      (collate (rtrim user.LoginName) = collate (rtrim "") ∧
        collate (rtrim user.Password) ≠ collate (rtrim ""))) :
    (collate (rtrim user.LoginName) ≠ collate (rtrim "") →
      CreateUser collate azure guidToSid database user = .ok (some
        ("CREATE USER " ++ QuoteName user.Username ++ " FOR LOGIN " ++
          QuoteName user.LoginName ++ " " ++ "WITH DEFAULT_SCHEMA = " ++
          QuoteName user.DefaultSchema ++
          CreateUser_roleBatch database user.Username (Join user.Roles ",")))) ∧
    (collate (rtrim user.Password) ≠ collate (rtrim "") →
      CreateUser collate azure guidToSid database user = .ok (some
        ("CREATE USER " ++ QuoteName user.Username ++ " WITH PASSWORD = " ++
          QuoteLiteral user.Password ++ ", " ++ "DEFAULT_SCHEMA = " ++
          QuoteName user.DefaultSchema ++
          (if azure then ""
           else ", DEFAULT_LANGUAGE = " ++
            (if collate (rtrim user.DefaultLanguage) = collate (rtrim "") then "NONE"
              else QuoteName user.DefaultLanguage)) ++
          CreateUser_roleBatch database user.Username (Join user.Roles ",")))) ∧
    ∀ objectId, CreateUser collate azure guidToSid database { user with ObjectId := objectId } =
      CreateUser collate azure guidToSid database user := by
  rcases hone with ⟨hl, hp⟩ | ⟨hl, hp⟩
  · refine ⟨fun _ => ?_, fun h => absurd hp h, fun o => ?_⟩
    · simp [CreateUser, sqlEq, hu, hl, hp, concatNull]
      rfl
    · simp [CreateUser, sqlEq, hu, hl, hp, concatNull]
  · refine ⟨fun h => absurd hl h, fun _ => ?_, fun o => ?_⟩
    · cases azure <;>
        by_cases hlang : collate (rtrim user.DefaultLanguage) = collate (rtrim "") <;>
        simp [CreateUser, sqlEq, hu, hl, hp, hlang, concatNull, Coalesce,
          String.append_assoc] <;> rfl
    · simp [CreateUser, sqlEq, hu, hl, hp, concatNull]

/-- A desired user with both a login name and an object id, on the hosted
edition: the `FOR LOGIN` statement is built and the object id plays no part.
A login name of one blank counts as empty: with it the external-provider
statement is built, not `FOR LOGIN`. -/
theorem CreateUser_binding_by_login_and_password_witness :
    (rtrim sampleUserWithLoginAndObjectId.Username ≠ rtrim "" ∧
      rtrim sampleUserWithLoginAndObjectId.LoginName ≠ rtrim "" ∧
      rtrim sampleUserWithLoginAndObjectId.Password = rtrim "" ∧
      sampleUserWithLoginAndObjectId.ObjectId ≠ "") ∧
    CreateUser id true (fun _ => .error "conversion failed") "db"
        sampleUserWithLoginAndObjectId =
      .ok (some ("CREATE USER [alice] FOR LOGIN [alice_login] WITH DEFAULT_SCHEMA = [dbo]" ++
        CreateUser_roleBatch "db" "alice" "readers,writers")) ∧
    (∀ objectId, CreateUser id true (fun _ => .error "conversion failed") "db"
        { sampleUserWithLoginAndObjectId with ObjectId := objectId } =
      CreateUser id true (fun _ => .error "conversion failed") "db"
        sampleUserWithLoginAndObjectId) ∧
    CreateUser id false (fun _ => .error "conversion failed") "db"
        { sampleUser with LoginName := " ", DefaultLanguage := " " } =
      .ok (some ("CREATE USER [alice] FOR LOGIN [alice] FROM EXTERNAL PROVIDER WITH DEFAULT_SCHEMA = [dbo], DEFAULT_LANGUAGE = NONE" ++
        CreateUser_roleBatch "db" "alice" "readers,writers")) :=
  ⟨by decide,
   (CreateUser_binding_by_login_and_password id true (fun _ => .error "conversion failed") "db"
     sampleUserWithLoginAndObjectId (by decide) (Or.inl (by decide))).1 (by decide),
   (CreateUser_binding_by_login_and_password id true (fun _ => .error "conversion failed") "db"
     sampleUserWithLoginAndObjectId (by decide) (Or.inl (by decide))).2.2,
   by decide⟩

/-! ### sql/user.go: DeleteUser -/

/-- C2: for a user `u` of a catalog whose principal names are unique,
`DeleteUser` executes one `ALTER AUTHORIZATION ON ROLE` per role `u` owns, then
one `ALTER AUTHORIZATION ON SCHEMA` per schema `u` owns, each to the session's
current user, and only then the `DROP USER` statement: N + M reassignments
before the drop. -/
theorem DeleteUser_reassigns_then_drops (user_name database : String) (cat : Catalog)
    (u : DatabasePrincipal) (hu : u ∈ cat.database_principals)
    (hnames : (cat.database_principals.map (fun p => p.name)).Nodup) :
    DeleteUser user_name cat database u.name =
      (ownedRoles cat u).map (fun r =>
        "ALTER AUTHORIZATION ON ROLE:: [" ++ r.name ++ "] TO [" ++ user_name ++ "]") ++
      (ownedSchemas cat u).map (fun s =>
        "ALTER AUTHORIZATION ON SCHEMA:: [" ++ s.name ++ "] TO [" ++ user_name ++ "]") ++
      ["IF EXISTS (SELECT 1 FROM " ++ QuoteName database ++
        ".[sys].[database_principals] WHERE [name] = " ++ QuoteLiteral u.name ++ ") " ++
        "DROP USER " ++ QuoteName u.name] ∧
    (DeleteUser user_name cat database u.name).length =
      (ownedRoles cat u).length + (ownedSchemas cat u).length + 1 := by
  have hnd : cat.database_principals.Nodup := List.Nodup.of_map _ hnames
  have hrole : cat.database_principals.flatMap (fun dp1 =>
      (cat.database_principals.filter (fun dp2 =>
        some dp1.principal_id = dp2.owning_principal_id ∧ dp1.name = u.name)).map
        (fun dp2 => dp2.name)) = (ownedRoles cat u).map (fun r => r.name) := by
    rw [flatMap_eq_of_unique _ _ u hu hnd]
    · unfold ownedRoles
      congr 1
      apply List.filter_congr
      intro x _
      simp [eq_comm]
    · intro p hp hpu
      have hne : p.name ≠ u.name := fun h => hpu (principal_eq_of_name cat hnames p u hp hu h)
      simp [hne]
  have hschema : cat.schemas.flatMap (fun dp1 =>
      (cat.database_principals.filter (fun dp2 =>
        dp1.principal_id = dp2.principal_id ∧ dp2.name = u.name)).map
        (fun _ => dp1.name)) = (ownedSchemas cat u).map (fun s => s.name) := by
    unfold ownedSchemas
    generalize cat.schemas = ss
    induction ss with
    | nil => rfl
    | cons s ss ih =>
      rw [List.flatMap_cons, ih]
      rw [filter_eq_of_unique _ _ u hu hnd (fun p hp hq =>
        principal_eq_of_name cat hnames p u hp hu (by simpa using (of_decide_eq_true hq).2))]
      by_cases hs : s.principal_id = u.principal_id
      · simp [hs]
      · simp [hs]
  have hmain : DeleteUser user_name cat database u.name =
      (ownedRoles cat u).map (fun r =>
        "ALTER AUTHORIZATION ON ROLE:: [" ++ r.name ++ "] TO [" ++ user_name ++ "]") ++
      (ownedSchemas cat u).map (fun s =>
        "ALTER AUTHORIZATION ON SCHEMA:: [" ++ s.name ++ "] TO [" ++ user_name ++ "]") ++
      ["IF EXISTS (SELECT 1 FROM " ++ QuoteName database ++
        ".[sys].[database_principals] WHERE [name] = " ++ QuoteLiteral u.name ++ ") " ++
        "DROP USER " ++ QuoteName u.name] := by
    unfold DeleteUser
    simp only [hrole, hschema]
    have e1 : ∀ (l : List String) (f : String → String),
        (if l ≠ [] then l.map f else []) = l.map f := by
      intro l f
      cases l <;> simp
    rw [e1, e1, List.map_map, List.map_map]
    rfl
  refine ⟨hmain, ?_⟩
  rw [hmain]
  simp only [List.length_append, List.length_map, List.length_singleton]

/-- In the sample catalog `alice` owns the roles `admins` and `writers` and the
schemas `sales` and `hr`: four reassignments to `dbo`, then the drop. -/
theorem DeleteUser_reassigns_then_drops_witness :
    ((⟨5, "alice", "S", none⟩ : DatabasePrincipal) ∈ sampleCatalog.database_principals ∧
      (sampleCatalog.database_principals.map (fun p => p.name)).Nodup) ∧
    DeleteUser "dbo" sampleCatalog "db" "alice" =
      ["ALTER AUTHORIZATION ON ROLE:: [admins] TO [dbo]",
       "ALTER AUTHORIZATION ON ROLE:: [writers] TO [dbo]",
       "ALTER AUTHORIZATION ON SCHEMA:: [sales] TO [dbo]",
       "ALTER AUTHORIZATION ON SCHEMA:: [hr] TO [dbo]",
       "IF EXISTS (SELECT 1 FROM [db].[sys].[database_principals] WHERE [name] = 'alice') DROP USER [alice]"] ∧
    (DeleteUser "dbo" sampleCatalog "db" "alice").length = 2 + 2 + 1 :=
  ⟨by decide,
   (DeleteUser_reassigns_then_drops "dbo" "db" sampleCatalog ⟨5, "alice", "S", none⟩
     (by decide) (by decide)).1,
   (DeleteUser_reassigns_then_drops "dbo" "db" sampleCatalog ⟨5, "alice", "S", none⟩
     (by decide) (by decide)).2⟩

/-! ### sql/user.go: GetUser -/

/-- An empty role aggregate gives the empty role list; a non-empty aggregate
gives the list of its comma-separated fields: the fields hold no comma and
joined with commas they give the aggregate back. -/
theorem GetUser_roles_split (roles : String) :
    (roles = "" → GetUser_roles roles = [] ∧ (GetUser_roles roles).length = 0 ∧
      GetUser_roles roles ≠ [""]) ∧
    (roles ≠ "" → GetUser_roles roles = Split roles ',' ∧
      Join (GetUser_roles roles) "," = roles ∧
      ∀ f ∈ GetUser_roles roles, ',' ∉ f.data) := by
  constructor
  · intro h
    simp [GetUser_roles, h]
  · intro h
    have hsplit : GetUser_roles roles = Split roles ',' := by
      simp [GetUser_roles, h]
    refine ⟨hsplit, ?_, ?_⟩
    · rw [hsplit]
      exact join_splitChars ',' roles.data
    · intro f hf
      rw [hsplit] at hf
      simp only [Split, List.mem_map] at hf
      obtain ⟨l, hl, rfl⟩ := hf
      exact splitChars_no_sep ',' roles.data l hl

/-! ### sql: catalog reads -/

/-- The three outcomes of the first fallback step. -/
theorem GetUser_sqlLogin_cases (q : RowQueries) (sid : List UInt8) (user : User)
    (issued : List Query) :
    (¬ (user.AuthType = "INSTANCE" ∧ user.LoginName = "") ∧
      GetUser_sqlLogin q sid user issued = (.ok user, issued)) ∨
    ((user.AuthType = "INSTANCE" ∧ user.LoginName = "") ∧
      ((∃ name, q.scanName (GetUser_sqlLoginQuery sid) = .ok name ∧
        GetUser_sqlLogin q sid user issued =
          (.ok { user with LoginName := name }, issued ++ [GetUser_sqlLoginQuery sid])) ∨
       (∃ err, q.scanName (GetUser_sqlLoginQuery sid) = .error err ∧
        GetUser_sqlLogin q sid user issued =
          (.error err, issued ++ [GetUser_sqlLoginQuery sid])))) := by
  unfold GetUser_sqlLogin
  by_cases h : user.AuthType = "INSTANCE" ∧ user.LoginName = ""
  · right
    refine ⟨h, ?_⟩
    rw [if_pos h]
    rcases hq : q.scanName (GetUser_sqlLoginQuery sid) with err | name
    · right; exact ⟨err, rfl, rfl⟩
    · left; exact ⟨name, rfl, rfl⟩
  · left
    exact ⟨h, by rw [if_neg h]⟩

/-- The three outcomes of the second fallback step. -/
theorem GetUser_serverPrincipal_cases (q : RowQueries) (sid : List UInt8) (user : User)
    (issued : List Query) :
    (¬ (user.AuthType = "EXTERNAL" ∧ HasSuffix user.SIDStr "AADE" = true) ∧
      GetUser_serverPrincipal q sid user issued = (.ok user, issued)) ∨
    ((user.AuthType = "EXTERNAL" ∧ HasSuffix user.SIDStr "AADE" = true) ∧
      ((∃ name, q.scanName (GetUser_serverPrincipalQuery sid) = .ok name ∧
        GetUser_serverPrincipal q sid user issued =
          (.ok { user with LoginName := name }, issued ++ [GetUser_serverPrincipalQuery sid])) ∨
       (∃ err, q.scanName (GetUser_serverPrincipalQuery sid) = .error err ∧
        GetUser_serverPrincipal q sid user issued =
          (.error err, issued ++ [GetUser_serverPrincipalQuery sid])))) := by
  unfold GetUser_serverPrincipal
  by_cases h : user.AuthType = "EXTERNAL" ∧ HasSuffix user.SIDStr "AADE" = true
  · right
    refine ⟨h, ?_⟩
    rw [if_pos h]
    rcases hq : q.scanName (GetUser_serverPrincipalQuery sid) with err | name
    · right; exact ⟨err, rfl, rfl⟩
    · left; exact ⟨name, rfl, rfl⟩
  · left
    exact ⟨h, by rw [if_neg h]⟩

/-- What `GetUser` returns and issues when the primary query yields a row. -/
theorem GetUser_of_row (setDatabase : String → String) (q : RowQueries)
    (database username : String) (row : UserRow)
    (hrow : q.scanUser (GetUser_primary (setDatabase database) username) = .ok row) :
    GetUser setDatabase q database username =
      if row.AuthType = "INSTANCE" ∧ row.LoginName = "" then
        match q.scanName (GetUser_sqlLoginQuery row.sid) with
        | .error err => (.error err, [GetUser_primary (setDatabase database) username,
            GetUser_sqlLoginQuery row.sid])
        | .ok name => (.ok (some (GetUser_entity row name)),
            [GetUser_primary (setDatabase database) username, GetUser_sqlLoginQuery row.sid])
      else if row.AuthType = "EXTERNAL" ∧ HasSuffix row.SIDStr "AADE" = true then
        match q.scanName (GetUser_serverPrincipalQuery row.sid) with
        | .error err => (.error err, [GetUser_primary (setDatabase database) username,
            GetUser_serverPrincipalQuery row.sid])
        | .ok name => (.ok (some (GetUser_entity row name)),
            [GetUser_primary (setDatabase database) username,
              GetUser_serverPrincipalQuery row.sid])
      else (.ok (some (GetUser_entity row row.LoginName)),
        [GetUser_primary (setDatabase database) username]) := by
  unfold GetUser
  simp only [hrow]
  rcases GetUser_sqlLogin_cases q row.sid (GetUser_scan row)
      [GetUser_primary (setDatabase database) username] with
    ⟨hn, he⟩ | ⟨hy, ⟨name, hq, he⟩ | ⟨err, hq, he⟩⟩
  · rw [he, if_neg (show ¬ (row.AuthType = "INSTANCE" ∧ row.LoginName = "") from hn)]
    simp only []
    rcases GetUser_serverPrincipal_cases q row.sid (GetUser_scan row)
        [GetUser_primary (setDatabase database) username] with
      ⟨hn2, he2⟩ | ⟨hy2, ⟨name, hq2, he2⟩ | ⟨err, hq2, he2⟩⟩
    · rw [he2, if_neg (show ¬ (row.AuthType = "EXTERNAL" ∧ HasSuffix row.SIDStr "AADE" = true) from hn2)]
      rfl
    · rw [he2, if_pos (show row.AuthType = "EXTERNAL" ∧ HasSuffix row.SIDStr "AADE" = true from hy2), hq2]
      rfl
    · rw [he2, if_pos (show row.AuthType = "EXTERNAL" ∧ HasSuffix row.SIDStr "AADE" = true from hy2), hq2]
      rfl
  · rw [he, if_pos (show row.AuthType = "INSTANCE" ∧ row.LoginName = "" from hy), hq]
    simp only []
    have hn2 : ¬ ((GetUser_scan row).AuthType = "EXTERNAL" ∧
        HasSuffix (GetUser_scan row).SIDStr "AADE" = true) := by
      rintro ⟨h, _⟩
      rw [hy.1] at h
      exact absurd h (by decide)
    simp only [GetUser_serverPrincipal]
    rw [if_neg hn2]
    rfl
  · rw [he, if_pos (show row.AuthType = "INSTANCE" ∧ row.LoginName = "" from hy), hq]
    rfl

/-- What `GetUser` returns and issues when the primary query fails. -/
theorem GetUser_of_error (setDatabase : String → String) (q : RowQueries)
    (database username : String) (err : GoError)
    (herr : q.scanUser (GetUser_primary (setDatabase database) username) = .error err) :
    GetUser setDatabase q database username =
      if err = GoError.ErrNoRows then
        (.ok none, [GetUser_primary (setDatabase database) username])
      else (.error err, [GetUser_primary (setDatabase database) username]) := by
  unfold GetUser
  simp only [herr]

/-- C12: `GetUser` and `GetDatabaseSchema` return `(nil, nil)` exactly when the
primary query reports `sql.ErrNoRows`; for every other error of the primary
query they return that error and no entity. When the query yields a row,
`GetDatabaseSchema` returns the scanned entity and no error, and `GetUser`
returns no error and the entity with the columns of the row, the roles split
from the aggregate and the login name of the row when no lookup is due, of the
lookup in `sys.sql_logins` or in `sys.server_principals` when that lookup is
due and succeeds. -/
theorem GetUser_GetDatabaseSchema_not_found (setDatabase : String → String) (q : RowQueries)
    (database username schemaName : String) :
    (((GetUser setDatabase q database username).1 = .ok none ↔
        q.scanUser (GetUser_primary (setDatabase database) username) =
          .error GoError.ErrNoRows) ∧
      (∀ err, err ≠ GoError.ErrNoRows →
        q.scanUser (GetUser_primary (setDatabase database) username) = .error err →
        (GetUser setDatabase q database username).1 = .error err) ∧
      (∀ row, q.scanUser (GetUser_primary (setDatabase database) username) = .ok row →
        (¬ (row.AuthType = "INSTANCE" ∧ row.LoginName = "") →
          ¬ (row.AuthType = "EXTERNAL" ∧ HasSuffix row.SIDStr "AADE" = true) →
          (GetUser setDatabase q database username).1 = .ok (some
            { PrincipalID := row.PrincipalID, Username := row.Username, ObjectId := "",
              LoginName := row.LoginName, Password := "", SIDStr := row.SIDStr,
              AuthType := row.AuthType, TypeStr := row.TypeStr,
              DefaultSchema := row.DefaultSchema, DefaultLanguage := row.DefaultLanguage,
              Roles := if row.roles = "" then [] else Split row.roles ',' })) ∧
        (row.AuthType = "INSTANCE" ∧ row.LoginName = "" →
          ∀ name, q.scanName (GetUser_sqlLoginQuery row.sid) = .ok name →
          (GetUser setDatabase q database username).1 = .ok (some
            { PrincipalID := row.PrincipalID, Username := row.Username, ObjectId := "",
              LoginName := name, Password := "", SIDStr := row.SIDStr,
              AuthType := row.AuthType, TypeStr := row.TypeStr,
              DefaultSchema := row.DefaultSchema, DefaultLanguage := row.DefaultLanguage,
              Roles := if row.roles = "" then [] else Split row.roles ',' })) ∧
        (row.AuthType = "EXTERNAL" ∧ HasSuffix row.SIDStr "AADE" = true →
          ∀ name, q.scanName (GetUser_serverPrincipalQuery row.sid) = .ok name →
          (GetUser setDatabase q database username).1 = .ok (some
            { PrincipalID := row.PrincipalID, Username := row.Username, ObjectId := "",
              LoginName := name, Password := "", SIDStr := row.SIDStr,
              AuthType := row.AuthType, TypeStr := row.TypeStr,
              DefaultSchema := row.DefaultSchema, DefaultLanguage := row.DefaultLanguage,
              Roles := if row.roles = "" then [] else Split row.roles ',' })))) ∧
    (((GetDatabaseSchema setDatabase q database schemaName).1 = .ok none ↔
        q.scanSchema (GetDatabaseSchema_query (setDatabase database) schemaName) =
          .error GoError.ErrNoRows) ∧
      (∀ err, err ≠ GoError.ErrNoRows →
        q.scanSchema (GetDatabaseSchema_query (setDatabase database) schemaName) = .error err →
        (GetDatabaseSchema setDatabase q database schemaName).1 = .error err) ∧
      (∀ row, q.scanSchema (GetDatabaseSchema_query (setDatabase database) schemaName) =
          .ok row →
        (GetDatabaseSchema setDatabase q database schemaName).1 = .ok (some row))) := by
  refine ⟨⟨?_, ?_, ?_⟩, ⟨?_, ?_, ?_⟩⟩
  · rcases hp : q.scanUser (GetUser_primary (setDatabase database) username) with err | row
    · rw [GetUser_of_error _ _ _ _ _ hp]
      by_cases he : err = GoError.ErrNoRows
      · simp [he]
      · simp [he]
    · rw [GetUser_of_row _ _ _ _ _ hp]
      simp only [reduceCtorEq, iff_false]
      split_ifs <;> (try split) <;> simp
  · intro err hne hp
    rw [GetUser_of_error _ _ _ _ _ hp, if_neg hne]
  · intro row hp
    rw [GetUser_of_row _ _ _ _ _ hp]
    refine ⟨?_, ?_, ?_⟩
    · intro h1 h2
      rw [if_neg h1, if_neg h2]
      rfl
    · intro h1 name hq
      rw [if_pos h1, hq]
      rfl
    · intro h2 name hq
      have h1 : ¬ (row.AuthType = "INSTANCE" ∧ row.LoginName = "") := by
        rintro ⟨h, _⟩
        rw [h2.1] at h
        exact absurd h (by decide)
      rw [if_neg h1, if_pos h2, hq]
      rfl
  · rcases hp : q.scanSchema (GetDatabaseSchema_query (setDatabase database) schemaName)
      with err | row
    · by_cases he : err = GoError.ErrNoRows
      · simp [GetDatabaseSchema, hp, he]
      · simp [GetDatabaseSchema, hp, he]
    · simp [GetDatabaseSchema, hp]
  · intro err hne hp
    unfold GetDatabaseSchema
    simp [hp, hne]
  · intro row hp
    unfold GetDatabaseSchema
    simp [hp]

/-- C13: after the primary row is read, `GetUser` issues a second query exactly
when the authentication type is INSTANCE and the login name is empty (the
lookup in `sys.sql_logins` by the full SID) or the authentication type is
EXTERNAL and the SID string ends with AADE (the lookup in
`sys.server_principals` by the 34-character prefix of the SID); otherwise it
issues the primary query only and the login name is the one of the row. -/
theorem GetUser_fallback_lookup (setDatabase : String → String) (q : RowQueries)
    (database username : String) (row : UserRow)
    (hrow : q.scanUser (GetUser_primary (setDatabase database) username) = .ok row) :
    (row.AuthType = "INSTANCE" ∧ row.LoginName = "" →
      (GetUser setDatabase q database username).2 =
        [GetUser_primary (setDatabase database) username, GetUser_sqlLoginQuery row.sid]) ∧
    (row.AuthType = "EXTERNAL" ∧ HasSuffix row.SIDStr "AADE" = true →
      (GetUser setDatabase q database username).2 =
        [GetUser_primary (setDatabase database) username,
          GetUser_serverPrincipalQuery row.sid]) ∧
    (¬ (row.AuthType = "INSTANCE" ∧ row.LoginName = "") →
      ¬ (row.AuthType = "EXTERNAL" ∧ HasSuffix row.SIDStr "AADE" = true) →
      GetUser setDatabase q database username =
        (.ok (some (GetUser_entity row row.LoginName)),
          [GetUser_primary (setDatabase database) username])) ∧
    ((GetUser setDatabase q database username).2.length = 2 ↔
      (row.AuthType = "INSTANCE" ∧ row.LoginName = "") ∨
      (row.AuthType = "EXTERNAL" ∧ HasSuffix row.SIDStr "AADE" = true)) ∧
    (GetUser_sqlLoginQuery row.sid).cmd = "SELECT name FROM [sys].[sql_logins] WHERE sid = @sid" ∧
    (GetUser_serverPrincipalQuery row.sid).cmd =
      "SELECT name FROM [sys].[server_principals] WHERE type NOT IN ('G', 'R') AND CONVERT(varchar(64), sid, 1) = LEFT(CONVERT(varchar(64), @sid, 1), 34)" ∧
    (GetUser_sqlLoginQuery row.sid).args = [("sid", SqlValue.binary row.sid)] ∧
    (GetUser_serverPrincipalQuery row.sid).args = [("sid", SqlValue.binary row.sid)] := by
  rw [GetUser_of_row _ _ _ _ _ hrow]
  refine ⟨?_, ?_, ?_, ?_, rfl, rfl, rfl, rfl⟩
  · intro h
    rw [if_pos h]
    split <;> rfl
  · intro h
    have h1 : ¬ (row.AuthType = "INSTANCE" ∧ row.LoginName = "") := by
      rintro ⟨h', _⟩
      rw [h.1] at h'
      exact absurd h' (by decide)
    rw [if_neg h1, if_pos h]
    split <;> rfl
  · intro h1 h2
    rw [if_neg h1, if_neg h2]
  · by_cases h1 : row.AuthType = "INSTANCE" ∧ row.LoginName = ""
    · rw [if_pos h1]
      simp only [h1, and_self, true_or, iff_true]
      split <;> rfl
    · rw [if_neg h1]
      by_cases h2 : row.AuthType = "EXTERNAL" ∧ HasSuffix row.SIDStr "AADE" = true
      · rw [if_pos h2]
        simp only [h2, and_self, or_true, iff_true]
        split <;> rfl
      · rw [if_neg h2]
        simp [h1, h2]

/-- C14: when the fallback lookup that the row requires fails, with
`sql.ErrNoRows` or any other error, `GetUser` returns that error: it returns
neither `(nil, nil)` nor a user. -/
theorem GetUser_fallback_failure (setDatabase : String → String) (q : RowQueries)
    (database username : String) (row : UserRow) (err : GoError)
    (hrow : q.scanUser (GetUser_primary (setDatabase database) username) = .ok row)
    (hfail : (row.AuthType = "INSTANCE" ∧ row.LoginName = "" ∧
        q.scanName (GetUser_sqlLoginQuery row.sid) = .error err) ∨
      (row.AuthType = "EXTERNAL" ∧ HasSuffix row.SIDStr "AADE" = true ∧
        q.scanName (GetUser_serverPrincipalQuery row.sid) = .error err)) :
    (GetUser setDatabase q database username).1 = .error err ∧
    (GetUser setDatabase q database username).1 ≠ .ok none ∧
    ∀ user, (GetUser setDatabase q database username).1 ≠ .ok (some user) := by
  have key : (GetUser setDatabase q database username).1 = .error err := by
    rw [GetUser_of_row _ _ _ _ _ hrow]
    rcases hfail with ⟨h1, h2, h3⟩ | ⟨h1, h2, h3⟩
    · rw [if_pos ⟨h1, h2⟩, h3]
    · have hn : ¬ (row.AuthType = "INSTANCE" ∧ row.LoginName = "") := by
        rintro ⟨h', _⟩
        rw [h1] at h'
        exact absurd h' (by decide)
      rw [if_neg hn, if_pos ⟨h1, h2⟩, h3]
  refine ⟨key, ?_, ?_⟩
  · rw [key]; simp
  · intro user; rw [key]; simp

/-- Every entity `GetUser` returns has the roles split from the aggregate of
the primary row. -/
theorem GetUser_entity_roles (setDatabase : String → String) (q : RowQueries)
    (database username : String) (row : UserRow) (user : User)
    (hrow : q.scanUser (GetUser_primary (setDatabase database) username) = .ok row)
    (hres : (GetUser setDatabase q database username).1 = .ok (some user)) :
    user.Roles = GetUser_roles row.roles := by
  rw [GetUser_of_row _ _ _ _ _ hrow] at hres
  split_ifs at hres
  · split at hres
    · simp at hres
    · simp only [Except.ok.injEq, Option.some.injEq] at hres
      rw [← hres]; rfl
  · split at hres
    · simp at hres
    · simp only [Except.ok.injEq, Option.some.injEq] at hres
      rw [← hres]; rfl
  · simp only [Except.ok.injEq, Option.some.injEq] at hres
    rw [← hres]; rfl

/-- C10: when the primary query yields a row and `GetUser` returns an entity,
the role list of that entity is, for an empty role aggregate, the empty list
(length 0, not a list holding one empty string) and, for a non-empty aggregate,
exactly the sequence of its comma-separated fields: the list that
`strings.Split` cuts at the commas, whose elements hold no comma and joined
with commas give the aggregate back. -/
theorem GetUser_roles_fields (setDatabase : String → String) (q : RowQueries)
    (database username : String) (row : UserRow) (user : User)
    (hrow : q.scanUser (GetUser_primary (setDatabase database) username) = .ok row)
    (hres : (GetUser setDatabase q database username).1 = .ok (some user)) :
    (row.roles = "" → user.Roles = [] ∧ user.Roles.length = 0 ∧ user.Roles ≠ [""]) ∧
    (row.roles ≠ "" → user.Roles = Split row.roles ',' ∧
      Join user.Roles "," = row.roles ∧
      ∀ f ∈ user.Roles, ',' ∉ f.data) := by
  rw [GetUser_entity_roles _ _ _ _ _ _ hrow hres]
  exact GetUser_roles_split row.roles

/-- The row without roles gives an entity with the empty role list, and the row
with the aggregate `readers,admins` an entity with these two roles in order. -/
theorem GetUser_roles_fields_witness :
    ((GetUser id (sampleRowQueries (.ok { sampleUserRow with roles := "" }) (.ok "alice_login"))
        "db" "alice").1 = .ok (some { sampleEntity with Roles := [] }) ∧
      ([] : List String).length = 0 ∧ ([] : List String) ≠ [""]) ∧
    ((GetUser id (sampleRowQueries (.ok sampleUserRow) (.ok "alice_login")) "db" "alice").1 =
        .ok (some sampleEntity) ∧
      sampleUserRow.roles = "readers,admins" ∧
      sampleEntity.Roles = ["readers", "admins"] ∧
      Join ["readers", "admins"] "," = "readers,admins") :=
  ⟨⟨by decide,
    ((GetUser_roles_fields id
      (sampleRowQueries (.ok { sampleUserRow with roles := "" }) (.ok "alice_login"))
      "db" "alice" { sampleUserRow with roles := "" } { sampleEntity with Roles := [] }
      rfl (by decide)).1 rfl).2⟩,
   ⟨by decide, by decide, by decide,
    ((GetUser_roles_fields id (sampleRowQueries (.ok sampleUserRow) (.ok "alice_login"))
      "db" "alice" sampleUserRow sampleEntity rfl (by decide)).2 (by decide)).2.1⟩⟩

/-- C11, counterexample: the distinct role names `dev,ops` and `dev` aggregate
to `dev,ops,dev`, and the roles `GetUser` builds from it are `dev`, `ops`,
`dev`: the name `dev` occurs twice. -/
theorem GetUser_roles_duplicate :
    ["dev,ops", "dev"].Nodup ∧ Join ["dev,ops", "dev"] "," = "dev,ops,dev" ∧
    GetUser_roles "dev,ops,dev" = ["dev", "ops", "dev"] ∧
    ¬ (GetUser_roles "dev,ops,dev").Nodup ∧
    ∃ user, (GetUser id
        (sampleRowQueries (.ok { sampleUserRow with roles := "dev,ops,dev" }) (.ok "alice_login"))
        "db" "alice").1 = .ok (some user) ∧ ¬ user.Roles.Nodup := by
  refine ⟨by decide, by decide, by decide, by decide,
    GetUser_entity { sampleUserRow with roles := "dev,ops,dev" } "alice_login", by decide,
    by decide⟩

/-- C11, amended: when the aggregate of the primary row is the comma-join of
pairwise distinct role names none of which holds a comma, the roles of every
entity `GetUser` returns are without repetition, and each is one of those
names. -/
theorem GetUser_roles_nodup (setDatabase : String → String) (q : RowQueries)
    (database username : String) (row : UserRow) (names : List String) (user : User)
    (hrow : q.scanUser (GetUser_primary (setDatabase database) username) = .ok row)
    (hagg : row.roles = Join names ",")
    (hnd : names.Nodup) (hcomma : ∀ n ∈ names, ',' ∉ n.data)
    (hres : (GetUser setDatabase q database username).1 = .ok (some user)) :
    user.Roles.Nodup ∧ ∀ r ∈ user.Roles, r ∈ names := by
  rw [GetUser_entity_roles _ _ _ _ _ _ hrow hres, hagg]
  unfold GetUser_roles
  split_ifs with h
  · simp
  · have hne : names ≠ [] := by
      rintro rfl
      exact h rfl
    have hs : Split (Join names ",") ',' = names := Split_Join ',' names hne hcomma
    rw [hs]
    exact ⟨hnd, fun r hr => hr⟩

/-- The aggregate `readers,admins` gives the two roles, once each. -/
theorem GetUser_roles_nodup_witness :
    (sampleUserRow.roles = Join ["readers", "admins"] "," ∧ ["readers", "admins"].Nodup ∧
      ∀ n ∈ ["readers", "admins"], ',' ∉ n.data) ∧
    (GetUser id (sampleRowQueries (.ok sampleUserRow) (.ok "alice_login")) "db" "alice").1 =
      .ok (some (GetUser_entity sampleUserRow "alice_login")) ∧
    (GetUser_entity sampleUserRow "alice_login").Roles = ["readers", "admins"] ∧
    (GetUser_entity sampleUserRow "alice_login").Roles.Nodup :=
  ⟨by decide, by decide, by decide,
   (GetUser_roles_nodup id (sampleRowQueries (.ok sampleUserRow) (.ok "alice_login")) "db" "alice"
     sampleUserRow ["readers", "admins"] (GetUser_entity sampleUserRow "alice_login")
     rfl (by decide) (by decide) (by decide) (by decide)).1⟩

/-- An INSTANCE user without login name gets the lookup in `sys.sql_logins`; with
the login name `sa` in the row only the primary query is issued. -/
theorem GetUser_fallback_lookup_witness :
    (sampleUserRow.AuthType = "INSTANCE" ∧ sampleUserRow.LoginName = "") ∧
    (GetUser id (sampleRowQueries (.ok sampleUserRow) (.ok "alice_login")) "db" "alice").2 =
      [GetUser_primary "db" "alice", GetUser_sqlLoginQuery sampleUserRow.sid] ∧
    (GetUser id (sampleRowQueries (.ok { sampleUserRow with LoginName := "sa" })
        (.ok "alice_login")) "db" "alice") =
      (.ok (some (GetUser_entity { sampleUserRow with LoginName := "sa" } "sa")),
        [GetUser_primary "db" "alice"]) :=
  ⟨by decide,
   (GetUser_fallback_lookup id (sampleRowQueries (.ok sampleUserRow) (.ok "alice_login"))
     "db" "alice" sampleUserRow rfl).1 (by decide),
   (GetUser_fallback_lookup id (sampleRowQueries (.ok { sampleUserRow with LoginName := "sa" })
     (.ok "alice_login")) "db" "alice" { sampleUserRow with LoginName := "sa" } rfl).2.2.1
     (by decide) (by decide)⟩

/-- A required lookup that finds no row makes `GetUser` return `sql.ErrNoRows`. -/
theorem GetUser_fallback_failure_witness :
    (sampleUserRow.AuthType = "INSTANCE" ∧ sampleUserRow.LoginName = "") ∧
    (GetUser id (sampleRowQueries (.ok sampleUserRow) (.error GoError.ErrNoRows))
      "db" "alice").1 = .error GoError.ErrNoRows :=
  ⟨by decide,
   (GetUser_fallback_failure id (sampleRowQueries (.ok sampleUserRow) (.error GoError.ErrNoRows))
     "db" "alice" sampleUserRow GoError.ErrNoRows rfl (Or.inl ⟨rfl, rfl, rfl⟩)).1⟩

/-! ### mssql/resource_database_sqlscript.go -/

/-- C4, counterexample: the empty verification target has zero tokens, not two,
and `getObjectExistsQuery` returns the query `SELECT 1` for it, not an error. -/
theorem getObjectExistsQuery_empty_target :
    (Fields "").length ≠ 2 ∧ getObjectExistsQuery asciiToUpper "" = .ok "SELECT 1" := by
  decide

/-- C4, amended: for every non-empty verification target whose token count is
not two, or whose first token upper-cased is not a supported kind,
`getObjectExistsQuery` returns an error (and so no query text). -/
theorem getObjectExistsQuery_rejects_malformed (ToUpper : String → String) (spec : String)
    (hne : spec ≠ "")
    (hbad : (Fields spec).length ≠ 2 ∨
      ∃ k n, Fields spec = [k, n] ∧ ToUpper k ∉ supportedKinds) :
    ∃ msg, getObjectExistsQuery ToUpper spec = .error msg := by
  rcases hbad with hlen | ⟨k, n, hf, hk⟩
  · refine ⟨"invalid object specification: " ++ spec, ?_⟩
    unfold getObjectExistsQuery
    rw [if_neg hne]
    split
    · next p0 p1 h => rw [h] at hlen; simp at hlen
    · rfl
  · refine ⟨"unsupported object type: " ++ ToUpper k, ?_⟩
    simp only [supportedKinds, List.mem_cons, List.mem_singleton, List.not_mem_nil,
      or_false, not_or] at hk
    obtain ⟨h1, h2, h3, h4, h5, h6, h7, h8, h9⟩ := hk
    unfold getObjectExistsQuery
    rw [if_neg hne, hf]
    simp [h1, h2, h3, h4, h5, h6, h7, h8, h9]

/-- The targets `TABLE` (one token), `TABLE a b` (three tokens) and `INDEX foo`
(unsupported kind) are rejected. -/
theorem getObjectExistsQuery_rejects_malformed_witness :
    ("INDEX foo" ≠ "" ∧ Fields "INDEX foo" = ["INDEX", "foo"] ∧
      asciiToUpper "INDEX" ∉ supportedKinds) ∧
    (∃ msg, getObjectExistsQuery asciiToUpper "INDEX foo" = .error msg) ∧
    (∃ msg, getObjectExistsQuery asciiToUpper "TABLE" = .error msg) ∧
    (∃ msg, getObjectExistsQuery asciiToUpper "TABLE a b" = .error msg) :=
  ⟨by decide,
   getObjectExistsQuery_rejects_malformed asciiToUpper "INDEX foo" (by decide)
     (Or.inr ⟨"INDEX", "foo", by decide, by decide⟩),
   getObjectExistsQuery_rejects_malformed asciiToUpper "TABLE" (by decide)
     (Or.inl (by decide)),
   getObjectExistsQuery_rejects_malformed asciiToUpper "TABLE a b" (by decide)
     (Or.inl (by decide))⟩

/-- C5, evaluated at the target `TABLE a'b`: `getObjectExistsQuery` returns no
error and a query that holds the name as it was supplied, `N'a'b'`; the
literal with the quote doubled, `N'a''b'`, does not occur in it. The same
holds for the schema part of `TABLE s'x.t`. -/
theorem getObjectExistsQuery_raw_quote :
    getObjectExistsQuery asciiToUpper "TABLE a'b" =
      .ok "\n\t\t\tSELECT 1\n\t\t\tFROM sys.tables t\n\t\t\tWHERE t.name = N'a'b'\n\t\t" ∧
    occursIn "N'a''b'".data
      "\n\t\t\tSELECT 1\n\t\t\tFROM sys.tables t\n\t\t\tWHERE t.name = N'a'b'\n\t\t".data = false ∧
    getObjectExistsQuery asciiToUpper "TABLE s'x.t" =
      .ok "\n\t\t\tSELECT 1\n\t\t\tFROM sys.tables t\n\t\t\tINNER JOIN sys.schemas s ON t.schema_id = s.schema_id\n\t\t\tWHERE t.name = N't' AND s.name = N's'x'\n\t\t" := by
  decide

/-- C9, counterexample: for the kind SCHEMA and the name `dbo.x`, which has the
schema part `dbo`, the query is the lookup in `sys.schemas` on the name `x`
only: it is not the schema-qualified query and `dbo` does not occur in it. -/
theorem getObjectExistsQuery_schema_kind_unqualified :
    catalogViewOf "SCHEMA" = some ⟨"sys.schemas", "s", ""⟩ ∧
    Split "dbo.x" '.' = ["dbo", "x"] ∧
    getObjectExistsQuery asciiToUpper "SCHEMA dbo.x" =
      .ok "\n\t\t\tSELECT 1\n\t\t\tFROM sys.schemas s\n\t\t\tWHERE s.name = N'x'\n\t\t" ∧
    getObjectExistsQuery asciiToUpper "SCHEMA dbo.x" ≠
      .ok (schemaQualifiedQuery ⟨"sys.schemas", "s", ""⟩ "x" "dbo") ∧
    occursIn "dbo".data
      "\n\t\t\tSELECT 1\n\t\t\tFROM sys.schemas s\n\t\t\tWHERE s.name = N'x'\n\t\t".data = false := by
  decide

/-- C9, amended: for a kind token `k` whose upper-casing is a supported kind
with catalog view `v`, and a name token `name`, the query of
`getObjectExistsQuery (k ++ " " ++ name)` selects from `v`. It is the
schema-qualified query on `N` and `S` when the name splits at the dot into
exactly `S.N` with `S` non-empty and the kind is not SCHEMA; it filters on `N`
only when the kind is SCHEMA or `S` is empty; and it filters on the whole name
only when the name does not split at the dot into exactly two parts. -/
theorem getObjectExistsQuery_catalog_lookup (ToUpper : String → String) (k name : String)
    (v : CatalogView)
    (hk : k ≠ "" ∧ ∀ c ∈ k.data, isSpace c = false)
    (hn : name ≠ "" ∧ ∀ c ∈ name.data, isSpace c = false)
    (hv : catalogViewOf (ToUpper k) = some v) :
    getObjectExistsQuery ToUpper (k ++ " " ++ name) = .ok
      (match Split name '.' with
       | [S, N] =>
         if S ≠ "" ∧ ToUpper k ≠ "SCHEMA" then schemaQualifiedQuery v N S
         else nameOnlyQuery v N
       | _ => nameOnlyQuery v name) := by
  have hf := Fields_two k name hk.1 hk.2 hn.1 hn.2
  have hne : k ++ " " ++ name ≠ "" := by
    intro h
    have hl := congrArg String.length h
    simp only [String.length_append] at hl
    have h1 : " ".length = 1 := rfl
    have h0 : "".length = 0 := rfl
    omega
  unfold getObjectExistsQuery
  rw [if_neg hne, hf]
  simp only []
  generalize ToUpper k = K at hv
  unfold catalogViewOf at hv
  split_ifs at hv with h1 h2 h3 h4 h5 h6 <;>
    simp only [Option.some.injEq, reduceCtorEq] at hv <;> subst hv <;>
    (try rcases h3 with h3 | h3) <;> (try rcases h4 with h4 | h4) <;>
    (try rcases h6 with h6 | h6) <;>
    (first | subst h1 | subst h2 | subst h3 | subst h4 | subst h5 | subst h6) <;>
    (rcases hsp : Split name '.' with _ | ⟨a, _ | ⟨b, _ | ⟨c, r⟩⟩⟩ <;>
      first
      | rfl
      | (by_cases ha : a = ""
         · subst ha; rfl
         · simp only [ne_eq, ha, not_false_eq_true, if_true, true_and]
           rfl))

/-- The target `table dbo.Users` gives the schema-qualified lookup in
`sys.tables` on the name `Users` and the schema `dbo`. -/
theorem getObjectExistsQuery_catalog_lookup_witness :
    (("table" ≠ "" ∧ ∀ c ∈ "table".data, isSpace c = false) ∧
      ("dbo.Users" ≠ "" ∧ ∀ c ∈ "dbo.Users".data, isSpace c = false) ∧
      catalogViewOf (asciiToUpper "table") = some ⟨"sys.tables", "t", ""⟩) ∧
    getObjectExistsQuery asciiToUpper "table dbo.Users" = .ok
      "\n\t\t\tSELECT 1\n\t\t\tFROM sys.tables t\n\t\t\tINNER JOIN sys.schemas s ON t.schema_id = s.schema_id\n\t\t\tWHERE t.name = N'Users' AND s.name = N'dbo'\n\t\t" :=
  ⟨by decide,
   getObjectExistsQuery_catalog_lookup asciiToUpper "table" "dbo.Users" ⟨"sys.tables", "t", ""⟩
     (by decide) (by decide) (by decide)⟩

/-! ### mssql: the resource layer -/

/-- C17: when `DatabaseExists` reports that the parent database does not exist,
the Read of the user, role, schema, master-key and SQL-script resources leaves
the resource data with the empty id and every attribute as it was, returns no
diagnostics and makes no connector call besides `DatabaseExists`. -/
theorem Read_database_absent {σ : Type} (SetList : List String → List String)
    (ToUpper : String → String)
    (cu : UserConnector σ) (cr : DatabaseRoleConnector σ) (cs : DatabaseSchemaConnector σ)
    (cm : DatabaseMasterkeyConnector σ) (cq : DatabaseSQLScriptConnector σ)
    (du : ResourceData UserAttrs) (dr : ResourceData RoleAttrs)
    (ds : ResourceData SchemaAttrs) (dm : ResourceData MasterkeyAttrs)
    (dq : ResourceData SQLScriptAttrs) (s s1 : σ) :
    (cu.DatabaseExists du.cur.database s = (.ok false, s1) →
      resourceUserRead SetList (.ok cu) du s =
        ⟨none, { du with Id := "" }, s1, [Call.DatabaseExists du.cur.database]⟩ ∧
      (resourceUserRead SetList (.ok cu) du s).data.Id = "") ∧
    (cr.DatabaseExists dr.cur.database s = (.ok false, s1) →
      resourceDatabaseRoleRead (.ok cr) dr s =
        ⟨none, { dr with Id := "" }, s1, [Call.DatabaseExists dr.cur.database]⟩ ∧
      (resourceDatabaseRoleRead (.ok cr) dr s).data.Id = "") ∧
    (cs.DatabaseExists ds.cur.database s = (.ok false, s1) →
      resourceDatabaseSchemaRead (.ok cs) ds s =
        ⟨none, { ds with Id := "" }, s1, [Call.DatabaseExists ds.cur.database]⟩ ∧
      (resourceDatabaseSchemaRead (.ok cs) ds s).data.Id = "") ∧
    (cm.DatabaseExists dm.cur.database s = (.ok false, s1) →
      resourceDatabaseMasterkeyRead (.ok cm) dm s =
        ⟨none, { dm with Id := "" }, s1, [Call.DatabaseExists dm.cur.database]⟩ ∧
      (resourceDatabaseMasterkeyRead (.ok cm) dm s).data.Id = "") ∧
    (cq.DatabaseExists dq.cur.database s = (.ok false, s1) →
      resourceDatabaseSQLScriptRead ToUpper (.ok cq) dq s =
        ⟨none, { dq with Id := "" }, s1, [Call.DatabaseExists dq.cur.database]⟩ ∧
      (resourceDatabaseSQLScriptRead ToUpper (.ok cq) dq s).data.Id = "") := by
  refine ⟨?_, ?_, ?_, ?_, ?_⟩
  · intro h; simp [resourceUserRead, ResourceData.SetId, h]
  · intro h; simp [resourceDatabaseRoleRead, ResourceData.SetId, h]
  · intro h; simp [resourceDatabaseSchemaRead, ResourceData.SetId, h]
  · intro h; simp [resourceDatabaseMasterkeyRead, ResourceData.SetId, h]
  · intro h; simp [resourceDatabaseSQLScriptRead, ResourceData.SetId, h]

/-- With the database absent, the sample Reads leave the empty id after the
single call `DatabaseExists`, whatever the other connector methods would
answer; the id was not empty before. -/
theorem Read_database_absent_witness :
    (sampleUserData false).Id = "sqlserver://localhost:1433/db/alice" ∧
    (resourceUserRead sampleSetList
        (.ok (fixedUserConnector (.ok false) (.error (GoError.other "unreachable"))
          (some (GoError.other "unreachable")))) (sampleUserData false) () =
      ⟨none, { sampleUserData false with Id := "" }, (), [Call.DatabaseExists "db"]⟩ ∧
     (resourceUserRead sampleSetList
        (.ok (fixedUserConnector (.ok false) (.error (GoError.other "unreachable"))
          (some (GoError.other "unreachable")))) (sampleUserData false) ()).data.Id = "") ∧
    (resourceDatabaseSQLScriptRead asciiToUpper
        (.ok (fixedSQLScriptConnector (.ok false) (some (GoError.other "unreachable"))))
        sampleSQLScriptData () =
      ⟨none, { sampleSQLScriptData with Id := "" }, (), [Call.DatabaseExists "db"]⟩ ∧
     (resourceDatabaseSQLScriptRead asciiToUpper
        (.ok (fixedSQLScriptConnector (.ok false) (some (GoError.other "unreachable"))))
        sampleSQLScriptData ()).data.Id = "") :=
  ⟨by decide,
   (Read_database_absent sampleSetList asciiToUpper
      (fixedUserConnector (.ok false) (.error (GoError.other "unreachable"))
        (some (GoError.other "unreachable")))
      (fixedRoleConnector (.ok false) (.ok none) none)
      (fixedSchemaConnector (.ok false) (.ok none) none)
      (fixedMasterkeyConnector (.ok false) (.ok none) none)
      (fixedSQLScriptConnector (.ok false) (some (GoError.other "unreachable")))
      (sampleUserData false) sampleRoleData (sampleSchemaData false) sampleMasterkeyData
      sampleSQLScriptData () ()).1 rfl,
   (Read_database_absent sampleSetList asciiToUpper
      (fixedUserConnector (.ok false) (.error (GoError.other "unreachable"))
        (some (GoError.other "unreachable")))
      (fixedRoleConnector (.ok false) (.ok none) none)
      (fixedSchemaConnector (.ok false) (.ok none) none)
      (fixedMasterkeyConnector (.ok false) (.ok none) none)
      (fixedSQLScriptConnector (.ok false) (some (GoError.other "unreachable")))
      (sampleUserData false) sampleRoleData (sampleSchemaData false) sampleMasterkeyData
      sampleSQLScriptData () ()).2.2.2.2 rfl⟩

/-- C16, counterexample: the database exists and `GetUser` returns the entity
with the server-reported user name `Alice` for the resource whose `username` is
`alice`; Read returns no diagnostics and the attribute `username` still holds
`alice`, not the name of the entity. -/
theorem resourceUserRead_keeps_username :
    (resourceUserRead sampleSetList (.ok (fixedUserConnector (.ok true)
        (.ok (some { sampleUser with Username := "Alice" })) none))
        (sampleUserData false) ()).diags = none ∧
    (resourceUserRead sampleSetList (.ok (fixedUserConnector (.ok true)
        (.ok (some { sampleUser with Username := "Alice" })) none))
        (sampleUserData false) ()).data.cur.username = "alice" ∧
    (resourceUserRead sampleSetList (.ok (fixedUserConnector (.ok true)
        (.ok (some { sampleUser with Username := "Alice" })) none))
        (sampleUserData false) ()).data.cur.username ≠
      ({ sampleUser with Username := "Alice" } : User).Username := by
  decide

/-- C16, amended: when the database exists, the Read of the user, role, schema
and master-key resources leaves the resource data with the empty id and every
attribute as it was, with no diagnostics, if the connector's Get returns no
entity; returns an error and leaves the data as it is if Get returns an error;
and if Get returns an entity it returns no diagnostics, keeps the id and stores
the fields of the entity in their attributes, where the user resource stores
every scanned field except the user name, and the roles as the set the SDK
builds from the role list of the entity. -/
theorem Read_database_present {σ : Type} (SetList : List String → List String)
    (cu : UserConnector σ) (cr : DatabaseRoleConnector σ) (cs : DatabaseSchemaConnector σ)
    (cm : DatabaseMasterkeyConnector σ)
    (du : ResourceData UserAttrs) (dr : ResourceData RoleAttrs)
    (ds : ResourceData SchemaAttrs) (dm : ResourceData MasterkeyAttrs) (s s1 s2 : σ) :
    (cu.DatabaseExists du.cur.database s = (.ok true, s1) →
      (cu.GetUser du.cur.database du.cur.username s1 = (.ok none, s2) →
        resourceUserRead SetList (.ok cu) du s = ⟨none, { du with Id := "" }, s2,
          [Call.DatabaseExists du.cur.database,
            Call.GetUser du.cur.database du.cur.username]⟩) ∧
      (∀ user, cu.GetUser du.cur.database du.cur.username s1 = (.ok (some user), s2) →
        resourceUserRead SetList (.ok cu) du s = ⟨none,
          { du with cur :=
              { du.cur with
                loginName := user.LoginName, sidStr := user.SIDStr, typeStr := user.TypeStr,
                authenticationType := user.AuthType, principalId := user.PrincipalID,
                defaultSchema := user.DefaultSchema, defaultLanguage := user.DefaultLanguage,
                roles := SetList user.Roles } },
          s2, [Call.DatabaseExists du.cur.database,
            Call.GetUser du.cur.database du.cur.username]⟩) ∧
      (∀ err, cu.GetUser du.cur.database du.cur.username s1 = (.error err, s2) →
        resourceUserRead SetList (.ok cu) du s = ⟨some
          (Wrapf err ("unable to read user [" ++ du.cur.database ++ "].[" ++
            du.cur.username ++ "]")), du, s2,
          [Call.DatabaseExists du.cur.database,
            Call.GetUser du.cur.database du.cur.username]⟩)) ∧
    (cr.DatabaseExists dr.cur.database s = (.ok true, s1) →
      (cr.GetDatabaseRole dr.cur.database dr.cur.roleName s1 = (.ok none, s2) →
        resourceDatabaseRoleRead (.ok cr) dr s = ⟨none, { dr with Id := "" }, s2,
          [Call.DatabaseExists dr.cur.database,
            Call.GetDatabaseRole dr.cur.database dr.cur.roleName]⟩) ∧
      (∀ role, cr.GetDatabaseRole dr.cur.database dr.cur.roleName s1 = (.ok (some role), s2) →
        resourceDatabaseRoleRead (.ok cr) dr s = ⟨none,
          { dr with cur :=
              { dr.cur with
                principalId := role.RoleID, roleName := role.RoleName,
                ownerName := role.OwnerName, ownerId := role.OwnerId } },
          s2, [Call.DatabaseExists dr.cur.database,
            Call.GetDatabaseRole dr.cur.database dr.cur.roleName]⟩) ∧
      (∀ err, cr.GetDatabaseRole dr.cur.database dr.cur.roleName s1 = (.error err, s2) →
        resourceDatabaseRoleRead (.ok cr) dr s = ⟨some
          (Wrapf err ("unable to get role [" ++ dr.cur.database ++ "].[" ++
            dr.cur.roleName ++ "]")), dr, s2,
          [Call.DatabaseExists dr.cur.database,
            Call.GetDatabaseRole dr.cur.database dr.cur.roleName]⟩)) ∧
    (cs.DatabaseExists ds.cur.database s = (.ok true, s1) →
      (cs.GetDatabaseSchema ds.cur.database ds.cur.schemaName s1 = (.ok none, s2) →
        resourceDatabaseSchemaRead (.ok cs) ds s = ⟨none, { ds with Id := "" }, s2,
          [Call.DatabaseExists ds.cur.database,
            Call.GetDatabaseSchema ds.cur.database ds.cur.schemaName]⟩) ∧
      (∀ sqlschema,
        cs.GetDatabaseSchema ds.cur.database ds.cur.schemaName s1 = (.ok (some sqlschema), s2) →
        resourceDatabaseSchemaRead (.ok cs) ds s = ⟨none,
          { ds with cur :=
              { ds.cur with
                schemaId := sqlschema.SchemaID, schemaName := sqlschema.SchemaName,
                ownerName := sqlschema.OwnerName, ownerId := sqlschema.OwnerId } },
          s2, [Call.DatabaseExists ds.cur.database,
            Call.GetDatabaseSchema ds.cur.database ds.cur.schemaName]⟩) ∧
      (∀ err, cs.GetDatabaseSchema ds.cur.database ds.cur.schemaName s1 = (.error err, s2) →
        resourceDatabaseSchemaRead (.ok cs) ds s = ⟨some
          (Wrapf err ("unable to get schema [" ++ ds.cur.database ++ "].[" ++
            ds.cur.schemaName ++ "]")), ds, s2,
          [Call.DatabaseExists ds.cur.database,
            Call.GetDatabaseSchema ds.cur.database ds.cur.schemaName]⟩)) ∧
    (cm.DatabaseExists dm.cur.database s = (.ok true, s1) →
      (cm.GetDatabaseMasterkey dm.cur.database s1 = (.ok none, s2) →
        resourceDatabaseMasterkeyRead (.ok cm) dm s = ⟨none, { dm with Id := "" }, s2,
          [Call.DatabaseExists dm.cur.database,
            Call.GetDatabaseMasterkey dm.cur.database]⟩) ∧
      (∀ masterkey, cm.GetDatabaseMasterkey dm.cur.database s1 = (.ok (some masterkey), s2) →
        resourceDatabaseMasterkeyRead (.ok cm) dm s = ⟨none,
          { dm with cur :=
              { dm.cur with
                keyname := masterkey.KeyName, principalId := masterkey.PrincipalID,
                symmetrickeyid := masterkey.SymmetricKeyID, keylength := masterkey.KeyLength,
                keyalgorithm := masterkey.KeyAlgorithm,
                algorithmdesc := masterkey.AlgorithmDesc, keyguid := masterkey.KeyGuid } },
          s2, [Call.DatabaseExists dm.cur.database,
            Call.GetDatabaseMasterkey dm.cur.database]⟩) ∧
      (∀ err, cm.GetDatabaseMasterkey dm.cur.database s1 = (.error err, s2) →
        resourceDatabaseMasterkeyRead (.ok cm) dm s = ⟨some
          (Wrapf err ("unable to read database master key on database [" ++
            dm.cur.database ++ "]")), dm, s2,
          [Call.DatabaseExists dm.cur.database,
            Call.GetDatabaseMasterkey dm.cur.database]⟩)) := by
  refine ⟨?_, ?_, ?_, ?_⟩
  · intro h
    refine ⟨?_, ?_, ?_⟩
    · intro h2; simp [resourceUserRead, ResourceData.SetId, h, h2]
    · intro user h2; simp [resourceUserRead, h, h2]
    · intro err h2; simp [resourceUserRead, h, h2]
  · intro h
    refine ⟨?_, ?_, ?_⟩
    · intro h2; simp [resourceDatabaseRoleRead, ResourceData.SetId, h, h2]
    · intro role h2; simp [resourceDatabaseRoleRead, h, h2]
    · intro err h2; simp [resourceDatabaseRoleRead, h, h2]
  · intro h
    refine ⟨?_, ?_, ?_⟩
    · intro h2; simp [resourceDatabaseSchemaRead, ResourceData.SetId, h, h2]
    · intro sqlschema h2; simp [resourceDatabaseSchemaRead, h, h2]
    · intro err h2; simp [resourceDatabaseSchemaRead, h, h2]
  · intro h
    refine ⟨?_, ?_, ?_⟩
    · intro h2; simp [resourceDatabaseMasterkeyRead, ResourceData.SetId, h, h2]
    · intro masterkey h2; simp [resourceDatabaseMasterkeyRead, h, h2]
    · intro err h2; simp [resourceDatabaseMasterkeyRead, h, h2]

/-- The database exists: when the catalog read reports the sample user, its
login name and its roles, as the set of the two names, are stored and the id is
kept; when it reports no schema the id, which was not empty, is empty
afterwards and nothing else has changed. -/
theorem Read_database_present_witness :
    ((resourceUserRead sampleSetList
        (.ok (fixedUserConnector (.ok true) (.ok (some sampleUser)) none))
        (sampleUserData false) ()).data.cur.roles.toFinset = {"readers", "writers"} ∧
      (resourceUserRead sampleSetList
        (.ok (fixedUserConnector (.ok true) (.ok (some sampleUser)) none))
        (sampleUserData false) ()).data.cur.loginName = sampleUser.LoginName ∧
      (resourceUserRead sampleSetList
        (.ok (fixedUserConnector (.ok true) (.ok (some sampleUser)) none))
        (sampleUserData false) ()).data.Id = "sqlserver://localhost:1433/db/alice") ∧
    (sampleSchemaData false).Id ≠ "" ∧
    resourceDatabaseSchemaRead (.ok (fixedSchemaConnector (.ok true) (.ok none) none))
        (sampleSchemaData false) () =
      ⟨none, { sampleSchemaData false with Id := "" }, (),
        [Call.DatabaseExists "db", Call.GetDatabaseSchema "db" "sales"]⟩ := by
  have h := Read_database_present sampleSetList
    (fixedUserConnector (.ok true) (.ok (some sampleUser)) none)
    (fixedRoleConnector (.ok true) (.ok none) none)
    (fixedSchemaConnector (.ok true) (.ok none) none)
    (fixedMasterkeyConnector (.ok true) (.ok none) none)
    (sampleUserData false) sampleRoleData (sampleSchemaData false) sampleMasterkeyData
    () () ()
  refine ⟨?_, by decide, (h.2.2.1 rfl).1 rfl⟩
  rw [(h.1 rfl).2.1 sampleUser rfl]
  decide

/-- C15, counterexample: the user `alice` exists on the server, and the catalog
read reports it; `resourceUserCreate` calls the connector's `CreateUser` all
the same, as its only call, and the error it returns is the one of that call.
With a connector whose `CreateUser` succeeds on a user that the catalog read
reports as present, Create returns no error. -/
theorem resourceUserCreate_on_present_user :
    (sampleUserServer.GetUser "db" "alice" ["alice"]).1 ≠ .ok none ∧
    (resourceUserCreate sampleSetList (.ok sampleUserServer) (sampleUserData false) ["alice"]).calls =
      [Call.CreateUser "db" (resourceUserCreate_user (sampleUserData false))] ∧
    (resourceUserCreate sampleSetList (.ok sampleUserServer) (sampleUserData false) ["alice"]).diags =
      some "unable to create user [db].[alice]: User, group, or role already exists in the current database." ∧
    ((fixedUserConnector (.ok true) (.ok (some sampleUser)) none).GetUser "db" "alice" ()).1 =
      .ok (some sampleUser) ∧
    (resourceUserCreate sampleSetList (.ok (fixedUserConnector (.ok true) (.ok (some sampleUser)) none))
      (sampleUserData false) ()).diags = none ∧
    (resourceUserCreate sampleSetList (.ok (fixedUserConnector (.ok true) (.ok (some sampleUser)) none))
      (sampleUserData false) ()).calls =
      [Call.CreateUser "db" (resourceUserCreate_user (sampleUserData false)),
       Call.DatabaseExists "db", Call.GetUser "db" "alice"] := by
  decide

/-- C15, amended: the Create of the user, role, schema and master-key resources
makes no catalog read before creating. Its first connector call is the create
operation with the configured values; when that call fails Create returns its
error, wrapped, makes no other call and leaves the data as it is; when it
succeeds Create sets the id and continues with Read. -/
theorem Create_calls_create_first {σ : Type} (SetList : List String → List String)
    (getDatabaseRoleID : ResourceData RoleAttrs → String)
    (getDatabaseSchemaID : ResourceData SchemaAttrs → String)
    (getDatabaseMasterkeyID : ResourceData MasterkeyAttrs → String)
    (cu : UserConnector σ) (cr : DatabaseRoleConnector σ) (cs : DatabaseSchemaConnector σ)
    (cm : DatabaseMasterkeyConnector σ)
    (du : ResourceData UserAttrs) (dr : ResourceData RoleAttrs)
    (ds : ResourceData SchemaAttrs) (dm : ResourceData MasterkeyAttrs) (s : σ) :
    ((∀ err s1, cu.CreateUser du.cur.database (resourceUserCreate_user du) s = (some err, s1) →
        resourceUserCreate SetList (.ok cu) du s =
          ⟨some (Wrapf err ("unable to create user [" ++ du.cur.database ++ "].[" ++
            du.cur.username ++ "]")), du, s1,
            [Call.CreateUser du.cur.database (resourceUserCreate_user du)]⟩) ∧
      (∀ s1, cu.CreateUser du.cur.database (resourceUserCreate_user du) s = (none, s1) →
        resourceUserCreate SetList (.ok cu) du s =
          { resourceUserRead SetList (.ok cu) (du.SetId (getUserID du)) s1 with
            calls := Call.CreateUser du.cur.database (resourceUserCreate_user du) ::
              (resourceUserRead SetList (.ok cu) (du.SetId (getUserID du)) s1).calls })) ∧
    ((∀ err s1, cr.CreateDatabaseRole dr.cur.database dr.cur.roleName dr.cur.ownerName s =
          (some err, s1) →
        resourceDatabaseRoleCreate getDatabaseRoleID (.ok cr) dr s =
          ⟨some (Wrapf err ("unable to create role [" ++ dr.cur.database ++ "].[" ++
            dr.cur.roleName ++ "]")), dr, s1,
            [Call.CreateDatabaseRole dr.cur.database dr.cur.roleName dr.cur.ownerName]⟩) ∧
      (∀ s1, cr.CreateDatabaseRole dr.cur.database dr.cur.roleName dr.cur.ownerName s =
          (none, s1) →
        resourceDatabaseRoleCreate getDatabaseRoleID (.ok cr) dr s =
          { resourceDatabaseRoleRead (.ok cr) (dr.SetId (getDatabaseRoleID dr)) s1 with
            calls := Call.CreateDatabaseRole dr.cur.database dr.cur.roleName dr.cur.ownerName ::
              (resourceDatabaseRoleRead (.ok cr) (dr.SetId (getDatabaseRoleID dr)) s1).calls })) ∧
    ((∀ err s1, cs.CreateDatabaseSchema ds.cur.database ds.cur.schemaName ds.cur.ownerName s =
          (some err, s1) →
        resourceDatabaseSchemaCreate getDatabaseSchemaID (.ok cs) ds s =
          ⟨some (Wrapf err ("unable to create schema [" ++ ds.cur.database ++ "].[" ++
            ds.cur.schemaName ++ "]")), ds, s1,
            [Call.CreateDatabaseSchema ds.cur.database ds.cur.schemaName ds.cur.ownerName]⟩) ∧
      (∀ s1, cs.CreateDatabaseSchema ds.cur.database ds.cur.schemaName ds.cur.ownerName s =
          (none, s1) →
        resourceDatabaseSchemaCreate getDatabaseSchemaID (.ok cs) ds s =
          { resourceDatabaseSchemaRead (.ok cs) (ds.SetId (getDatabaseSchemaID ds)) s1 with
            calls :=
              Call.CreateDatabaseSchema ds.cur.database ds.cur.schemaName ds.cur.ownerName ::
              (resourceDatabaseSchemaRead (.ok cs)
                (ds.SetId (getDatabaseSchemaID ds)) s1).calls })) ∧
    ((∀ err s1, cm.CreateDatabaseMasterkey dm.cur.database dm.cur.password s = (some err, s1) →
        resourceDatabaseMasterkeyCreate getDatabaseMasterkeyID (.ok cm) dm s =
          ⟨some (Wrapf err ("unable to create database master key on database [" ++
            dm.cur.database ++ "]")), dm, s1,
            [Call.CreateDatabaseMasterkey dm.cur.database dm.cur.password]⟩) ∧
      (∀ s1, cm.CreateDatabaseMasterkey dm.cur.database dm.cur.password s = (none, s1) →
        resourceDatabaseMasterkeyCreate getDatabaseMasterkeyID (.ok cm) dm s =
          { resourceDatabaseMasterkeyRead (.ok cm)
              (dm.SetId (getDatabaseMasterkeyID dm)) s1 with
            calls := Call.CreateDatabaseMasterkey dm.cur.database dm.cur.password ::
              (resourceDatabaseMasterkeyRead (.ok cm)
                (dm.SetId (getDatabaseMasterkeyID dm)) s1).calls })) := by
  refine ⟨⟨?_, ?_⟩, ⟨?_, ?_⟩, ⟨?_, ?_⟩, ⟨?_, ?_⟩⟩
  · intro err s1 h; simp [resourceUserCreate, h]
  · intro s1 h; simp [resourceUserCreate, h]
  · intro err s1 h; simp [resourceDatabaseRoleCreate, h]
  · intro s1 h; simp [resourceDatabaseRoleCreate, h]
  · intro err s1 h; simp [resourceDatabaseSchemaCreate, h]
  · intro s1 h; simp [resourceDatabaseSchemaCreate, h]
  · intro err s1 h; simp [resourceDatabaseMasterkeyCreate, h]
  · intro s1 h; simp [resourceDatabaseMasterkeyCreate, h]

/-- With a connector whose `CreateUser` succeeds, Create calls `CreateUser`,
then reads the user back: three calls and no error. -/
theorem Create_calls_create_first_witness :
    (fixedUserConnector (.ok true) (.ok (some sampleUser)) none).CreateUser "db"
        (resourceUserCreate_user (sampleUserData false)) () = (none, ()) ∧
    (resourceUserCreate sampleSetList (.ok (fixedUserConnector (.ok true) (.ok (some sampleUser)) none))
        (sampleUserData false) ()).calls =
      [Call.CreateUser "db" (resourceUserCreate_user (sampleUserData false)),
       Call.DatabaseExists "db", Call.GetUser "db" "alice"] := by
  have h := (Create_calls_create_first sampleSetList (fun _ => "") (fun _ => "") (fun _ => "")
    (fixedUserConnector (.ok true) (.ok (some sampleUser)) none)
    (fixedRoleConnector (.ok true) (.ok none) none)
    (fixedSchemaConnector (.ok true) (.ok none) none)
    (fixedMasterkeyConnector (.ok true) (.ok none) none)
    (sampleUserData false) sampleRoleData (sampleSchemaData false) sampleMasterkeyData
    ()).1.2 () rfl
  refine ⟨rfl, ?_⟩
  rw [h]
  decide

/-- C18, counterexample: the parent database does not exist, so that
`DatabaseExists` answers false and every statement fails; `resourceUserUpdate`
and `resourceUserDelete` return the error of the failed statement, not the
gone result, and never ask `DatabaseExists`. -/
theorem Update_Delete_database_absent_error :
    (resourceUserUpdate sampleSetList (.ok (fixedUserConnector (.ok false) (.ok none)
        (some (GoError.other "Cannot open database requested by the login."))))
        (sampleUserData false) ()).diags =
      some "unable to update user [db].[alice]: Cannot open database requested by the login." ∧
    (resourceUserUpdate sampleSetList (.ok (fixedUserConnector (.ok false) (.ok none)
        (some (GoError.other "Cannot open database requested by the login."))))
        (sampleUserData false) ()).calls =
      [Call.UpdateUser "db" (resourceUserUpdate_user (sampleUserData false))] ∧
    (resourceUserDelete (.ok (fixedUserConnector (.ok false) (.ok none)
        (some (GoError.other "Cannot open database requested by the login."))))
        (sampleUserData false) ()).diags =
      some "unable to delete user [db].[alice]: Cannot open database requested by the login." ∧
    (resourceUserDelete (.ok (fixedUserConnector (.ok false) (.ok none)
        (some (GoError.other "Cannot open database requested by the login."))))
        (sampleUserData false) ()).data.Id = "sqlserver://localhost:1433/db/alice" ∧
    (resourceUserDelete (.ok (fixedUserConnector (.ok false) (.ok none)
        (some (GoError.other "Cannot open database requested by the login."))))
        (sampleUserData false) ()).calls = [Call.DeleteUser "db" "alice"] := by
  decide

/-- C18, amended: the Update and Delete of the user, role, schema and
master-key resources do not ask whether the parent database exists before
executing. Their first connector call is the update or delete operation; when
that call fails its error is returned, wrapped, and no other call is made.
Only after a successful update does the Read that follows ask
`DatabaseExists`, and a missing database then gives the gone result; a
successful delete clears the id. -/
theorem Update_Delete_execute_first {σ : Type} (SetList : List String → List String)
    (getDatabaseRoleID : ResourceData RoleAttrs → String)
    (getDatabaseSchemaID : ResourceData SchemaAttrs → String)
    (getDatabaseMasterkeyID : ResourceData MasterkeyAttrs → String)
    (cu : UserConnector σ) (cr : DatabaseRoleConnector σ) (cs : DatabaseSchemaConnector σ)
    (cm : DatabaseMasterkeyConnector σ)
    (du : ResourceData UserAttrs) (dr : ResourceData RoleAttrs)
    (ds : ResourceData SchemaAttrs) (dm : ResourceData MasterkeyAttrs) (s : σ) :
    ((∀ err s1, cu.UpdateUser du.cur.database (resourceUserUpdate_user du) s = (some err, s1) →
        (resourceUserUpdate SetList (.ok cu) du s).diags =
          some (Wrapf err ("unable to update user [" ++ du.cur.database ++ "].[" ++
            du.cur.username ++ "]")) ∧
        (resourceUserUpdate SetList (.ok cu) du s).data.Id = du.Id ∧
        (resourceUserUpdate SetList (.ok cu) du s).calls =
          [Call.UpdateUser du.cur.database (resourceUserUpdate_user du)]) ∧
      (∀ s1 s2, cu.UpdateUser du.cur.database (resourceUserUpdate_user du) s = (none, s1) →
        cu.DatabaseExists du.cur.database s1 = (.ok false, s2) →
        resourceUserUpdate SetList (.ok cu) du s =
          ⟨none, du.SetId "", s2, [Call.UpdateUser du.cur.database (resourceUserUpdate_user du),
            Call.DatabaseExists du.cur.database]⟩) ∧
      (du.cur.ignoreDeletion = false →
        (∀ err s1, cu.DeleteUser du.cur.database du.cur.username s = (some err, s1) →
          resourceUserDelete (.ok cu) du s =
            ⟨some (Wrapf err ("unable to delete user [" ++ du.cur.database ++ "].[" ++
              du.cur.username ++ "]")), du, s1,
              [Call.DeleteUser du.cur.database du.cur.username]⟩) ∧
        (∀ s1, cu.DeleteUser du.cur.database du.cur.username s = (none, s1) →
          resourceUserDelete (.ok cu) du s =
            ⟨none, du.SetId "", s1, [Call.DeleteUser du.cur.database du.cur.username]⟩))) ∧
    ((∀ err s1, cr.UpdateDatabaseRole dr.cur.database dr.cur.principalId dr.cur.roleName
          dr.cur.ownerName s = (some err, s1) →
        (resourceDatabaseRoleUpdate getDatabaseRoleID (.ok cr) dr s).diags =
          some (Wrapf err ("unable to update role [" ++ dr.cur.database ++ "].[" ++
            dr.cur.roleName ++ "]")) ∧
        (resourceDatabaseRoleUpdate getDatabaseRoleID (.ok cr) dr s).data.Id = dr.Id ∧
        (resourceDatabaseRoleUpdate getDatabaseRoleID (.ok cr) dr s).calls =
          [Call.UpdateDatabaseRole dr.cur.database dr.cur.principalId dr.cur.roleName
            dr.cur.ownerName]) ∧
      (∀ s1 s2, cr.UpdateDatabaseRole dr.cur.database dr.cur.principalId dr.cur.roleName
          dr.cur.ownerName s = (none, s1) →
        cr.DatabaseExists dr.cur.database s1 = (.ok false, s2) →
        resourceDatabaseRoleUpdate getDatabaseRoleID (.ok cr) dr s =
          ⟨none, dr.SetId "", s2,
            [Call.UpdateDatabaseRole dr.cur.database dr.cur.principalId dr.cur.roleName
              dr.cur.ownerName, Call.DatabaseExists dr.cur.database]⟩) ∧
      (∀ err s1, cr.DeleteDatabaseRole dr.cur.database dr.cur.roleName s = (some err, s1) →
        resourceDatabaseRoleDelete (.ok cr) dr s =
          ⟨some (Wrapf err ("unable to delete role [" ++ dr.cur.database ++ "].[" ++
            dr.cur.roleName ++ "]")), dr, s1,
            [Call.DeleteDatabaseRole dr.cur.database dr.cur.roleName]⟩) ∧
      (∀ s1, cr.DeleteDatabaseRole dr.cur.database dr.cur.roleName s = (none, s1) →
        resourceDatabaseRoleDelete (.ok cr) dr s =
          ⟨none, dr.SetId "", s1, [Call.DeleteDatabaseRole dr.cur.database dr.cur.roleName]⟩)) ∧
    ((∀ err s1, cs.UpdateDatabaseSchema ds.cur.database ds.cur.schemaName ds.cur.ownerName s =
          (some err, s1) →
        (resourceDatabaseSchemaUpdate getDatabaseSchemaID (.ok cs) ds s).diags =
          some (Wrapf err ("unable to update schema [" ++ ds.cur.database ++ "].[" ++
            ds.cur.schemaName ++ "]")) ∧
        (resourceDatabaseSchemaUpdate getDatabaseSchemaID (.ok cs) ds s).data.Id = ds.Id ∧
        (resourceDatabaseSchemaUpdate getDatabaseSchemaID (.ok cs) ds s).calls =
          [Call.UpdateDatabaseSchema ds.cur.database ds.cur.schemaName ds.cur.ownerName]) ∧
      (∀ s1 s2, cs.UpdateDatabaseSchema ds.cur.database ds.cur.schemaName ds.cur.ownerName s =
          (none, s1) →
        cs.DatabaseExists ds.cur.database s1 = (.ok false, s2) →
        resourceDatabaseSchemaUpdate getDatabaseSchemaID (.ok cs) ds s =
          ⟨none, ds.SetId "", s2,
            [Call.UpdateDatabaseSchema ds.cur.database ds.cur.schemaName ds.cur.ownerName,
              Call.DatabaseExists ds.cur.database]⟩) ∧
      (ds.cur.ignoreDeletion = false →
        (∀ err s1, cs.DeleteDatabaseSchema ds.cur.database ds.cur.schemaName s = (some err, s1) →
          resourceDatabaseSchemaDelete (.ok cs) ds s =
            ⟨some (Wrapf err ("unable to delete schema [" ++ ds.cur.database ++ "].[" ++
              ds.cur.schemaName ++ "]")), ds, s1,
              [Call.DeleteDatabaseSchema ds.cur.database ds.cur.schemaName]⟩) ∧
        (∀ s1, cs.DeleteDatabaseSchema ds.cur.database ds.cur.schemaName s = (none, s1) →
          resourceDatabaseSchemaDelete (.ok cs) ds s =
            ⟨none, ds.SetId "", s1,
              [Call.DeleteDatabaseSchema ds.cur.database ds.cur.schemaName]⟩))) ∧
    ((∀ err s1, cm.UpdateDatabaseMasterkey dm.cur.database dm.cur.password s = (some err, s1) →
        resourceDatabaseMasterkeyUpdate getDatabaseMasterkeyID (.ok cm) dm s =
          ⟨some (Wrapf err ("unable to update database key on database [" ++
            dm.cur.database ++ "]")), dm, s1,
            [Call.UpdateDatabaseMasterkey dm.cur.database dm.cur.password]⟩) ∧
      (∀ s1 s2, cm.UpdateDatabaseMasterkey dm.cur.database dm.cur.password s = (none, s1) →
        cm.DatabaseExists dm.cur.database s1 = (.ok false, s2) →
        resourceDatabaseMasterkeyUpdate getDatabaseMasterkeyID (.ok cm) dm s =
          ⟨none, dm.SetId "", s2,
            [Call.UpdateDatabaseMasterkey dm.cur.database dm.cur.password,
              Call.DatabaseExists dm.cur.database]⟩) ∧
      (∀ err s1, cm.DeleteDatabaseMasterkey dm.cur.database s = (some err, s1) →
        resourceDatabaseMasterkeyDelete (.ok cm) dm s =
          ⟨some (Wrapf err ("unable to delete database master key on database [" ++
            dm.cur.database ++ "]")), dm, s1,
            [Call.DeleteDatabaseMasterkey dm.cur.database]⟩) ∧
      (∀ s1, cm.DeleteDatabaseMasterkey dm.cur.database s = (none, s1) →
        resourceDatabaseMasterkeyDelete (.ok cm) dm s =
          ⟨none, dm.SetId "", s1, [Call.DeleteDatabaseMasterkey dm.cur.database]⟩)) := by
  refine ⟨⟨?_, ?_, ?_⟩, ⟨?_, ?_, ?_, ?_⟩, ⟨?_, ?_, ?_⟩, ⟨?_, ?_, ?_, ?_⟩⟩
  · intro err s1 h; simp [resourceUserUpdate, h]
  · intro s1 s2 h h2; simp [resourceUserUpdate, resourceUserRead, ResourceData.SetId, h, h2]
  · intro hf
    exact ⟨fun err s1 h => by simp [resourceUserDelete, hf, h],
      fun s1 h => by simp [resourceUserDelete, hf, h]⟩
  · intro err s1 h; simp [resourceDatabaseRoleUpdate, h]
  · intro s1 s2 h h2
    simp [resourceDatabaseRoleUpdate, resourceDatabaseRoleRead, ResourceData.SetId, h, h2]
  · intro err s1 h; simp [resourceDatabaseRoleDelete, h]
  · intro s1 h; simp [resourceDatabaseRoleDelete, h]
  · intro err s1 h; simp [resourceDatabaseSchemaUpdate, h]
  · intro s1 s2 h h2
    simp [resourceDatabaseSchemaUpdate, resourceDatabaseSchemaRead, ResourceData.SetId, h, h2]
  · intro hf
    exact ⟨fun err s1 h => by simp [resourceDatabaseSchemaDelete, hf, h],
      fun s1 h => by simp [resourceDatabaseSchemaDelete, hf, h]⟩
  · intro err s1 h; simp [resourceDatabaseMasterkeyUpdate, h]
  · intro s1 s2 h h2
    simp [resourceDatabaseMasterkeyUpdate, resourceDatabaseMasterkeyRead, ResourceData.SetId, h,
      h2]
  · intro err s1 h; simp [resourceDatabaseMasterkeyDelete, h]
  · intro s1 h; simp [resourceDatabaseMasterkeyDelete, h]

/-- The user update fails on the fixed connector and its error is returned; on
the sample server the update succeeds and, the database being absent for the
fixed connector, the Read that follows gives the gone result. -/
theorem Update_Delete_execute_first_witness :
    (resourceUserUpdate sampleSetList (.ok (fixedUserConnector (.ok false) (.ok none)
        (some (GoError.other "Cannot open database requested by the login."))))
        (sampleUserData false) ()).diags =
      some (Wrapf (GoError.other "Cannot open database requested by the login.")
        "unable to update user [db].[alice]") ∧
    resourceDatabaseRoleUpdate (fun _ => "sqlserver://localhost:1433/db/readers")
        (.ok (fixedRoleConnector (.ok false) (.ok none) none)) sampleRoleData () =
      ⟨none, sampleRoleData.SetId "", (),
        [Call.UpdateDatabaseRole "db" 0 "readers" "dbo", Call.DatabaseExists "db"]⟩ :=
  ⟨((Update_Delete_execute_first sampleSetList (fun _ => "") (fun _ => "") (fun _ => "")
      (fixedUserConnector (.ok false) (.ok none)
        (some (GoError.other "Cannot open database requested by the login.")))
      (fixedRoleConnector (.ok false) (.ok none) none)
      (fixedSchemaConnector (.ok false) (.ok none) none)
      (fixedMasterkeyConnector (.ok false) (.ok none) none)
      (sampleUserData false) sampleRoleData (sampleSchemaData false) sampleMasterkeyData
      ()).1.1 _ () rfl).1,
   (Update_Delete_execute_first sampleSetList (fun _ => "sqlserver://localhost:1433/db/readers")
      (fun _ => "") (fun _ => "")
      (fixedUserConnector (.ok false) (.ok none) none)
      (fixedRoleConnector (.ok false) (.ok none) none)
      (fixedSchemaConnector (.ok false) (.ok none) none)
      (fixedMasterkeyConnector (.ok false) (.ok none) none)
      (sampleUserData false) sampleRoleData (sampleSchemaData false) sampleMasterkeyData
      ()).2.1.2.1 () () rfl rfl⟩

/-- C19: with the ignore-deletion flag set, `resourceUserDelete` and
`resourceDatabaseSchemaDelete` return no error, make no connector call (they
return before the connector is even obtained) and leave the resource data, id
included, and the server as they are. With the flag unset they call the
delete operation of the connector once, as their only call; when it succeeds
they return no error and leave the resource data with the empty id and every
attribute as it was, when it fails they return its error and leave the resource
data, id included, unchanged. -/
theorem Delete_ignoreDeletion {σ τ : Type}
    (connU : Except GoError (UserConnector σ)) (cu : UserConnector σ)
    (connS : Except GoError (DatabaseSchemaConnector τ)) (cs : DatabaseSchemaConnector τ)
    (du : ResourceData UserAttrs) (ds : ResourceData SchemaAttrs) (s : σ) (t : τ) :
    (du.cur.ignoreDeletion = true → resourceUserDelete connU du s = ⟨none, du, s, []⟩) ∧
    (du.cur.ignoreDeletion = false →
      (resourceUserDelete (.ok cu) du s).calls =
        [Call.DeleteUser du.cur.database du.cur.username] ∧
      (resourceUserDelete (.ok cu) du s).server =
        (cu.DeleteUser du.cur.database du.cur.username s).2 ∧
      ((cu.DeleteUser du.cur.database du.cur.username s).1 = none →
        (resourceUserDelete (.ok cu) du s).diags = none ∧
        (resourceUserDelete (.ok cu) du s).data = { du with Id := "" } ∧
        (resourceUserDelete (.ok cu) du s).data.Id = "") ∧
      (∀ err, (cu.DeleteUser du.cur.database du.cur.username s).1 = some err →
        (resourceUserDelete (.ok cu) du s).diags =
          some (Wrapf err ("unable to delete user [" ++ du.cur.database ++ "].[" ++
            du.cur.username ++ "]")) ∧
        (resourceUserDelete (.ok cu) du s).data = du ∧
        (resourceUserDelete (.ok cu) du s).data.Id = du.Id)) ∧
    (ds.cur.ignoreDeletion = true →
      resourceDatabaseSchemaDelete connS ds t = ⟨none, ds, t, []⟩) ∧
    (ds.cur.ignoreDeletion = false →
      (resourceDatabaseSchemaDelete (.ok cs) ds t).calls =
        [Call.DeleteDatabaseSchema ds.cur.database ds.cur.schemaName] ∧
      (resourceDatabaseSchemaDelete (.ok cs) ds t).server =
        (cs.DeleteDatabaseSchema ds.cur.database ds.cur.schemaName t).2 ∧
      ((cs.DeleteDatabaseSchema ds.cur.database ds.cur.schemaName t).1 = none →
        (resourceDatabaseSchemaDelete (.ok cs) ds t).diags = none ∧
        (resourceDatabaseSchemaDelete (.ok cs) ds t).data = { ds with Id := "" } ∧
        (resourceDatabaseSchemaDelete (.ok cs) ds t).data.Id = "") ∧
      (∀ err, (cs.DeleteDatabaseSchema ds.cur.database ds.cur.schemaName t).1 = some err →
        (resourceDatabaseSchemaDelete (.ok cs) ds t).diags =
          some (Wrapf err ("unable to delete schema [" ++ ds.cur.database ++ "].[" ++
            ds.cur.schemaName ++ "]")) ∧
        (resourceDatabaseSchemaDelete (.ok cs) ds t).data = ds ∧
        (resourceDatabaseSchemaDelete (.ok cs) ds t).data.Id = ds.Id)) := by
  refine ⟨?_, ?_, ?_, ?_⟩
  · intro hf; simp [resourceUserDelete, hf]
  · intro hf
    rcases h : cu.DeleteUser du.cur.database du.cur.username s with ⟨_ | err, s1⟩ <;>
      simp [resourceUserDelete, ResourceData.SetId, hf, h]
  · intro hf; simp [resourceDatabaseSchemaDelete, hf]
  · intro hf
    rcases h : cs.DeleteDatabaseSchema ds.cur.database ds.cur.schemaName t with ⟨_ | err, t1⟩ <;>
      simp [resourceDatabaseSchemaDelete, ResourceData.SetId, hf, h]

/-- With the flag set, deleting `alice` leaves the server with `alice` and the
id in place; with the flag unset the user is dropped and the id, which was not
empty, is empty afterwards; when the connector fails the id stays. -/
theorem Delete_ignoreDeletion_witness :
    ((sampleUserData true).cur.ignoreDeletion = true ∧
      resourceUserDelete (.ok sampleUserServer) (sampleUserData true) ["alice"] =
        ⟨none, sampleUserData true, ["alice"], []⟩) ∧
    ((sampleUserData false).cur.ignoreDeletion = false ∧
      (sampleUserData false).Id = "sqlserver://localhost:1433/db/alice" ∧
      (resourceUserDelete (.ok sampleUserServer) (sampleUserData false) ["alice"]).data =
        { sampleUserData false with Id := "" } ∧
      (resourceUserDelete (.ok sampleUserServer) (sampleUserData false) ["alice"]).data.Id =
        "") ∧
    ((resourceDatabaseSchemaDelete
        (.ok (fixedSchemaConnector (.ok true) (.ok none) (some (GoError.other "deadlock"))))
        (sampleSchemaData false) ()).data = sampleSchemaData false ∧
      (resourceDatabaseSchemaDelete
        (.ok (fixedSchemaConnector (.ok true) (.ok none) (some (GoError.other "deadlock"))))
        (sampleSchemaData false) ()).data.Id = (sampleSchemaData false).Id) :=
  ⟨⟨rfl,
    (Delete_ignoreDeletion (.ok sampleUserServer) sampleUserServer
      (.ok (fixedSchemaConnector (.ok true) (.ok none) none))
      (fixedSchemaConnector (.ok true) (.ok none) none)
      (sampleUserData true) (sampleSchemaData true) ["alice"] ()).1 rfl⟩,
   ⟨rfl, by decide,
    (((Delete_ignoreDeletion (.ok sampleUserServer) sampleUserServer
      (.ok (fixedSchemaConnector (.ok true) (.ok none) none))
      (fixedSchemaConnector (.ok true) (.ok none) none)
      (sampleUserData false) (sampleSchemaData false) ["alice"] ()).2.1 rfl).2.2.1 rfl).2⟩,
   (((Delete_ignoreDeletion (.ok sampleUserServer) sampleUserServer
      (.ok (fixedSchemaConnector (.ok true) (.ok none) (some (GoError.other "deadlock"))))
      (fixedSchemaConnector (.ok true) (.ok none) (some (GoError.other "deadlock")))
      (sampleUserData false) (sampleSchemaData false) ["alice"] ()).2.2.2 rfl).2.2.2
      (GoError.other "deadlock") rfl).2⟩

/-- C20, counterexample: the verification query of a script that verifies the
table `Users` fails with a permission error, whose message contains neither
`Invalid object name` nor `does not exist`; Read returns no error and clears
the id. -/
theorem resourceDatabaseSQLScriptRead_swallows_permission_error :
    Contains (GoError.other "The SELECT permission was denied on the object Users.").Error
      "Invalid object name" = false ∧
    Contains (GoError.other "The SELECT permission was denied on the object Users.").Error
      "does not exist" = false ∧
    (resourceDatabaseSQLScriptRead asciiToUpper
      (.ok (fixedSQLScriptConnector (.ok true)
        (some (GoError.other "The SELECT permission was denied on the object Users."))))
      sampleSQLScriptData ()).diags = none ∧
    (resourceDatabaseSQLScriptRead asciiToUpper
      (.ok (fixedSQLScriptConnector (.ok true)
        (some (GoError.other "The SELECT permission was denied on the object Users."))))
      sampleSQLScriptData ()).data = sampleSQLScriptData.SetId "" ∧
    sampleSQLScriptData.Id ≠ "" := by
  decide

/-- C20, amended: in `resourceDatabaseSQLScriptRead`, an error of the
verification query whose message contains neither `Invalid object name` nor
`does not exist` is returned to the caller, wrapped, with the resource data
unchanged, exactly when no object is verified or the message contains
`affected`; when an object is verified and the message does not contain
`affected`, Read returns no error and clears the id. -/
theorem resourceDatabaseSQLScriptRead_other_errors {σ : Type} (ToUpper : String → String)
    (cq : DatabaseSQLScriptConnector σ) (dq : ResourceData SQLScriptAttrs) (s s1 s2 : σ)
    (query : String) (err : GoError)
    (hE : cq.DatabaseExists dq.cur.database s = (.ok true, s1))
    (hq : getObjectExistsQuery ToUpper dq.cur.verifyObject = .ok query)
    (hx : cq.DataBaseExecuteScript dq.cur.database query s1 = (some err, s2))
    (h1 : Contains err.Error "Invalid object name" = false)
    (h2 : Contains err.Error "does not exist" = false) :
    (dq.cur.verifyObject = "" ∨ Contains err.Error "affected" = true →
      resourceDatabaseSQLScriptRead ToUpper (.ok cq) dq s =
        ⟨some (Wrapf err ("unable to verify object in database [" ++ dq.cur.database ++ "]")),
          dq, s2, [Call.DatabaseExists dq.cur.database,
            Call.DataBaseExecuteScript dq.cur.database query]⟩) ∧
    (dq.cur.verifyObject ≠ "" ∧ Contains err.Error "affected" = false →
      resourceDatabaseSQLScriptRead ToUpper (.ok cq) dq s =
        ⟨none, dq.SetId "", s2, [Call.DatabaseExists dq.cur.database,
          Call.DataBaseExecuteScript dq.cur.database query]⟩) := by
  simp only [resourceDatabaseSQLScriptRead, hE, hq, hx]
  constructor
  · intro h
    rcases h with h | h <;> simp [h1, h2, h]
  · intro h
    simp [h1, h2, h.1, h.2]

/-- An error whose message contains `affected` is returned, with the id kept. -/
theorem resourceDatabaseSQLScriptRead_other_errors_witness :
    resourceDatabaseSQLScriptRead asciiToUpper
      (.ok (fixedSQLScriptConnector (.ok true)
        (some (GoError.other "unexpected number of rows affected"))))
      sampleSQLScriptData () =
      ⟨some (Wrapf (GoError.other "unexpected number of rows affected")
          "unable to verify object in database [db]"),
        sampleSQLScriptData, (),
        [Call.DatabaseExists "db", Call.DataBaseExecuteScript "db"
          ((getObjectExistsQuery asciiToUpper "TABLE Users").toOption.getD "")]⟩ :=
  (resourceDatabaseSQLScriptRead_other_errors asciiToUpper
    (fixedSQLScriptConnector (.ok true)
      (some (GoError.other "unexpected number of rows affected")))
    sampleSQLScriptData () () ()
    ((getObjectExistsQuery asciiToUpper "TABLE Users").toOption.getD "")
    (GoError.other "unexpected number of rows affected")
    rfl (by decide) rfl (by decide) (by decide)).1 (Or.inr (by decide))

/-! ### sql/user.go and sqlscript validation: round trips and agreement -/

theorem Join_ne_empty_of_two (a b : String) (rest : List String) :
    Join (a :: b :: rest) "," ≠ "" := by
  intro h
  have h2 := congrArg String.length h
  have h3 : ",".length = 1 := rfl
  simp only [Join, String.length_append, h3] at h2
  have h4 : "".length = 0 := rfl
  omega

/-- C29: the role list that `CreateUser` and `UpdateUser` send as `@roles`
is the comma-join of `user.Roles`; when no role name holds a comma and the list
is not the one-element list of the empty name, splitting that text the way
`GetUser` splits the aggregate gives the list back, in order. -/
theorem roles_join_split_roundtrip (database : String) (user : User)
    (hcomma : ∀ r ∈ user.Roles, ',' ∉ r.data) (hne : user.Roles ≠ [""]) :
    namedArg (CreateUser_args database user) "roles" = some (.text (Join user.Roles ",")) ∧
    namedArg (UpdateUser_args database user) "roles" = some (.text (Join user.Roles ",")) ∧
    GetUser_roles (Join user.Roles ",") = user.Roles := by
  refine ⟨rfl, rfl, ?_⟩
  unfold GetUser_roles
  rcases hl : user.Roles with _ | ⟨a, _ | ⟨b, rest⟩⟩
  · simp [Join]
  · have ha : a ≠ "" := by
      rintro rfl
      exact hne hl
    have hs := Split_Join ',' [a] (by simp) (by rw [← hl]; exact hcomma)
    simp only [Join] at hs ⊢
    rw [if_neg ha, hs]
  · rw [if_neg (Join_ne_empty_of_two a b rest)]
    exact Split_Join ',' (a :: b :: rest) (by simp) (by rw [← hl]; exact hcomma)

/-- The roles `readers` and `writers` are sent as `readers,writers` and read
back as the same two roles. -/
theorem roles_join_split_roundtrip_witness :
    (∀ r ∈ sampleUser.Roles, ',' ∉ r.data) ∧ sampleUser.Roles ≠ [""] ∧
    Join sampleUser.Roles "," = "readers,writers" ∧
    GetUser_roles (Join sampleUser.Roles ",") = ["readers", "writers"] :=
  ⟨by decide, by decide, by decide,
   (roles_join_split_roundtrip "db" sampleUser (by decide) (by decide)).2.2⟩
theorem fieldsGo_all_space (l : List Char) (h : ∀ c ∈ l, isSpace c = true) :
    fieldsGo [] l = [] := by
  induction l with
  | nil => simp [fieldsGo]
  | cons c cs ih =>
    have hc : isSpace c = true := h c (List.mem_cons_self _ _)
    have hcs : ∀ c ∈ cs, isSpace c = true := fun x hx => h x (List.mem_cons_of_mem _ hx)
    simp [fieldsGo, hc, ih hcs]

/-- The inputs `validateVerifyObject` accepts. -/
theorem validateVerifyObject_none_iff (ToUpper : String → String) (v : String) :
    validateVerifyObject ToUpper v = none ↔
      ∃ t n, Fields v = [t, n] ∧ ToUpper t ∈ validTypes := by
  have hempty : Fields "" = [] := by decide
  unfold validateVerifyObject
  by_cases hv : v = ""
  · subst hv
    simp [hempty]
  · rw [if_neg hv]
    rcases hf : Fields v with _ | ⟨a, _ | ⟨b, _ | ⟨c, rest⟩⟩⟩
    · simp
    · simp
    · by_cases hm : ToUpper a ∈ validTypes
      · simp [hm]
      · simp [hm]
    · simp

/-- The non-empty inputs for which `getObjectExistsQuery` returns a query. -/
theorem getObjectExistsQuery_ok_iff (ToUpper : String → String) (s : String) (hs : s ≠ "") :
    (∃ query, getObjectExistsQuery ToUpper s = .ok query) ↔
      ∃ t n, Fields s = [t, n] ∧ ToUpper t ∈ validTypes := by
  unfold getObjectExistsQuery
  rw [if_neg hs]
  rcases hf : Fields s with _ | ⟨a, _ | ⟨b, _ | ⟨c, rest⟩⟩⟩
  · simp
  · simp
  · have hr : (∃ t n, [a, b] = [t, n] ∧ ToUpper t ∈ validTypes) ↔ ToUpper a ∈ validTypes := by
      constructor
      · rintro ⟨t, n, he, hm⟩
        simp only [List.cons.injEq, and_true] at he
        rw [he.1]
        exact hm
      · intro hm
        exact ⟨a, b, rfl, hm⟩
    rw [hr]
    simp only []
    generalize ToUpper a = T
    by_cases h1 : T = "TABLE"
    · rw [if_pos h1]
      exact ⟨fun _ => by simp [validTypes, h1], fun _ => by split_ifs <;> exact ⟨_, rfl⟩⟩
    rw [if_neg h1]
    by_cases h2 : T = "VIEW"
    · rw [if_pos h2]
      exact ⟨fun _ => by simp [validTypes, h2], fun _ => by split_ifs <;> exact ⟨_, rfl⟩⟩
    rw [if_neg h2]
    by_cases h3 : T = "PROCEDURE" ∨ T = "PROC"
    · rw [if_pos h3]
      exact ⟨fun _ => by rcases h3 with h | h <;> simp [validTypes, h],
        fun _ => by split_ifs <;> exact ⟨_, rfl⟩⟩
    rw [if_neg h3]
    by_cases h4 : T = "FUNCTION" ∨ T = "FUNC"
    · rw [if_pos h4]
      exact ⟨fun _ => by rcases h4 with h | h <;> simp [validTypes, h],
        fun _ => by split_ifs <;> exact ⟨_, rfl⟩⟩
    rw [if_neg h4]
    by_cases h5 : T = "SCHEMA"
    · rw [if_pos h5]
      exact ⟨fun _ => by simp [validTypes, h5], fun _ => ⟨_, rfl⟩⟩
    rw [if_neg h5]
    by_cases h6 : T = "TRIGGER" ∨ T = "TRG"
    · rw [if_pos h6]
      exact ⟨fun _ => by rcases h6 with h | h <;> simp [validTypes, h],
        fun _ => by split_ifs <;> exact ⟨_, rfl⟩⟩
    rw [if_neg h6]
    rw [not_or] at h3 h4 h6
    constructor
    · rintro ⟨q, hq⟩
      exact absurd hq (by simp)
    · intro hm
      simp only [validTypes, List.mem_cons, List.mem_singleton, List.not_mem_nil, or_false] at hm
      rcases hm with h | h | h | h | h | h | h | h | h
      · exact absurd h h1
      · exact absurd h h2
      · exact absurd h h3.1
      · exact absurd h h3.2
      · exact absurd h h4.1
      · exact absurd h h4.2
      · exact absurd h h5
      · exact absurd h h6.1
      · exact absurd h h6.2
  · simp

/-- C24: `validateVerifyObject` accepts a string exactly when `strings.Fields`
cuts it into two tokens and the upper-cased first token is one of TABLE, VIEW,
PROCEDURE, PROC, FUNCTION, FUNC, SCHEMA, TRIGGER, TRG; the empty string and
every string of white space only are rejected, and the type is accepted in
lower case as well. -/
theorem validateVerifyObject_accepts_iff (ToUpper : String → String) (v : String) :
    (validateVerifyObject ToUpper v = none ↔
      ∃ t n, Fields v = [t, n] ∧
        ToUpper t ∈ ["TABLE", "VIEW", "PROCEDURE", "PROC", "FUNCTION", "FUNC", "SCHEMA",
          "TRIGGER", "TRG"]) ∧
    validateVerifyObject ToUpper "" ≠ none ∧
    ((∀ c ∈ v.data, isSpace c = true) → validateVerifyObject ToUpper v ≠ none) ∧
    validateVerifyObject asciiToUpper "table Users" = none ∧
    validateVerifyObject asciiToUpper "TABLE" ≠ none ∧
    validateVerifyObject asciiToUpper "INDEX ix" ≠ none := by
  have key := validateVerifyObject_none_iff ToUpper v
  refine ⟨key, by simp [validateVerifyObject], ?_, by decide, by decide, by decide⟩
  intro hsp hacc
  obtain ⟨t, n, hf, _⟩ := key.mp hacc
  have h0 : Fields v = [] := by
    unfold Fields
    rw [fieldsGo_all_space v.data hsp]
    rfl
  rw [h0] at hf
  exact absurd hf (by simp)

/-- C28: on a non-empty string `validateVerifyObject` returns no error exactly
when `getObjectExistsQuery` returns a query. -/
theorem validateVerifyObject_iff_getObjectExistsQuery (ToUpper : String → String) (s : String)
    (hs : s ≠ "") :
    validateVerifyObject ToUpper s = none ↔
      ∃ query, getObjectExistsQuery ToUpper s = .ok query :=
  (validateVerifyObject_none_iff ToUpper s).trans (getObjectExistsQuery_ok_iff ToUpper s hs).symm

/-- The target `TABLE Users` passes both; the target `INDEX ix` passes neither. -/
theorem validateVerifyObject_iff_getObjectExistsQuery_witness :
    "TABLE Users" ≠ "" ∧ validateVerifyObject asciiToUpper "TABLE Users" = none ∧
    (∃ query, getObjectExistsQuery asciiToUpper "TABLE Users" = .ok query) ∧
    validateVerifyObject asciiToUpper "INDEX ix" ≠ none ∧
    ¬ ∃ query, getObjectExistsQuery asciiToUpper "INDEX ix" = .ok query :=
  ⟨by decide, by decide,
   (validateVerifyObject_iff_getObjectExistsQuery asciiToUpper "TABLE Users" (by decide)).mp
     (by decide),
   by decide,
   fun h => absurd
     ((validateVerifyObject_iff_getObjectExistsQuery asciiToUpper "INDEX ix" (by decide)).mpr h)
     (by decide)⟩

/-! ### mssql: attribute schemas and Update -/

/-- C25: when the update operation of the connector fails, `resourceUserUpdate`,
`resourceDatabaseRoleUpdate` and `resourceDatabaseSchemaUpdate` return the
wrapped error, and afterwards each tracked attribute (user: password, default
schema, default language, roles; role: role name, owner name; schema: owner
name) holds its prior value when it has a pending change and its current value
when it has none; the id, the prior and planned values and every other
attribute are as before. -/
theorem Update_failure_reverts {σ : Type} (SetList : List String → List String)
    (getDatabaseRoleID : ResourceData RoleAttrs → String)
    (getDatabaseSchemaID : ResourceData SchemaAttrs → String)
    (cu : UserConnector σ) (cr : DatabaseRoleConnector σ) (cs : DatabaseSchemaConnector σ)
    (du : ResourceData UserAttrs) (dr : ResourceData RoleAttrs)
    (ds : ResourceData SchemaAttrs) (s su sr ss : σ) (eu er es : GoError)
    (hu : cu.UpdateUser du.cur.database (resourceUserUpdate_user du) s = (some eu, su))
    (hr : cr.UpdateDatabaseRole dr.cur.database dr.cur.principalId dr.cur.roleName
      dr.cur.ownerName s = (some er, sr))
    (hs : cs.UpdateDatabaseSchema ds.cur.database ds.cur.schemaName ds.cur.ownerName s =
      (some es, ss)) :
    ((resourceUserUpdate SetList (.ok cu) du s).diags =
        some (Wrapf eu ("unable to update user [" ++ du.cur.database ++ "].[" ++
          du.cur.username ++ "]")) ∧
      (resourceUserUpdate SetList (.ok cu) du s).data.cur.password =
        (if du.prior.password ≠ du.planned.password then du.prior.password
          else du.cur.password) ∧
      (resourceUserUpdate SetList (.ok cu) du s).data.cur.defaultSchema =
        (if du.prior.defaultSchema ≠ du.planned.defaultSchema then du.prior.defaultSchema
          else du.cur.defaultSchema) ∧
      (resourceUserUpdate SetList (.ok cu) du s).data.cur.defaultLanguage =
        (if du.prior.defaultLanguage ≠ du.planned.defaultLanguage then du.prior.defaultLanguage
          else du.cur.defaultLanguage) ∧
      (resourceUserUpdate SetList (.ok cu) du s).data.cur.roles =
        (if du.prior.roles.toFinset ≠ du.planned.roles.toFinset then du.prior.roles
          else du.cur.roles) ∧
      (resourceUserUpdate SetList (.ok cu) du s).data =
        { du with cur :=
          { du.cur with
            password := (resourceUserUpdate SetList (.ok cu) du s).data.cur.password,
            defaultSchema := (resourceUserUpdate SetList (.ok cu) du s).data.cur.defaultSchema,
            defaultLanguage := (resourceUserUpdate SetList (.ok cu) du s).data.cur.defaultLanguage,
            roles := (resourceUserUpdate SetList (.ok cu) du s).data.cur.roles } }) ∧
    ((resourceDatabaseRoleUpdate getDatabaseRoleID (.ok cr) dr s).diags =
        some (Wrapf er ("unable to update role [" ++ dr.cur.database ++ "].[" ++
          dr.cur.roleName ++ "]")) ∧
      (resourceDatabaseRoleUpdate getDatabaseRoleID (.ok cr) dr s).data.cur.roleName =
        (if dr.prior.roleName ≠ dr.planned.roleName then dr.prior.roleName
          else dr.cur.roleName) ∧
      (resourceDatabaseRoleUpdate getDatabaseRoleID (.ok cr) dr s).data.cur.ownerName =
        (if dr.prior.ownerName ≠ dr.planned.ownerName then dr.prior.ownerName
          else dr.cur.ownerName) ∧
      (resourceDatabaseRoleUpdate getDatabaseRoleID (.ok cr) dr s).data =
        { dr with cur :=
          { dr.cur with
            roleName := (resourceDatabaseRoleUpdate getDatabaseRoleID (.ok cr) dr s).data.cur.roleName,
            ownerName :=
              (resourceDatabaseRoleUpdate getDatabaseRoleID (.ok cr) dr s).data.cur.ownerName } }) ∧
    ((resourceDatabaseSchemaUpdate getDatabaseSchemaID (.ok cs) ds s).diags =
        some (Wrapf es ("unable to update schema [" ++ ds.cur.database ++ "].[" ++
          ds.cur.schemaName ++ "]")) ∧
      (resourceDatabaseSchemaUpdate getDatabaseSchemaID (.ok cs) ds s).data.cur.ownerName =
        (if ds.prior.ownerName ≠ ds.planned.ownerName then ds.prior.ownerName
          else ds.cur.ownerName) ∧
      (resourceDatabaseSchemaUpdate getDatabaseSchemaID (.ok cs) ds s).data =
        { ds with cur :=
          { ds.cur with
            ownerName :=
              (resourceDatabaseSchemaUpdate getDatabaseSchemaID (.ok cs) ds s).data.cur.ownerName } }) := by
  refine ⟨?_, ?_, ?_⟩
  · simp [resourceUserUpdate, hu]
  · simp [resourceDatabaseRoleUpdate, hr]
  · simp [resourceDatabaseSchemaUpdate, hs]

/-- A failed update of a user whose default schema and roles have a pending
change puts both back to the prior values `dbo` and `readers`, and leaves the
password, which has no pending change, as it is. -/
theorem Update_failure_reverts_witness :
    (resourceUserUpdate sampleSetList (.ok (fixedUserConnector (.ok true) (.ok none)
        (some (GoError.other "deadlock")))) sampleUserChange ()).data.cur.defaultSchema = "dbo" ∧
    (resourceUserUpdate sampleSetList (.ok (fixedUserConnector (.ok true) (.ok none)
        (some (GoError.other "deadlock")))) sampleUserChange ()).data.cur.roles = ["readers"] ∧
    sampleUserChange.cur.defaultSchema = "sales" ∧
    sampleUserChange.cur.roles = ["readers", "writers"] := by
  have h := (Update_failure_reverts sampleSetList (fun _ => "") (fun _ => "")
    (fixedUserConnector (.ok true) (.ok none) (some (GoError.other "deadlock")))
    (fixedRoleConnector (.ok true) (.ok none) (some (GoError.other "deadlock")))
    (fixedSchemaConnector (.ok true) (.ok none) (some (GoError.other "deadlock")))
    sampleUserChange sampleRoleRename sampleSchemaChange () () () ()
    (GoError.other "deadlock") (GoError.other "deadlock") (GoError.other "deadlock")
    rfl rfl rfl).1
  refine ⟨?_, ?_, rfl, rfl⟩
  · rw [h.2.2.1]; decide
  · rw [h.2.2.2.2.1]; decide
/-- C21, counterexample: the role-name attribute of `mssql_database_role` is not
marked `ForceNew`, and `resourceDatabaseRoleUpdate` on a role stored as
`readers` whose planned name is `auditors` passes the name `auditors` to
`UpdateDatabaseRole`, with the principal id of the stored role. -/
theorem resourceDatabaseRoleUpdate_passes_new_name :
    ForceNew resourceDatabaseRole_Schema .roleNameProp = false ∧
    sampleRoleRename.prior.roleName = "readers" ∧
    (resourceDatabaseRoleUpdate (fun _ => "sqlserver://localhost:1433/db/auditors")
      (.ok (fixedRoleConnector (.ok true) (.ok none) none)) sampleRoleRename ()).calls.head? =
      some (Call.UpdateDatabaseRole "db" 0 "auditors" "dbo") ∧
    (resourceDatabaseRoleUpdate (fun _ => "sqlserver://localhost:1433/db/auditors")
      (.ok (fixedRoleConnector (.ok true) (.ok none) none)) sampleRoleRename ()).diags = none := by
  decide

/-- C21, amended: the name attribute is marked `ForceNew` for the user and the
schema resource and not for the role resource. Every update call that
`resourceUserUpdate`, `resourceDatabaseSchemaUpdate` and
`resourceDatabaseRoleUpdate` make passes the name that `data.Get` returns, so
for a user or schema without a pending change of the name it is the stored
name; the role update passes the planned name together with the principal id
of the role. -/
theorem Update_name_passed {σ : Type} (SetList : List String → List String)
    (getDatabaseRoleID : ResourceData RoleAttrs → String)
    (getDatabaseSchemaID : ResourceData SchemaAttrs → String)
    (cu : UserConnector σ) (cr : DatabaseRoleConnector σ) (cs : DatabaseSchemaConnector σ)
    (du : ResourceData UserAttrs) (dr : ResourceData RoleAttrs)
    (ds : ResourceData SchemaAttrs) (s : σ) :
    (ForceNew resourceUser_Schema .usernameProp = true ∧
      ForceNew resourceDatabaseSchema_Schema .schemaNameProp = true ∧
      ForceNew resourceDatabaseRole_Schema .roleNameProp = false) ∧
    ((resourceUserUpdate SetList (.ok cu) du s).calls.head? =
        some (Call.UpdateUser du.cur.database (resourceUserUpdate_user du)) ∧
      (∀ database user, Call.UpdateUser database user ∈ (resourceUserUpdate SetList (.ok cu) du s).calls →
        user.Username = du.cur.username) ∧
      (du.cur.username = du.prior.username →
        ∀ database user,
          Call.UpdateUser database user ∈ (resourceUserUpdate SetList (.ok cu) du s).calls →
          user.Username = du.prior.username)) ∧
    ((resourceDatabaseSchemaUpdate getDatabaseSchemaID (.ok cs) ds s).calls.head? =
        some (Call.UpdateDatabaseSchema ds.cur.database ds.cur.schemaName ds.cur.ownerName) ∧
      (∀ database schemaName ownerName,
        Call.UpdateDatabaseSchema database schemaName ownerName ∈
          (resourceDatabaseSchemaUpdate getDatabaseSchemaID (.ok cs) ds s).calls →
        schemaName = ds.cur.schemaName) ∧
      (ds.cur.schemaName = ds.prior.schemaName →
        ∀ database schemaName ownerName,
          Call.UpdateDatabaseSchema database schemaName ownerName ∈
            (resourceDatabaseSchemaUpdate getDatabaseSchemaID (.ok cs) ds s).calls →
          schemaName = ds.prior.schemaName)) ∧
    ((resourceDatabaseRoleUpdate getDatabaseRoleID (.ok cr) dr s).calls.head? =
        some (Call.UpdateDatabaseRole dr.cur.database dr.cur.principalId dr.cur.roleName
          dr.cur.ownerName) ∧
      (∀ database roleId roleName ownerName,
        Call.UpdateDatabaseRole database roleId roleName ownerName ∈
          (resourceDatabaseRoleUpdate getDatabaseRoleID (.ok cr) dr s).calls →
        roleName = dr.cur.roleName ∧ roleId = dr.cur.principalId)) := by
  have hU : ∀ database user,
      Call.UpdateUser database user ∈ (resourceUserUpdate SetList (.ok cu) du s).calls →
      user.Username = du.cur.username := by
    intro database user
    unfold resourceUserUpdate
    rcases h : cu.UpdateUser du.cur.database (resourceUserUpdate_user du) s with ⟨_ | err, s1⟩
    · simp only [h]
      unfold resourceUserRead
      rcases h2 : cu.DatabaseExists du.cur.database s1 with ⟨_ | _ | _, s2⟩
      · simp only [ResourceData.SetId, h2]
        intro hm
        simp only [List.mem_cons, Call.UpdateUser.injEq, List.mem_singleton, reduceCtorEq,
          or_false, List.not_mem_nil] at hm
        rw [hm.2]; rfl
      · simp only [ResourceData.SetId, h2]
        intro hm
        simp only [List.mem_cons, Call.UpdateUser.injEq, List.mem_singleton, reduceCtorEq,
          or_false, List.not_mem_nil] at hm
        rw [hm.2]; rfl
      · simp only [ResourceData.SetId, h2]
        rcases h3 : cu.GetUser du.cur.database du.cur.username s2 with ⟨_ | _ | _, s3⟩ <;>
        · simp only []
          intro hm
          simp only [List.mem_cons, Call.UpdateUser.injEq, List.mem_singleton, reduceCtorEq,
            or_false, List.not_mem_nil] at hm
          rw [hm.2]; rfl
    · simp only [h]
      intro hm
      simp only [List.mem_cons, Call.UpdateUser.injEq, List.mem_singleton, reduceCtorEq,
        or_false, List.not_mem_nil] at hm
      rw [hm.2]; rfl
  have hS : ∀ database schemaName ownerName,
      Call.UpdateDatabaseSchema database schemaName ownerName ∈
        (resourceDatabaseSchemaUpdate getDatabaseSchemaID (.ok cs) ds s).calls →
      schemaName = ds.cur.schemaName := by
    intro database schemaName ownerName
    unfold resourceDatabaseSchemaUpdate
    rcases h : cs.UpdateDatabaseSchema ds.cur.database ds.cur.schemaName ds.cur.ownerName s
      with ⟨_ | err, s1⟩
    · simp only [h]
      unfold resourceDatabaseSchemaRead
      rcases h2 : cs.DatabaseExists ds.cur.database s1 with ⟨_ | _ | _, s2⟩
      · simp only [ResourceData.SetId, h2]
        intro hm
        simp only [List.mem_cons, Call.UpdateDatabaseSchema.injEq, List.mem_singleton,
          reduceCtorEq, or_false, List.not_mem_nil] at hm
        exact hm.2.1
      · simp only [ResourceData.SetId, h2]
        intro hm
        simp only [List.mem_cons, Call.UpdateDatabaseSchema.injEq, List.mem_singleton,
          reduceCtorEq, or_false, List.not_mem_nil] at hm
        exact hm.2.1
      · simp only [ResourceData.SetId, h2]
        rcases h3 : cs.GetDatabaseSchema ds.cur.database ds.cur.schemaName s2
          with ⟨_ | _ | _, s3⟩ <;>
        · simp only []
          intro hm
          simp only [List.mem_cons, Call.UpdateDatabaseSchema.injEq, List.mem_singleton,
            reduceCtorEq, or_false, List.not_mem_nil] at hm
          exact hm.2.1
    · simp only [h]
      intro hm
      simp only [List.mem_cons, Call.UpdateDatabaseSchema.injEq, List.mem_singleton,
        reduceCtorEq, or_false, List.not_mem_nil] at hm
      exact hm.2.1
  have hR : ∀ database roleId roleName ownerName,
      Call.UpdateDatabaseRole database roleId roleName ownerName ∈
        (resourceDatabaseRoleUpdate getDatabaseRoleID (.ok cr) dr s).calls →
      roleName = dr.cur.roleName ∧ roleId = dr.cur.principalId := by
    intro database roleId roleName ownerName
    unfold resourceDatabaseRoleUpdate
    rcases h : cr.UpdateDatabaseRole dr.cur.database dr.cur.principalId dr.cur.roleName
      dr.cur.ownerName s with ⟨_ | err, s1⟩
    · simp only [h]
      unfold resourceDatabaseRoleRead
      rcases h2 : cr.DatabaseExists dr.cur.database s1 with ⟨_ | _ | _, s2⟩
      · simp only [ResourceData.SetId, h2]
        intro hm
        simp only [List.mem_cons, Call.UpdateDatabaseRole.injEq, List.mem_singleton,
          reduceCtorEq, or_false, List.not_mem_nil] at hm
        exact ⟨hm.2.2.1, hm.2.1⟩
      · simp only [ResourceData.SetId, h2]
        intro hm
        simp only [List.mem_cons, Call.UpdateDatabaseRole.injEq, List.mem_singleton,
          reduceCtorEq, or_false, List.not_mem_nil] at hm
        exact ⟨hm.2.2.1, hm.2.1⟩
      · simp only [ResourceData.SetId, h2]
        rcases h3 : cr.GetDatabaseRole dr.cur.database dr.cur.roleName s2
          with ⟨_ | _ | _, s3⟩ <;>
        · simp only []
          intro hm
          simp only [List.mem_cons, Call.UpdateDatabaseRole.injEq, List.mem_singleton,
            reduceCtorEq, or_false, List.not_mem_nil] at hm
          exact ⟨hm.2.2.1, hm.2.1⟩
    · simp only [h]
      intro hm
      simp only [List.mem_cons, Call.UpdateDatabaseRole.injEq, List.mem_singleton,
        reduceCtorEq, or_false, List.not_mem_nil] at hm
      exact ⟨hm.2.2.1, hm.2.1⟩
  refine ⟨by decide, ⟨?_, hU, ?_⟩, ⟨?_, hS, ?_⟩, ⟨?_, hR⟩⟩
  · unfold resourceUserUpdate
    rcases h : cu.UpdateUser du.cur.database (resourceUserUpdate_user du) s with ⟨_ | err, s1⟩ <;>
      simp [h]
  · intro he database user hm
    rw [← he]
    exact hU database user hm
  · unfold resourceDatabaseSchemaUpdate
    rcases h : cs.UpdateDatabaseSchema ds.cur.database ds.cur.schemaName ds.cur.ownerName s
      with ⟨_ | err, s1⟩ <;> simp [h]
  · intro he database schemaName ownerName hm
    rw [← he]
    exact hS database schemaName ownerName hm
  · unfold resourceDatabaseRoleUpdate
    rcases h : cr.UpdateDatabaseRole dr.cur.database dr.cur.principalId dr.cur.roleName
      dr.cur.ownerName s with ⟨_ | err, s1⟩ <;> simp [h]

/-! ### sql/database_schema.go: GetDatabaseSchema on a catalog -/

/-- C30, counterexample: on the hosted edition the database names `master `
(with a trailing blank) and, under a case-insensitive collation, `MASTER` are
not the string `master`, yet the comparison of the query equals them to it and
the owner name read for the schema `sales`, which `alice` owns, is empty. -/
theorem GetDatabaseSchema_master_by_collation :
    ("master " ≠ "master" ∧ "MASTER" ≠ "master") ∧
    (GetDatabaseSchema id (catalogRowQueries id true sampleCatalog) "master " "sales").1 =
      .ok (some ⟨5, "sales", 5, ""⟩) ∧
    (GetDatabaseSchema id (catalogRowQueries asciiToUpper true sampleCatalog) "MASTER"
      "sales").1 = .ok (some ⟨5, "sales", 5, ""⟩) ∧
    (GetDatabaseSchema id (catalogRowQueries asciiToUpper false sampleCatalog) "MASTER"
      "sales").1 = .ok (some ⟨5, "sales", 5, "alice"⟩) := by
  decide

/-- C30, amended: `GetDatabaseSchema` binds the empty string to `@ownerName`,
for every database and schema name. On a server that runs the command on a
catalog, the entity it returns therefore has the empty owner name exactly on
the hosted edition with a database name that the comparison of the server
equals to `master` (trailing blanks ignored, then the collation), whoever owns
the schema, and in every other case the name of the principal that owns the
schema; it returns an entity as soon as a schema of that name exists with its
owner in the catalog. -/
theorem GetDatabaseSchema_ownerName (collate : String → String)
    (setDatabase : String → String) (q : RowQueries)
    (azure : Bool) (cat : Catalog) (database schemaName : String)
    (hq : q.scanSchema (GetDatabaseSchema_query (setDatabase database) schemaName) =
      GetDatabaseSchema_scan collate azure cat
        (GetDatabaseSchema_query (setDatabase database) schemaName)) :
    namedArg (GetDatabaseSchema_query (setDatabase database) schemaName).args "ownerName" =
      some (.text "") ∧
    (∀ sqlschema,
      (GetDatabaseSchema setDatabase q database schemaName).1 = .ok (some sqlschema) →
      (azure = true ∧ collate (rtrim (setDatabase database)) = collate (rtrim "master") →
        sqlschema.OwnerName = "") ∧
      (¬ (azure = true ∧ collate (rtrim (setDatabase database)) = collate (rtrim "master")) →
        ∃ dp1 ∈ cat.schemas, ∃ dp2 ∈ cat.database_principals,
          collate (rtrim dp1.name) = collate (rtrim schemaName) ∧
          dp1.principal_id = dp2.principal_id ∧
          sqlschema.SchemaID = dp1.schema_id ∧ sqlschema.SchemaName = dp1.name ∧
          sqlschema.OwnerId = dp2.principal_id ∧
          sqlschema.OwnerName = dp2.name)) ∧
    ((∃ dp1 ∈ cat.schemas, ∃ dp2 ∈ cat.database_principals,
        collate (rtrim dp1.name) = collate (rtrim schemaName) ∧
        dp1.principal_id = dp2.principal_id) →
      ∃ sqlschema,
        (GetDatabaseSchema setDatabase q database schemaName).1 = .ok (some sqlschema)) := by
  have hd : (GetDatabaseSchema_query (setDatabase database) schemaName).text "database" =
      setDatabase database := rfl
  have hn : (GetDatabaseSchema_query (setDatabase database) schemaName).text "schemaName" =
      schemaName := rfl
  have ho : (GetDatabaseSchema_query (setDatabase database) schemaName).text "ownerName" =
      "" := rfl
  have hmem : ∀ row ∈ GetDatabaseSchema_rows collate azure cat (setDatabase database)
        schemaName "",
      ∃ dp1 ∈ cat.schemas, ∃ dp2 ∈ cat.database_principals,
        collate (rtrim dp1.name) = collate (rtrim schemaName) ∧
        dp1.principal_id = dp2.principal_id ∧
        row.SchemaID = dp1.schema_id ∧ row.SchemaName = dp1.name ∧
        row.OwnerId = dp2.principal_id ∧
        row.OwnerName =
          if azure = true ∧ collate (rtrim (setDatabase database)) = collate (rtrim "master")
          then "" else dp2.name := by
    intro row hrow
    simp only [GetDatabaseSchema_rows, sqlEq, List.mem_flatMap, List.mem_map, List.mem_filter,
      decide_eq_true_eq] at hrow
    obtain ⟨dp1, h1, dp2, ⟨h2, hj, hnm⟩, rfl⟩ := hrow
    refine ⟨dp1, h1, dp2, h2, hnm, hj, rfl, rfl, hj, ?_⟩
    simp
  refine ⟨rfl, ?_, ?_⟩
  · intro sqlschema hres
    unfold GetDatabaseSchema at hres
    simp only [hq, GetDatabaseSchema_scan, hd, hn, ho] at hres
    rcases hrows : GetDatabaseSchema_rows collate azure cat (setDatabase database) schemaName ""
      with _ | ⟨row, rest⟩
    · simp [hrows] at hres
    · simp only [hrows, Except.ok.injEq, Option.some.injEq] at hres
      subst hres
      obtain ⟨dp1, h1, dp2, h2, hnm, hj, hid, hsn, hown, hname⟩ :=
        hmem row (by rw [hrows]; exact List.mem_cons_self _ _)
      constructor
      · intro hm
        rw [hname, if_pos hm]
      · intro hm
        exact ⟨dp1, h1, dp2, h2, hnm, hj, hid, hsn, hown, by rw [hname, if_neg hm]⟩
  · rintro ⟨dp1, h1, dp2, h2, hnm, hj⟩
    have hne : GetDatabaseSchema_rows collate azure cat (setDatabase database) schemaName "" ≠
        [] := by
      intro hnil
      have : (⟨dp1.schema_id, dp1.name, dp1.principal_id,
          if azure = true ∧ sqlEq collate (setDatabase database) "master" ∧
            (sqlEq collate "" "dbo" ∨ sqlEq collate "" "") then "" else dp2.name⟩ :
          DatabaseSchema) ∈
          GetDatabaseSchema_rows collate azure cat (setDatabase database) schemaName "" := by
        simp only [GetDatabaseSchema_rows, List.mem_flatMap, List.mem_map, List.mem_filter,
          decide_eq_true_eq]
        exact ⟨dp1, h1, dp2, ⟨h2, hj, hnm⟩, rfl⟩
      rw [hnil] at this
      exact absurd this (List.not_mem_nil _)
    unfold GetDatabaseSchema
    simp only [hq, GetDatabaseSchema_scan, hd, hn, ho]
    rcases hrows : GetDatabaseSchema_rows collate azure cat (setDatabase database) schemaName ""
      with _ | ⟨row, rest⟩
    · exact absurd hrows hne
    · exact ⟨row, rfl⟩

/-- The schema `sales` of the sample catalog is owned by `alice`: on the hosted
edition with the database `master` the owner name read is empty, with the
database `db` it is `alice`. -/
theorem GetDatabaseSchema_ownerName_witness :
    (GetDatabaseSchema id (catalogRowQueries id true sampleCatalog) "master" "sales").1 =
      .ok (some ⟨5, "sales", 5, ""⟩) ∧
    (GetDatabaseSchema id (catalogRowQueries id true sampleCatalog) "db" "sales").1 =
      .ok (some ⟨5, "sales", 5, "alice"⟩) ∧
    (∀ sqlschema,
      (GetDatabaseSchema id (catalogRowQueries id true sampleCatalog) "master" "sales").1 =
        .ok (some sqlschema) → sqlschema.OwnerName = "") :=
  ⟨by decide, by decide,
   fun sqlschema h =>
     ((GetDatabaseSchema_ownerName id id (catalogRowQueries id true sampleCatalog) true
       sampleCatalog "master" "sales" rfl).2.1 sqlschema h).1 ⟨rfl, rfl⟩⟩

/-! ### Substrings -/

/-- A block occurs in a text exactly when the text is the block between a
prefix and a suffix. -/
theorem occursIn_iff (p s : List Char) : occursIn p s = true ↔ ∃ a b, s = a ++ p ++ b := by
  induction s with
  | nil =>
    simp only [occursIn, List.isEmpty_iff]
    constructor
    · rintro rfl
      exact ⟨[], [], rfl⟩
    · rintro ⟨a, b, h⟩
      have h2 := congrArg List.length h
      simp only [List.length_nil, List.length_append] at h2
      exact List.length_eq_zero.mp (by omega)
  | cons c cs ih =>
    simp only [occursIn, Bool.or_eq_true, ih]
    constructor
    · rintro (h | ⟨a, b, h⟩)
      · obtain ⟨t, ht⟩ := List.isPrefixOf_iff_prefix.mp h
        exact ⟨[], t, by simpa using ht.symm⟩
      · exact ⟨c :: a, b, by simp [h]⟩
    · rintro ⟨a, b, h⟩
      cases a with
      | nil =>
        left
        exact List.isPrefixOf_iff_prefix.mpr ⟨b, by simpa using h.symm⟩
      | cons x a =>
        right
        simp only [List.cons_append, List.cons.injEq] at h
        exact ⟨a, b, h.2⟩

/-- A text that holds a block still holds it when something is put after it. -/
theorem Contains_append_left (s t p : String) (h : Contains s p = true) :
    Contains (s ++ t) p = true := by
  unfold Contains at *
  obtain ⟨a, b, hab⟩ := (occursIn_iff _ _).mp h
  exact (occursIn_iff _ _).mpr ⟨a, b ++ t.data, by simp [String.data_append, hab]⟩

/-- A text that holds a block still holds it when something is put before it. -/
theorem Contains_append_right (s t p : String) (h : Contains t p = true) :
    Contains (s ++ t) p = true := by
  unfold Contains at *
  obtain ⟨a, b, hab⟩ := (occursIn_iff _ _).mp h
  exact (occursIn_iff _ _).mpr ⟨s.data ++ a, b, by simp [String.data_append, hab]⟩

/-- The end `q` of the left part and a start `p` of the right part occur
together in the whole. -/
theorem Contains_bridge (x q lit p : String) (h : p.data.isPrefixOf lit.data = true) :
    Contains (x ++ q ++ lit) (q ++ p) = true := by
  unfold Contains
  obtain ⟨t, ht⟩ := List.isPrefixOf_iff_prefix.mp h
  exact (occursIn_iff _ _).mpr ⟨x.data, t, by simp [String.data_append, ← ht]⟩

/-- A bridge at the very start of a text. -/
theorem Contains_bridge_start (q lit p : String) (h : p.data.isPrefixOf lit.data = true) :
    Contains (q ++ lit) (q ++ p) = true := by
  unfold Contains
  obtain ⟨t, ht⟩ := List.isPrefixOf_iff_prefix.mp h
  exact (occursIn_iff _ _).mpr ⟨[], t, by simp [String.data_append, ← ht]⟩

/-! ### sql/user.go: catalog views in the dynamic statements -/

/-- A non-null concatenation with a non-null right operand ends with it. -/
theorem concatNull_some_right (x : Option String) (b stmt : String)
    (h : concatNull x (some b) = some stmt) : ∃ s, stmt = s ++ b := by
  cases x with
  | none => simp [concatNull] at h
  | some s =>
    simp only [concatNull, Option.some.injEq] at h
    exact ⟨s, h.symm⟩

/-- Every statement that `CreateUser` builds ends with the role batch. -/
theorem CreateUser_stmt_roleBatch (collate : String → String) (azure : Bool)
    (guidToSid : String → Except String String)
    (database : String) (user : User) (stmt : String)
    (h : CreateUser collate azure guidToSid database user = .ok (some stmt)) :
    ∃ s, stmt = s ++ CreateUser_roleBatch database user.Username (Join user.Roles ",") := by
  unfold CreateUser at h
  simp only [bind, Except.bind, pure, Except.pure] at h
  by_cases hc : sqlEq collate user.LoginName "" ∧ ¬ sqlEq collate user.Username "" ∧
      sqlEq collate user.Password ""
  · rw [if_pos hc] at h
    by_cases ha : azure = true
    · rw [if_pos ha] at h
      by_cases ho : ¬ sqlEq collate user.ObjectId ""
      · rw [if_pos ho] at h
        rcases hg : guidToSid user.ObjectId with err | sid
        · rw [hg] at h
          exact absurd h (by simp)
        · rw [hg] at h
          exact concatNull_some_right _ _ _ (Except.ok.inj h)
      · rw [if_neg ho] at h
        exact concatNull_some_right _ _ _ (Except.ok.inj h)
    · rw [if_neg ha] at h
      exact concatNull_some_right _ _ _ (Except.ok.inj h)
  · rw [if_neg hc] at h
    exact concatNull_some_right _ _ _ (Except.ok.inj h)

/-- The role batch of `CreateUser` names the principals view with the database. -/
theorem CreateUser_roleBatch_qualified (database username roles : String) :
    Contains (CreateUser_roleBatch database username roles)
      (QuoteName database ++ ".[sys].[database_principals]") = true := by
  unfold CreateUser_roleBatch
  generalize QuoteName database = q
  generalize QuoteName username = u
  generalize QuoteLiteral roles = r
  iterate 16 (apply Contains_append_left)
  exact Contains_bridge _ _ _ _ (by decide)

/-- The cursor part of `UpdateUser` names both catalog views with the database. -/
theorem UpdateUser_roleBatch_qualified (database username roles : String) :
    Contains (UpdateUser_roleBatch database username roles)
      (QuoteName database ++ ".[sys].[database_principals]") = true ∧
    Contains (UpdateUser_roleBatch database username roles)
      (QuoteName database ++ ".[sys].[database_role_members]") = true := by
  unfold UpdateUser_roleBatch
  generalize QuoteName database = q
  generalize QuoteName username = u
  generalize QuoteLiteral roles = r
  generalize QuoteLiteral username = v
  constructor
  · iterate 43 (apply Contains_append_left)
    exact Contains_bridge _ _ _ _ (by decide)
  · iterate 41 (apply Contains_append_left)
    exact Contains_bridge _ _ _ _ (by decide)

/-- C22, counterexample: on the hosted edition, under a binary collation, the
statements that `CreateUser`, `UpdateUser` and `DeleteUser` build for the
database `db` name
the catalog views as `[db].[sys].[database_principals]` and
`[db].[sys].[database_role_members]`; the statement of `GetUser` does not hold
the database name. -/
theorem hosted_statements_qualified :
    CreateUser id true (fun _ => .error "conversion failed") "db" sampleUser =
      .ok (some ("CREATE USER [alice] FROM EXTERNAL PROVIDER WITH DEFAULT_SCHEMA = [dbo]" ++
        CreateUser_roleBatch "db" "alice" "readers,writers")) ∧
    Contains (CreateUser_roleBatch "db" "alice" "readers,writers")
      "[db].[sys].[database_principals]" = true ∧
    Contains (UpdateUser_stmt id true (some "DATABASE") "db" sampleUser)
      "[db].[sys].[database_principals]" = true ∧
    Contains (UpdateUser_stmt id true (some "DATABASE") "db" sampleUser)
      "[db].[sys].[database_role_members]" = true ∧
    (DeleteUser "dbo" sampleCatalog "db" "alice").getLast? =
      some "IF EXISTS (SELECT 1 FROM [db].[sys].[database_principals] WHERE [name] = 'alice') DROP USER [alice]" ∧
    Contains (GetUser_stmt true "db" "alice") "[db]" = false := by
  refine ⟨by decide, CreateUser_roleBatch_qualified "db" "alice" "readers,writers", ?_, ?_,
    by decide, by decide⟩
  · exact Contains_append_right _ _ _ (UpdateUser_roleBatch_qualified "db" "alice" _).1
  · exact Contains_append_right _ _ _ (UpdateUser_roleBatch_qualified "db" "alice" _).2

/-- C22, amended: the statement that `GetUser` builds on the hosted edition
does not depend on the database name and names the catalog views without it,
and the one it builds on the other edition names them with the quoted
database name. The statements of `CreateUser`, `UpdateUser` and `DeleteUser`
name `[sys].[database_principals]` (and `UpdateUser` also
`[sys].[database_role_members]`) with the quoted database name on every
edition. -/
theorem statements_catalog_qualification (collate : String → String) (azure : Bool)
    (guidToSid : String → Except String String) (auth_type : Option String)
    (user_name : String) (cat : Catalog) (database username : String) (user : User) :
    ((∀ database', GetUser_stmt true database username =
        GetUser_stmt true database' username) ∧
      Contains (GetUser_stmt false database username)
        (QuoteName database ++ ".[sys].[database_role_members]") = true ∧
      Contains (GetUser_stmt false database username)
        (QuoteName database ++ ".[sys].[database_principals]") = true) ∧
    (∀ stmt, CreateUser collate azure guidToSid database user = .ok (some stmt) →
      Contains stmt (QuoteName database ++ ".[sys].[database_principals]") = true) ∧
    (Contains (UpdateUser_stmt collate azure auth_type database user)
        (QuoteName database ++ ".[sys].[database_principals]") = true ∧
      Contains (UpdateUser_stmt collate azure auth_type database user)
        (QuoteName database ++ ".[sys].[database_role_members]") = true) ∧
    (∃ stmt ∈ DeleteUser user_name cat database username,
      Contains stmt (QuoteName database ++ ".[sys].[database_principals]") = true) := by
  refine ⟨⟨?_, ?_, ?_⟩, ?_, ⟨?_, ?_⟩, ?_⟩
  · intro database'
    unfold GetUser_stmt
    rw [if_pos rfl, if_pos rfl]
  · simp only [GetUser_stmt, Bool.false_eq_true, if_false]
    generalize QuoteName database = q
    generalize QuoteLiteral username = v
    iterate 18 (apply Contains_append_left)
    exact Contains_bridge _ _ _ _ (by decide)
  · simp only [GetUser_stmt, Bool.false_eq_true, if_false]
    generalize QuoteName database = q
    generalize QuoteLiteral username = v
    iterate 6 (apply Contains_append_left)
    exact Contains_bridge _ _ _ _ (by decide)
  · intro stmt h
    obtain ⟨s, rfl⟩ := CreateUser_stmt_roleBatch collate azure guidToSid database user stmt h
    exact Contains_append_right _ _ _ (CreateUser_roleBatch_qualified _ _ _)
  · exact Contains_append_right _ _ _ (UpdateUser_roleBatch_qualified _ _ _).1
  · exact Contains_append_right _ _ _ (UpdateUser_roleBatch_qualified _ _ _).2
  · refine ⟨"IF EXISTS (SELECT 1 FROM " ++ QuoteName database ++
      ".[sys].[database_principals] WHERE [name] = " ++ QuoteLiteral username ++ ") " ++
      "DROP USER " ++ QuoteName username, ?_, ?_⟩
    · unfold DeleteUser
      exact List.mem_append_right _ (List.mem_singleton.mpr rfl)
    · generalize QuoteName database = q
      generalize QuoteName username = u
      generalize QuoteLiteral username = v
      iterate 4 (apply Contains_append_left)
      exact Contains_bridge _ _ _ _ (by decide)


/-! ### mssql/resource_database_sqlscript.go: the plan-time check -/

/-- A text that holds a block holds every end of the block. -/
theorem Contains_suffix (s a b : String) (h : Contains s (a ++ b) = true) :
    Contains s b = true := by
  unfold Contains at *
  obtain ⟨x, y, hxy⟩ := (occursIn_iff _ _).mp h
  exact (occursIn_iff _ _).mpr ⟨x ++ a.data, y, by simp [hxy, String.data_append]⟩

/-- A `drop ... create` pattern ends with the `create` pattern of the same name. -/
theorem dropCreate_eq (t n : String) :
    "drop " ++ t ++ " " ++ n ++ ".*create " ++ t ++ " " ++ n =
      ("drop " ++ t ++ " " ++ n ++ ".*") ++ ("create " ++ t ++ " " ++ n) := by
  have h : (".*create " : String) = ".*" ++ "create " := by decide
  rw [h]
  simp only [String.append_assoc]

/-- The path of a user id has three fields. -/
theorem Split_user_path (database username : String)
    (hd : '/' ∉ database.data) (hu : '/' ∉ username.data) :
    Split ("/" ++ database ++ "/" ++ username) '/' = ["", database, username] := by
  have h := Split_Join '/' ["", database, username] (by simp) (by
    intro x hx
    simp only [List.mem_cons, List.mem_singleton, List.not_mem_nil, or_false] at hx
    rcases hx with rfl | rfl | rfl
    · decide
    · exact hd
    · exact hu)
  have he : Join ["", database, username] (String.singleton '/') =
      "/" ++ database ++ "/" ++ username := by
    have h1 : String.singleton '/' = "/" := by decide
    simp only [Join, h1, String.append_assoc, String.empty_append]
  rw [he] at h
  exact h

/-- The path of a script import id has four fields. -/
theorem Split_sqlscript_path (database b64 : String)
    (hd : '/' ∉ database.data) (hb : '/' ∉ b64.data) :
    Split ("/" ++ database ++ "/sqlscript/" ++ b64) '/' = ["", database, "sqlscript", b64] := by
  have h := Split_Join '/' ["", database, "sqlscript", b64] (by simp) (by
    intro x hx
    simp only [List.mem_cons, List.mem_singleton, List.not_mem_nil, or_false] at hx
    rcases hx with rfl | rfl | rfl | rfl
    · decide
    · exact hd
    · decide
    · exact hb)
  have he : Join ["", database, "sqlscript", b64] (String.singleton '/') =
      "/" ++ database ++ "/sqlscript/" ++ b64 := by
    have h1 : String.singleton '/' = "/" := by decide
    have h2 : ("/sqlscript/" : String) = "/" ++ ("sqlscript" ++ "/") := by decide
    simp only [Join, h1, h2, String.append_assoc, String.empty_append]
  rw [he] at h
  exact h

/-- The decoded text `db:v` has two fields. -/
theorem Split_decoded (database v : String)
    (hd : ':' ∉ database.data) (hv : ':' ∉ v.data) :
    Split (database ++ ":" ++ v) ':' = [database, v] := by
  have h := Split_Join ':' [database, v] (by simp) (by
    intro x hx
    simp only [List.mem_cons, List.mem_singleton, List.not_mem_nil, or_false] at hx
    rcases hx with rfl | rfl
    · exact hd
    · exact hv)
  have he : Join [database, v] (String.singleton ':') = database ++ ":" ++ v := by
    have h1 : String.singleton ':' = ":" := by decide
    simp only [Join, h1]
  rw [he] at h
  exact h

/-- C23: the id that `getUserID` builds, with the `?azure=` query of the
acceptance-test helper appended, has the path `/database/username`, which
`strings.Split` cuts into three fields; `resourceUserImport` asks for four, so
it rejects the id with `invalid ID` and makes no connector call. -/
theorem resourceUserImport_rejects_getUserID {σ : Type} (SetList : List String → List String)
    (serverFromId : String → Except GoError (Server × URL))
    (conn : Except GoError (UserConnector σ)) (d0 data : ResourceData UserAttrs) (s : σ)
    (azure : Bool) (server : Server)
    (hid : testAccImportStateId (getUserID d0) azure = .ok data.Id)
    (hsrv : serverFromId data.Id =
      .ok (server, ⟨"/" ++ d0.cur.database ++ "/" ++ d0.cur.username⟩))
    (hd : '/' ∉ d0.cur.database.data) (hu : '/' ∉ d0.cur.username.data) :
    data.Id = getUserID d0 ++ "?azure=" ++ FormatBool azure ∧
    Split ("/" ++ d0.cur.database ++ "/" ++ d0.cur.username) '/' =
      ["", d0.cur.database, d0.cur.username] ∧
    resourceUserImport SetList serverFromId conn data s = ⟨.error "invalid ID", s, []⟩ := by
  refine ⟨?_, Split_user_path _ _ hd hu, ?_⟩
  · unfold testAccImportStateId at hid
    split_ifs at hid
    exact (Except.ok.inj hid).symm
  · unfold resourceUserImport
    simp only [hsrv, Split_user_path _ _ hd hu]

/-- The id of the user `alice` of the database `db`, as the test helper passes
it, is rejected although the server has the user. -/
theorem resourceUserImport_rejects_getUserID_witness :
    getUserID (sampleUserData false) = "sqlserver://localhost:1433/db/alice" ∧
    sampleServerFromId "sqlserver://localhost:1433/db/alice?azure=false" =
      .ok (⟨"localhost", "1433"⟩, ⟨"/db/alice"⟩) ∧
    resourceUserImport sampleSetList sampleServerFromId (.ok sampleUserServer)
      ((sampleUserData false).SetId "sqlserver://localhost:1433/db/alice?azure=false")
      ["alice"] = ⟨.error "invalid ID", ["alice"], []⟩ :=
  ⟨by decide, by decide,
   (resourceUserImport_rejects_getUserID sampleSetList sampleServerFromId (.ok sampleUserServer)
     (sampleUserData false)
     ((sampleUserData false).SetId "sqlserver://localhost:1433/db/alice?azure=false")
     ["alice"] false ⟨"localhost", "1433"⟩ (by decide) (by decide) (by decide) (by decide)).2.2⟩

/-- C27: the target `TABLE ab?` is accepted by
`validateVerifyObject` and holds no colon, and the database name `db` holds
neither a slash nor a colon; the standard base64 encoding of `db:TABLE ab?`
ends with a slash, the path then has five fields, and
`resourceDatabaseSQLScriptImport` rejects the id. -/
theorem resourceDatabaseSQLScriptImport_base64_slash :
    validateVerifyObject asciiToUpper "TABLE ab?" = none ∧
    ':' ∉ "TABLE ab?".data ∧ '/' ∉ "db".data ∧ ':' ∉ "db".data ∧
    asciiEncodeToString ("db" ++ ":" ++ "TABLE ab?") = "ZGI6VEFCTEUgYWI/" ∧
    Split ("/db/sqlscript/" ++ asciiEncodeToString ("db" ++ ":" ++ "TABLE ab?")) '/' =
      ["", "db", "sqlscript", "ZGI6VEFCTEUgYWI", ""] ∧
    sampleServerFromId "sqlserver://localhost:1433/db/sqlscript/ZGI6VEFCTEUgYWI/" =
      .ok (⟨"localhost", "1433"⟩, ⟨"/db/sqlscript/ZGI6VEFCTEUgYWI/"⟩) ∧
    (resourceDatabaseSQLScriptImport asciiToUpper asciiDecodeString sampleServerFromId
      (fun _ => "sqlserver://localhost:1433/db/sqlscript")
      (.ok (fixedSQLScriptConnector (.ok true) none))
      (sampleSQLScriptData.SetId "sqlserver://localhost:1433/db/sqlscript/ZGI6VEFCTEUgYWI/")
      ()).result =
      .error "invalid ID format. Expected 'mssql://server:port/databasename/sqlscript/base64(databasename:verify_object)', got: sqlserver://localhost:1433/db/sqlscript/ZGI6VEFCTEUgYWI/" := by
  decide

/-- Where the encoding holds no slash the id is accepted: when the path of the
id is `/db/sqlscript/` followed by a text without slash that decodes to
`db:v`, where `db` holds no slash and no
colon and `v` is accepted by `validateVerifyObject` and holds no colon,
`resourceDatabaseSQLScriptImport` passes all of its parsing: with a connector
for which the database exists and the verification query succeeds it returns
the resource data with the database `db` and the verification target `v`, and
without a connector it fails only with the connector error. -/
theorem resourceDatabaseSQLScriptImport_accepts {σ : Type} (ToUpper : String → String)
    (DecodeString : String → Except GoError String)
    (serverFromId : String → Except GoError (Server × URL))
    (getDatabaseSQLScriptID : ResourceData SQLScriptAttrs → String)
    (cq : DatabaseSQLScriptConnector σ) (data : ResourceData SQLScriptAttrs) (s s1 s2 : σ)
    (server : Server) (db v b64 query : String) (err : GoError)
    (hsrv : serverFromId data.Id = .ok (server, ⟨"/" ++ db ++ "/sqlscript/" ++ b64⟩))
    (hb : '/' ∉ b64.data) (hdec : DecodeString b64 = .ok (db ++ ":" ++ v))
    (hd : '/' ∉ db.data ∧ ':' ∉ db.data) (hv : ':' ∉ v.data)
    (hval : validateVerifyObject ToUpper v = none)
    (hE : cq.DatabaseExists db s = (.ok true, s1))
    (hq : getObjectExistsQuery ToUpper v = .ok query)
    (hx : cq.DataBaseExecuteScript db query s1 = (none, s2)) :
    (∃ d, (resourceDatabaseSQLScriptImport ToUpper DecodeString serverFromId
          getDatabaseSQLScriptID (.ok cq) data s).result = .ok d ∧
        d.cur.database = db ∧ d.cur.verifyObject = v ∧
        d.cur.host = server.host ∧ d.cur.port = server.port) ∧
    resourceDatabaseSQLScriptImport ToUpper DecodeString serverFromId getDatabaseSQLScriptID
      (.error err) data s = ⟨.error ("failed to get connector: " ++ err.Error), s, []⟩ := by
  constructor
  · unfold resourceDatabaseSQLScriptImport
    simp only [hsrv, Split_sqlscript_path _ _ hd.1 hb, hdec, Split_decoded _ _ hd.2 hv, hval,
      ne_eq, not_true_eq_false, if_false, hE, hq, hx]
    exact ⟨_, rfl, rfl, rfl, rfl, rfl⟩
  · unfold resourceDatabaseSQLScriptImport
    simp only [hsrv, Split_sqlscript_path _ _ hd.1 hb, hdec, Split_decoded _ _ hd.2 hv, hval,
      ne_eq, not_true_eq_false, if_false]

/-- The id with the encoding `ZGI6VEFCTEUgVXNlcnM=` of `db:TABLE Users` is
accepted, with the database `db` and the verification target `TABLE Users`. -/
theorem resourceDatabaseSQLScriptImport_accepts_witness :
    asciiEncodeToString ("db" ++ ":" ++ "TABLE Users") = "ZGI6VEFCTEUgVXNlcnM=" ∧
    ∃ d, (resourceDatabaseSQLScriptImport asciiToUpper asciiDecodeString sampleServerFromId
        (fun _ => "sqlserver://localhost:1433/db/sqlscript")
        (.ok (fixedSQLScriptConnector (.ok true) none))
        (sampleSQLScriptData.SetId
          "sqlserver://localhost:1433/db/sqlscript/ZGI6VEFCTEUgVXNlcnM=") ()).result = .ok d ∧
      d.cur.database = "db" ∧ d.cur.verifyObject = "TABLE Users" ∧
      d.cur.host = "localhost" ∧ d.cur.port = "1433" :=
  ⟨by decide,
   (resourceDatabaseSQLScriptImport_accepts asciiToUpper asciiDecodeString sampleServerFromId
     (fun _ => "sqlserver://localhost:1433/db/sqlscript")
     (fixedSQLScriptConnector (.ok true) none)
     (sampleSQLScriptData.SetId "sqlserver://localhost:1433/db/sqlscript/ZGI6VEFCTEUgVXNlcnM=")
     () () () ⟨"localhost", "1433"⟩ "db" "TABLE Users" "ZGI6VEFCTEUgVXNlcnM="
     ((getObjectExistsQuery asciiToUpper "TABLE Users").toOption.getD "")
     GoError.ErrNoRows
     (by decide) (by decide) (by decide) (by decide) (by decide) (by decide) rfl (by decide)
     rfl).1⟩

end Mssql
